import Mathlib

/-!
# Anycubic SLA archive exporter (libslic3r/Format/AnycubicSLA.cpp)

A shallow embedding of the raster span codec, the preview converter, the
format layout planner, the parameter resolver and the section serializer of
the Anycubic exporter, and of the archive registry of
libslic3r/Format/SLAArchiveWriter.cpp, followed by the properties established
about them.

Conventions of the embedding:
* a byte buffer is a `List Nat` whose entries stand for `std::uint8_t` values;
* `std::uint32_t` arithmetic is arithmetic on `Nat` reduced by `u32`;
* a `std::float_t` field is a value of an uninterpreted type `F`; the only
  operations the exporter needs on it are collected in `FloatOps`.
-/

set_option autoImplicit false

namespace AnycubicSLA

/-! ## Raster span codec -/

/-- The class limit `max_len` of `anycubicsla_get_pixel_span`:
`(pixel == 0 || pixel == 0xF0) ? 0xFFF : 0xF`. -/
def span_max_len (pixel : Nat) : Nat :=
  if pixel = 0 ∨ pixel = 0xF0 then 0xFFF else 0xF

/-- The `while` loop of `anycubicsla_get_pixel_span`. The list is the memory
from `ptr` up to `end`, so `ptr < end` is "the list is not empty";
the result is the final `span_len`. -/
def get_pixel_span_loop (pixel max_len : Nat) : List Nat → Nat → Nat
  | [], span_len => span_len
  | b :: rest, span_len =>
    if span_len < max_len ∧ (b &&& 0xF0) = pixel then
      get_pixel_span_loop pixel max_len rest (span_len + 1)
    else span_len

/-- `anycubicsla_get_pixel_span(ptr, end, pixel, span_len)`; the argument is
the memory from `ptr` to `end` (the caller guarantees `ptr < end`), the result
is the pair of out-parameters `(pixel, span_len)`. -/
def anycubicsla_get_pixel_span (src : List Nat) : Nat × Nat :=
  let pixel := (src.headD 0) &&& 0xF0
  let max_len := span_max_len pixel
  (pixel, get_pixel_span_loop pixel max_len src 0)

/-- The bytes appended to `dst` by one iteration of the encoder loop for the
span `(pixel, span_len)`. Each pushed value is a `std::uint8_t`, hence the
reduction modulo 256. -/
def emit_span (pixel span_len : Nat) : List Nat :=
  if pixel = 0 ∨ pixel = 0xF0 then
    [(pixel ||| (span_len >>> 8)) % 256, (span_len &&& 0xFF) % 256]
  else
    [(pixel ||| span_len) % 256]

/-- The `while (src < src_end)` loop of `AnycubicSLARasterEncoder::operator()`.
`src` is the memory from the cursor to `src_end`, `dst` the output vector. The
first argument bounds the number of iterations; `encoder_loop_fuel` shows that
`src.length` iterations always suffice. -/
def encoder_loop : Nat → List Nat → List Nat → List Nat
  | 0, _, dst => dst
  | fuel + 1, src, dst =>
    match src with
    | [] => dst
    | _ :: _ =>
      let ps := anycubicsla_get_pixel_span src
      encoder_loop fuel (src.drop ps.2) (dst ++ emit_span ps.1 ps.2)

/-- The spans `(pixel, span_len)` returned by the successive calls of
`anycubicsla_get_pixel_span` made by the encoder loop (the same loop as
`encoder_loop`, recording the spans instead of their bytes). -/
def encoder_spans : Nat → List Nat → List (Nat × Nat)
  | 0, _ => []
  | fuel + 1, src =>
    match src with
    | [] => []
    | _ :: _ =>
      let ps := anycubicsla_get_pixel_span src
      ps :: encoder_spans fuel (src.drop ps.2)

/-- An `sla::EncodedRaster`: the compressed buffer and the codec tag. -/
structure EncodedRaster where
  buffer : List Nat
  ext : String
deriving DecidableEq, Repr

/-- The encoder applied to the bytes between `src` and `src_end`. -/
def encode_plane (plane : List Nat) : List Nat :=
  encoder_loop plane.length plane []

/-- The bytes between `src` and `src_end = src + size` where
`size = w * h * num_components` is a `size_t` product. -/
def encoder_source (ptr : List Nat) (w h num_components : Nat) : List Nat :=
  ptr.take ((w * h * num_components) % 2 ^ 64)

/-- `AnycubicSLARasterEncoder::operator()(ptr, w, h, num_components)`. -/
def AnycubicSLARasterEncoder (ptr : List Nat) (w h num_components : Nat) : EncodedRaster :=
  { buffer := encode_plane (encoder_source ptr w h num_components), ext := "pwimg" }

/-- Reference decoder of the run-length stream, following the format
description: a byte whose high nibble is 0x0 or 0xF starts a 2-byte code of
that value whose 12-bit run length is `(low nibble << 8) | next byte`; any
other byte is a 1-byte code whose run length is its low nibble. A stream that
ends in the middle of a 2-byte code decodes the complete codes only. -/
def rle_decode : List Nat → List Nat
  | [] => []
  | b :: rest =>
    if (b &&& 0xF0) = 0 ∨ (b &&& 0xF0) = 0xF0 then
      match rest with
      | [] => []
      | c :: rest2 =>
        List.replicate (((b &&& 0x0F) <<< 8) ||| c) (b &&& 0xF0) ++ rle_decode rest2
    else
      List.replicate (b &&& 0x0F) (b &&& 0xF0) ++ rle_decode rest

/-- The pixels a list of spans stands for. -/
def expand_spans (spans : List (Nat × Nat)) : List Nat :=
  spans.flatMap (fun s => List.replicate s.2 s.1)

/-- Length of the longest prefix of `l` whose bytes all have high nibble `v`,
capped at `cap` (reference encoder). -/
def ref_span_len (v cap : Nat) (l : List Nat) : Nat :=
  min cap (l.takeWhile (fun b => decide ((b &&& 0xF0) = v))).length

/-- Reference encoder, following the format description: repeatedly take the
longest prefix of the remaining pixels sharing the high nibble `v` of the
first one, capped at 4095 pixels when `v` is 0x00 or 0xF0 and at 15 pixels
otherwise; a solid span of length `n` gives the bytes `v | (n >> 8)`,
`n & 0xFF`, a gray span the byte `v | n`. -/
def ref_encode : List Nat → List Nat
  | [] => []
  | b :: rest =>
    let v := b &&& 0xF0
    let cap := if v = 0x00 ∨ v = 0xF0 then 4095 else 15
    let n := ref_span_len v cap (b :: rest)
    (if v = 0x00 ∨ v = 0xF0 then [v ||| (n >>> 8), n &&& 0xFF] else [v ||| n])
      ++ ref_encode ((b :: rest).drop n)
termination_by l => l.length
decreasing_by
  all_goals simp_wf
  simp only [ref_span_len, List.takeWhile_cons, decide_True, List.length_cons]
  refine Nat.lt_min.mpr ⟨?_, by simp⟩
  split <;> decide

/-- A span as the encoder produces it: the value is a high nibble and the
length lies between 1 and the limit of the value's class. -/
def valid_span (s : Nat × Nat) : Prop :=
  (s.1 &&& 0xF0) = s.1 ∧ 1 ≤ s.2 ∧ s.2 ≤ span_max_len s.1

/-! ## Preview converter -/

/-- Reduction of a value to `std::uint32_t`. -/
def u32 (x : Nat) : Nat := x % 2 ^ 32

/-- `#define PREV_W 224` -/
def PREV_W : Nat := 224

/-- `#define PREV_H 168` -/
def PREV_H : Nat := 168

/-- `#define PREV_DPI 42` -/
def PREV_DPI : Nat := 42

/-- Modelled from the spec: `ThumbnailData` is declared in
GCode/ThumbnailData.hpp, which is not among the sources. The spec describes a
thumbnail as an RGBA8 pixel buffer with dimensions; `fill_preview` only reads
`pixels`. -/
structure ThumbnailData where
  width : Nat
  height : Nat
  pixels : List Nat
deriving DecidableEq, Repr

/-- An RGBA8 thumbnail carries four bytes for each of its `width * height`
pixels. -/
def ThumbnailData.well_formed (t : ThumbnailData) : Prop :=
  t.pixels.length = t.width * t.height * 4

/-- `anycubicsla_format_preview` without its `tag` member (the writer emits
the constant `TAG_PREVIEW` instead of reading it). -/
structure anycubicsla_format_preview where
  payload_size : Nat
  preview_w : Nat
  preview_dpi : Nat
  preview_h : Nat
  pixels : List Nat
deriving DecidableEq, Repr

/-- `sizeof(anycubicsla_format_preview)`: `tag[12]`, four 32-bit members and
`pixels[PREV_W * PREV_H * 2]`. -/
def sizeof_preview : Nat := 12 + 4 * 4 + PREV_W * PREV_H * 2

/-- The BGR565 value computed by `fill_preview` for one source pixel. -/
def bgr565 (r g b : Nat) : Nat :=
  ((b >>> 3) <<< 11) ||| ((g >>> 2) <<< 5) ||| (r >>> 3)

/-- The `while (i < len)` loop of `fill_preview`. Arguments: an iteration
bound, the source buffer `t.pixels` and its length, then the loop state `i`,
`dst_index` (a `std::uint32_t`), `pixel_x` and the destination `p.pixels`.
Every iteration advances `i` by 4, so `len` iterations always suffice. `i`
stays below `len + 4` and therefore never wraps. -/
def fill_preview_loop (src : List Nat) (len : Nat) :
    Nat → Nat → Nat → Nat → List Nat → List Nat
  | 0, _, _, _, px => px
  | fuel + 1, i, dst_index, pixel_x, px =>
    if i < len then
      let r := src.getD i 0
      let g := src.getD (i + 1) 0
      let b := src.getD (i + 2) 0
      let pixel := bgr565 r g b
      let px1 := px.set dst_index (pixel &&& 0xFF)
      let px2 := px1.set (u32 (dst_index + 1)) ((pixel >>> 8) &&& 0xFF)
      let dst2 := u32 (dst_index + 2)
      if pixel_x + 1 = PREV_W then
        fill_preview_loop src len fuel (i + 4) (u32 (dst2 + 2 ^ 32 - PREV_W * 4)) 0 px2
      else
        fill_preview_loop src len fuel (i + 4) dst2 (pixel_x + 1) px2
    else px

/-- `fill_preview(p, m, thumbnails)`; the unused parameter `m` is left out and
the updated `p` is returned. The `printf` of the sanity check has no effect on
the result. -/
def fill_preview (p : anycubicsla_format_preview) (thumbnails : List ThumbnailData) :
    anycubicsla_format_preview :=
  let p1 : anycubicsla_format_preview :=
    { p with
      preview_w := PREV_W
      preview_h := PREV_H
      preview_dpi := PREV_DPI
      payload_size := u32 (sizeof_preview - 12 - 4)
      pixels := List.replicate (PREV_W * PREV_H * 2) 0 }
  match thumbnails with
  | [] => p1
  | t :: _ =>
    let len := t.pixels.length
    if len ≠ PREV_W * PREV_H * 4 then p1
    else
      { p1 with
        pixels :=
          fill_preview_loop t.pixels len len 0 (u32 (PREV_W * (PREV_H - 1) * 2)) 0 p1.pixels }

/-- Destination byte index of the `k`-th source pixel (row `k / 224`, column
`k % 224`): the row order is inverted. -/
def preview_dst (k : Nat) : Nat := 2 * ((167 - k / 224) * 224 + k % 224)

/-- The BGR565 value of the `k`-th RGBA pixel of a source buffer. -/
def src_pixel (src : List Nat) (k : Nat) : Nat :=
  bgr565 (src.getD (4 * k) 0) (src.getD (4 * k + 1) 0) (src.getD (4 * k + 2) 0)

/-- The zero-initialised record `anycubicsla_format_preview preview = {}` of
`export_print`. -/
def preview_zero : anycubicsla_format_preview :=
  { payload_size := 0, preview_w := 0, preview_dpi := 0, preview_h := 0,
    pixels := List.replicate (PREV_W * PREV_H * 2) 0 }

/-- A 224x168 thumbnail filled with pure red (255, 0, 0, 255). -/
def red_thumbnail : ThumbnailData :=
  { width := 224, height := 168, pixels := (List.replicate (224 * 168) [255, 0, 0, 255]).flatten }

/-- A pure red thumbnail of 168x224 pixels: the dimensions are swapped, the
pixel count is the one of a 224x168 thumbnail. -/
def transposed_thumbnail : ThumbnailData :=
  { width := 168, height := 224, pixels := (List.replicate (168 * 224) [255, 0, 0, 255]).flatten }

/-! ## Records of the container -/

/-- Modelled from the spec: the version constants `ANYCUBIC_SLA_FORMAT_VERSION_*`
are declared in AnycubicSLA.hpp, which is not among the sources. The spec gives
the ordered enumeration {V1, V515, V516, V517}; the comment on
`anycubicsla_format_intro::version` gives the values 1, 515, 516 and 517. -/
inductive FormatVersion where
  | V1
  | V515
  | V516
  | V517
deriving DecidableEq, Repr

/-- Numeric value of a format version, the quantity the source compares. -/
def FormatVersion.val : FormatVersion → Nat
  | .V1 => 1
  | .V515 => 515
  | .V516 => 516
  | .V517 => 517

/-- The operations on `std::float_t` the exporter relies on. `bits` is the
32-bit pattern `*(std::uint32_t *) &val` read by `anycubicsla_write_float`,
`zero` the value of zeroed storage, `nat_lt i x` the comparison `i < x` of a
`size_t` with a float. -/
structure FloatOps (F : Type) where
  bits : F → Nat
  zero : F
  nat_lt : Nat → F → Bool

/-- `anycubicsla_format_intro` without its `tag`. The source declares
`software_data_offset` twice; a struct has one member of each name, so the
member appears once here and once in `sizeof_intro`. -/
structure anycubicsla_format_intro where
  version : Nat
  area_num : Nat
  header_data_offset : Nat
  software_data_offset : Nat
  preview_data_offset : Nat
  layer_color_offset : Nat
  layer_data_offset : Nat
  extra_data_offset : Nat
  machine_data_offset : Nat
  image_data_offset : Nat
  model_data_offset : Nat
deriving DecidableEq, Repr

/-- `sizeof(anycubicsla_format_intro)`: `tag[12]` and eleven 32-bit members. -/
def sizeof_intro : Nat := 12 + 11 * 4

/-- `anycubicsla_format_header` without its `tag`. The writer calls the members
`advanced_mode` and `blue_level` `advance_mode` and `blur_level`. -/
structure anycubicsla_format_header (F : Type) where
  payload_size : Nat
  pixel_size_um : F
  layer_height_mm : F
  exposure_time_s : F
  delay_before_exposure_s : F
  bottom_exposure_time_s : F
  bottom_layer_count : F
  lift_distance_mm : F
  lift_speed_mms : F
  retract_speed_mms : F
  volume_ml : F
  antialiasing : Nat
  res_x : Nat
  res_y : Nat
  weight_g : F
  price : F
  price_currency : Nat
  per_layer_override : Nat
  print_time_s : Nat
  transition_layer_count : Nat
  transition_layer_type : Nat
  advanced_mode : Nat
  gray : Nat
  blue_level : Nat
  resin_code : Nat

/-- `sizeof(anycubicsla_format_header)`: `tag[12]`, `payload_size`, ten floats,
three 32-bit integers, two floats, five 32-bit integers, `advanced_mode`, the
16-bit `gray` and `blue_level`, and the 32-bit `resin_code`. -/
def sizeof_header : Nat := 12 + 4 + 10 * 4 + 3 * 4 + 2 * 4 + 5 * 4 + 4 + 2 + 2 + 4

/-- `anycubicsla_format_layers_colors` (used as `anycubicsla_format_layers_color`). -/
structure anycubicsla_format_layers_color where
  use_full_grayscale : Nat
  grey_max_count : Nat
  grey : List Nat
  unknown : Nat
deriving DecidableEq, Repr

/-- `sizeof(anycubicsla_format_layers_color)`: two 32-bit members, `grey[16]`
and one 32-bit member. -/
def sizeof_color : Nat := 4 + 4 + 16 + 4

/-- `anycubicsla_format_layers_header` without its `tag`. -/
structure anycubicsla_format_layers_header where
  payload_size : Nat
  layer_count : Nat
deriving DecidableEq, Repr

/-- `sizeof(anycubicsla_format_layers_header)`. -/
def sizeof_layers_header : Nat := 12 + 4 + 4

/-- `anycubicsla_format_layer`. -/
structure anycubicsla_format_layer (F : Type) where
  image_offset : Nat
  image_size : Nat
  lift_distance_mm : F
  lift_speed_mms : F
  exposure_time_s : F
  layer_height_mm : F
  layer44 : F
  layer48 : F

/-- `sizeof(anycubicsla_format_layer)`: eight 4-byte members. -/
def sizeof_layer : Nat := 8 * 4

/-- `anycubicsla_format_misc`. -/
structure anycubicsla_format_misc (F : Type) where
  bottom_layer_height_mm : F
  bottom_lift_distance_mm : F
  bottom_lift_speed_mms : F

/-- `anycubicsla_format_extra` without its `tag`. The filler and the writer
call the three integer members `extra0`, `extra4` and `extra32` (their byte
offsets in the payload). -/
structure anycubicsla_format_extra (F : Type) where
  payload_length : Nat
  bottom_state_num : Nat
  lift_distance1_mm : F
  lift_speed1_mms : F
  retract_speed1_mms : F
  lift_distance2_mm : F
  lift_speed2_mms : F
  retract_speed2_mms : F
  state_num : Nat
  lift_distance3_mm : F
  lift_speed3_mms : F
  retract_speed3_mms : F
  lift_distance4_mm : F
  lift_speed4_mms : F
  retract_speed4_mms : F

/-- `sizeof(anycubicsla_format_extra)`. -/
def sizeof_extra : Nat := 12 + 4 + 4 + 6 * 4 + 4 + 6 * 4

/-- `anycubicsla_format_machine` without its `tag`. -/
structure anycubicsla_format_machine (F : Type) where
  payload_size : Nat
  name : List Nat
  image_format : List Nat
  volume_x : F
  volume_y : F
  volume_z : F
  version : Nat
  machine140 : Nat

/-- `sizeof(anycubicsla_format_machine)`. -/
def sizeof_machine : Nat := 12 + 4 + 96 + 24 + 3 * 4 + 4 + 4

/-- `anycubicsla_format_software`. -/
structure anycubicsla_format_software where
  name : List Nat
  payload_size : Nat
  version : List Nat
  operating_system : List Nat
  opengl_version : List Nat
deriving DecidableEq, Repr

/-- `sizeof(anycubicsla_format_software)`. -/
def sizeof_software : Nat := 32 + 4 + 32 + 64 + 32

/-- `anycubicsla_format_model` without its `tag`. -/
structure anycubicsla_format_model (F : Type) where
  payload_size : Nat
  minX : F
  minY : F
  minZ : F
  maxX : F
  maxY : F
  maxZ : F
  supports_enabled : Nat
  supports_density : F

/-- `sizeof(anycubicsla_format_model)`. -/
def sizeof_model : Nat := 12 + 4 + 6 * 4 + 4 + 4

/-! ## Record fillers that do not read the print configuration -/

/-- The table `grey_lookup`. -/
def grey_lookup : List Nat :=
  [15, 31, 47, 63, 79, 95, 111, 127, 143, 159, 175, 191, 207, 223, 239, 255]

/-- `fill_color(color)`: the loop stores `grey_lookup[i]` in `grey[i]` for every
`i < grey_max_count`. -/
def fill_color (color : anycubicsla_format_layers_color) : anycubicsla_format_layers_color :=
  { color with
    use_full_grayscale := 0
    grey_max_count := 16
    grey := (List.range 16).map (fun i => grey_lookup.getD i 0)
    unknown := 0 }

/-- `strcpy(dst, src)` into a character array: the characters of `src`, the
terminating zero, then the untouched rest of the array. -/
def strcpy (dst : List Nat) (src : String) : List Nat :=
  src.toList.map Char.toNat ++ [0] ++ dst.drop (src.length + 1)

/-- `fill_software(s)`. -/
def fill_software (s : anycubicsla_format_software) : anycubicsla_format_software :=
  { s with
    name := strcpy s.name "PRUSASLICER"
    payload_size := 164
    version := List.replicate 32 0
    opengl_version := strcpy s.opengl_version "3.3-CoreProfile" }

/-- `fill_model(m)`: only the payload size is set. -/
def fill_model {F : Type} (m : anycubicsla_format_model F) : anycubicsla_format_model F :=
  { m with payload_size := sizeof_model }

/-! ## Section serializer -/

/-- `out.write(data, n)`: exactly `n` bytes starting at `data`; the buffers
written this way are arrays of at least `n` bytes, positions beyond the list
read as zero. -/
def out_write (data : List Nat) (n : Nat) : List Nat :=
  (List.range n).map (fun i => data.getD i 0)

/-- A tag literal: the characters followed by `pad` zero bytes. -/
def tag_literal (s : String) (pad : Nat) : List Nat :=
  s.toList.map Char.toNat ++ List.replicate pad 0

/-- `#define TAG_INTRO "ANYCUBIC\0\0\0\0"` -/
def TAG_INTRO : List Nat := tag_literal "ANYCUBIC" 4

/-- `#define TAG_HEADER "HEADER\0\0\0\0\0\0"` -/
def TAG_HEADER : List Nat := tag_literal "HEADER" 6

/-- `#define TAG_PREVIEW "PREVIEW\0\0\0\0\0"` -/
def TAG_PREVIEW : List Nat := tag_literal "PREVIEW" 5

/-- `#define TAG_LAYERS "LAYERDEF\0\0\0\0"` -/
def TAG_LAYERS : List Nat := tag_literal "LAYERDEF" 4

/-- `#define TAG_EXTRA "EXTRA\0\0\0\0\0\0\0"` -/
def TAG_EXTRA : List Nat := tag_literal "EXTRA" 7

/-- The first definition of `TAG_MACHINE` (line 19), replaced by the second. -/
def TAG_MACHINE_first : List Nat := tag_literal "MACHINE" 5

/-- `#define TAG_MACHINE "MODEL\0\0\0\0\0\0\0"` (line 20): the second definition
of the macro is the one in force where `anycubicsla_write_machine` uses it. -/
def TAG_MACHINE : List Nat := tag_literal "MODEL" 7

/-- Modelled from the spec: the macro `TAG_MODEL` used by
`anycubicsla_write_model` is defined nowhere in the sources; the spec names
MODEL as the tag of the model section, 12 bytes, null-padded. -/
def TAG_MODEL : List Nat := tag_literal "MODEL" 7

/-- `anycubicsla_write_int16(out, val)`: the bytes appended to `out`. -/
def anycubicsla_write_int16 (val : Nat) : List Nat :=
  [val &&& 0xFF, (val >>> 8) &&& 0xFF]

/-- `anycubicsla_write_int32(out, val)`: the bytes appended to `out`. -/
def anycubicsla_write_int32 (val : Nat) : List Nat :=
  [val &&& 0xFF, (val >>> 8) &&& 0xFF, (val >>> 16) &&& 0xFF, (val >>> 24) &&& 0xFF]

/-- `anycubicsla_write_float(out, val)`. -/
def anycubicsla_write_float {F : Type} (fo : FloatOps F) (val : F) : List Nat :=
  anycubicsla_write_int32 (fo.bits val)

/-- `anycubicsla_write_intro(out, i, version)`. -/
def anycubicsla_write_intro (i : anycubicsla_format_intro) (version : FormatVersion) :
    List Nat :=
  out_write TAG_INTRO 12
    ++ anycubicsla_write_int32 i.version
    ++ anycubicsla_write_int32 i.area_num
    ++ anycubicsla_write_int32 i.header_data_offset
    ++ anycubicsla_write_int32 i.software_data_offset
    ++ anycubicsla_write_int32 i.preview_data_offset
    ++ anycubicsla_write_int32 i.layer_color_offset
    ++ anycubicsla_write_int32 i.layer_data_offset
    ++ anycubicsla_write_int32 i.extra_data_offset
    ++ (if FormatVersion.V516.val ≤ version.val then
          anycubicsla_write_int32 i.machine_data_offset else [])
    ++ (if FormatVersion.V517.val ≤ version.val then
          anycubicsla_write_int32 i.model_data_offset else [])
    ++ anycubicsla_write_int32 i.image_data_offset

/-- `anycubicsla_write_header(out, h, version)`. The last member, `resin_code`,
is written with `anycubicsla_write_int16`, as in the source. -/
def anycubicsla_write_header {F : Type} (fo : FloatOps F) (h : anycubicsla_format_header F)
    (version : FormatVersion) : List Nat :=
  out_write TAG_HEADER 12
    ++ anycubicsla_write_int32 h.payload_size
    ++ anycubicsla_write_float fo h.pixel_size_um
    ++ anycubicsla_write_float fo h.layer_height_mm
    ++ anycubicsla_write_float fo h.exposure_time_s
    ++ anycubicsla_write_float fo h.delay_before_exposure_s
    ++ anycubicsla_write_float fo h.bottom_exposure_time_s
    ++ anycubicsla_write_float fo h.bottom_layer_count
    ++ anycubicsla_write_float fo h.lift_distance_mm
    ++ anycubicsla_write_float fo h.lift_speed_mms
    ++ anycubicsla_write_float fo h.retract_speed_mms
    ++ anycubicsla_write_float fo h.volume_ml
    ++ anycubicsla_write_int32 h.antialiasing
    ++ anycubicsla_write_int32 h.res_x
    ++ anycubicsla_write_int32 h.res_y
    ++ anycubicsla_write_float fo h.weight_g
    ++ anycubicsla_write_float fo h.price
    ++ anycubicsla_write_int32 h.price_currency
    ++ anycubicsla_write_int32 h.per_layer_override
    ++ anycubicsla_write_int32 h.print_time_s
    ++ anycubicsla_write_int32 h.transition_layer_count
    ++ anycubicsla_write_int32 h.transition_layer_type
    ++ (if FormatVersion.V516.val ≤ version.val then
          anycubicsla_write_int32 h.advanced_mode else [])
    ++ (if FormatVersion.V517.val ≤ version.val then
          anycubicsla_write_int16 h.gray
            ++ anycubicsla_write_int16 h.blue_level
            ++ anycubicsla_write_int16 h.resin_code
        else [])

/-- `anycubicsla_write_preview(out, p)`. -/
def anycubicsla_write_preview (p : anycubicsla_format_preview) : List Nat :=
  out_write TAG_PREVIEW 12
    ++ anycubicsla_write_int32 p.payload_size
    ++ anycubicsla_write_int32 p.preview_w
    ++ anycubicsla_write_int32 p.preview_dpi
    ++ anycubicsla_write_int32 p.preview_h
    ++ out_write p.pixels (PREV_W * PREV_H * 2)

/-- `anycubicsla_write_layer_color(out, c)`. The writer emits a 32-bit value
`c.preview_dpi` although the struct declares no such member; its value is the
parameter `preview_dpi`. -/
def anycubicsla_write_layer_color (c : anycubicsla_format_layers_color) (preview_dpi : Nat) :
    List Nat :=
  anycubicsla_write_int32 c.use_full_grayscale
    ++ anycubicsla_write_int32 c.grey_max_count
    ++ (List.range c.grey_max_count).flatMap (fun i => out_write (c.grey.drop i) 1)
    ++ anycubicsla_write_int32 preview_dpi
    ++ anycubicsla_write_int32 c.unknown

/-- `anycubicsla_write_extra(out, e)`. -/
def anycubicsla_write_extra {F : Type} (fo : FloatOps F) (e : anycubicsla_format_extra F) :
    List Nat :=
  out_write TAG_EXTRA 12
    ++ anycubicsla_write_int32 e.payload_length
    ++ anycubicsla_write_int32 e.bottom_state_num
    ++ anycubicsla_write_float fo e.lift_distance1_mm
    ++ anycubicsla_write_float fo e.lift_speed1_mms
    ++ anycubicsla_write_float fo e.retract_speed1_mms
    ++ anycubicsla_write_float fo e.lift_distance2_mm
    ++ anycubicsla_write_float fo e.lift_speed2_mms
    ++ anycubicsla_write_float fo e.retract_speed2_mms
    ++ anycubicsla_write_int32 e.state_num
    ++ anycubicsla_write_float fo e.lift_distance3_mm
    ++ anycubicsla_write_float fo e.lift_speed3_mms
    ++ anycubicsla_write_float fo e.retract_speed3_mms
    ++ anycubicsla_write_float fo e.lift_distance4_mm
    ++ anycubicsla_write_float fo e.lift_speed4_mms
    ++ anycubicsla_write_float fo e.retract_speed4_mms

/-- `anycubicsla_write_machine(out, m)`. -/
def anycubicsla_write_machine {F : Type} (fo : FloatOps F) (m : anycubicsla_format_machine F) :
    List Nat :=
  out_write TAG_MACHINE 12
    ++ anycubicsla_write_int32 m.payload_size
    ++ out_write m.name 96
    ++ out_write m.image_format 24
    ++ anycubicsla_write_float fo m.volume_x
    ++ anycubicsla_write_float fo m.volume_y
    ++ anycubicsla_write_float fo m.volume_z
    ++ anycubicsla_write_int32 m.version
    ++ anycubicsla_write_int32 m.machine140

/-- `anycubicsla_write_model(out, m)`. -/
def anycubicsla_write_model {F : Type} (fo : FloatOps F) (m : anycubicsla_format_model F) :
    List Nat :=
  out_write TAG_MODEL 12
    ++ anycubicsla_write_int32 m.payload_size
    ++ anycubicsla_write_float fo m.minX
    ++ anycubicsla_write_float fo m.minY
    ++ anycubicsla_write_float fo m.minZ
    ++ anycubicsla_write_float fo m.maxX
    ++ anycubicsla_write_float fo m.maxY
    ++ anycubicsla_write_float fo m.maxZ
    ++ anycubicsla_write_int32 m.supports_enabled
    ++ anycubicsla_write_float fo m.supports_density

/-- `anycubicsla_write_software(out, s)` (the body names its parameter `m`). -/
def anycubicsla_write_software (s : anycubicsla_format_software) : List Nat :=
  out_write s.name 32
    ++ anycubicsla_write_int32 s.payload_size
    ++ out_write s.version 32
    ++ out_write s.operating_system 64
    ++ out_write s.opengl_version 32

/-- `anycubicsla_write_layers_header(out, h)`. -/
def anycubicsla_write_layers_header (h : anycubicsla_format_layers_header) : List Nat :=
  out_write TAG_LAYERS 12
    ++ anycubicsla_write_int32 h.payload_size
    ++ anycubicsla_write_int32 h.layer_count

/-- `anycubicsla_write_layer(out, l)`. -/
def anycubicsla_write_layer {F : Type} (fo : FloatOps F) (l : anycubicsla_format_layer F) :
    List Nat :=
  anycubicsla_write_int32 l.image_offset
    ++ anycubicsla_write_int32 l.image_size
    ++ anycubicsla_write_float fo l.lift_distance_mm
    ++ anycubicsla_write_float fo l.lift_speed_mms
    ++ anycubicsla_write_float fo l.exposure_time_s
    ++ anycubicsla_write_float fo l.layer_height_mm
    ++ anycubicsla_write_float fo l.layer44
    ++ anycubicsla_write_float fo l.layer48

/-! ## Format layout planner and archive writer -/

/-- Modelled from the spec: `SLAPrint` and its configuration store are external
collaborators (libslic3r/SLAPrint.hpp is not among the sources). `export_print`
reads the print only through `fill_header`, `fill_extra` and `fill_machine`; a
print is represented here by the records these three functions leave behind
for it: `fill_header version layer_count` is the pair `(header, misc)`,
`fill_machine version` the machine record. -/
structure SLAPrint (F : Type) where
  fill_header : FormatVersion → Nat → anycubicsla_format_header F × anycubicsla_format_misc F
  fill_extra : anycubicsla_format_extra F
  fill_machine : Nat → anycubicsla_format_machine F

/-- The zero-initialised `anycubicsla_format_intro intro = {}`. -/
def intro_zero : anycubicsla_format_intro :=
  { version := 0, area_num := 0, header_data_offset := 0, software_data_offset := 0,
    preview_data_offset := 0, layer_color_offset := 0, layer_data_offset := 0,
    extra_data_offset := 0, machine_data_offset := 0, image_data_offset := 0,
    model_data_offset := 0 }

/-- The zero-initialised `anycubicsla_format_layers_color color = {}`. -/
def color_zero : anycubicsla_format_layers_color :=
  { use_full_grayscale := 0, grey_max_count := 0, grey := List.replicate 16 0, unknown := 0 }

/-- The zero-initialised `anycubicsla_format_extra extra = {}`. -/
def extra_zero {F : Type} (fo : FloatOps F) : anycubicsla_format_extra F :=
  { payload_length := 0, bottom_state_num := 0,
    lift_distance1_mm := fo.zero, lift_speed1_mms := fo.zero, retract_speed1_mms := fo.zero,
    lift_distance2_mm := fo.zero, lift_speed2_mms := fo.zero, retract_speed2_mms := fo.zero,
    state_num := 0,
    lift_distance3_mm := fo.zero, lift_speed3_mms := fo.zero, retract_speed3_mms := fo.zero,
    lift_distance4_mm := fo.zero, lift_speed4_mms := fo.zero, retract_speed4_mms := fo.zero }

/-- The zero-initialised `anycubicsla_format_machine machine = {}`. -/
def machine_zero {F : Type} (fo : FloatOps F) : anycubicsla_format_machine F :=
  { payload_size := 0, name := List.replicate 96 0, image_format := List.replicate 24 0,
    volume_x := fo.zero, volume_y := fo.zero, volume_z := fo.zero, version := 0,
    machine140 := 0 }

/-- A zeroed `anycubicsla_format_software` (the source uses the variable
`software` without declaring it; the other records are zero-initialised). -/
def software_zero : anycubicsla_format_software :=
  { name := List.replicate 32 0, payload_size := 0, version := List.replicate 32 0,
    operating_system := List.replicate 64 0, opengl_version := List.replicate 32 0 }

/-- A zeroed `anycubicsla_format_model` (the source uses the variable `model`
without declaring it). -/
def model_zero {F : Type} (fo : FloatOps F) : anycubicsla_format_model F :=
  { payload_size := 0, minX := fo.zero, minY := fo.zero, minZ := fo.zero, maxX := fo.zero,
    maxY := fo.zero, maxZ := fo.zero, supports_enabled := 0, supports_density := fo.zero }

/-- Lines 854-869 of `export_print`: the version and the `switch` that sets
`area_num` (the label `NYCUBIC_SLA_FORMAT_VERSION_517` is read as the V517
constant). -/
def export_print_area (intro : anycubicsla_format_intro) (m_version : FormatVersion) :
    anycubicsla_format_intro :=
  let intro := { intro with version := m_version.val, area_num := 4 }
  match m_version with
  | .V1 => { intro with area_num := 4 }
  | .V515 => { intro with area_num := 5 }
  | .V516 => { intro with area_num := 8 }
  | .V517 => { intro with area_num := 9 }

/-- Subtraction of `std::uint32_t` values: `a - b` modulo 2^32. -/
def u32_sub (a b : Nat) : Nat := (a + (2 ^ 32 - b % 2 ^ 32)) % 2 ^ 32

/-- Lines 871-927 of `export_print`: the offsets of the intro table. Each
local stands for the member of `intro` of the same name and is rebound where
the source assigns the member; every member is a `std::uint32_t`, so every
assigned value is reduced by `u32`. Members the code does not assign keep the
value they have in `intro`. -/
def export_print_layout (intro : anycubicsla_format_intro) (version : FormatVersion)
    (layer_count : Nat) : anycubicsla_format_intro :=
  let header_data_offset := u32 sizeof_intro
  let header_data_offset :=
    if version.val ≤ FormatVersion.V515.val then u32_sub header_data_offset 4
    else if version.val ≤ FormatVersion.V516.val then u32_sub header_data_offset 4
    else header_data_offset
  let preview_data_offset := u32 (header_data_offset + sizeof_header)
  let layer_color_offset :=
    if FormatVersion.V515.val ≤ version.val then u32 (preview_data_offset + sizeof_preview)
    else intro.layer_color_offset
  let layer_data_offset :=
    if FormatVersion.V515.val ≤ version.val then u32 (layer_color_offset + sizeof_color)
    else u32 (preview_data_offset + sizeof_preview)
  let image_data_offset :=
    u32 (layer_data_offset + sizeof_layers_header + sizeof_layer * layer_count)
  let extra_data_offset :=
    if FormatVersion.V516.val ≤ version.val then image_data_offset
    else intro.extra_data_offset
  let machine_data_offset :=
    if FormatVersion.V516.val ≤ version.val then u32 (extra_data_offset + sizeof_extra)
    else intro.machine_data_offset
  let image_data_offset :=
    if FormatVersion.V516.val ≤ version.val then u32 (machine_data_offset + sizeof_machine)
    else image_data_offset
  let software_data_offset :=
    if FormatVersion.V517.val ≤ version.val then image_data_offset
    else intro.software_data_offset
  let model_data_offset :=
    if FormatVersion.V517.val ≤ version.val then u32 (software_data_offset + sizeof_software)
    else intro.model_data_offset
  let image_data_offset :=
    if FormatVersion.V517.val ≤ version.val then u32 (model_data_offset + sizeof_model)
    else image_data_offset
  { intro with
    header_data_offset := header_data_offset
    software_data_offset := software_data_offset
    preview_data_offset := preview_data_offset
    layer_color_offset := layer_color_offset
    layer_data_offset := layer_data_offset
    extra_data_offset := extra_data_offset
    machine_data_offset := machine_data_offset
    image_data_offset := image_data_offset
    model_data_offset := model_data_offset }

/-- The body of the `for (const sla::EncodedRaster &rst : m_layers)` loop of
`export_print`, as the list of layer records it writes; the arguments after
the rasters are the loop index `i` and the running `image_offset`. -/
def export_layers {F : Type} (fo : FloatOps F) (header : anycubicsla_format_header F)
    (misc : anycubicsla_format_misc F) :
    List EncodedRaster → Nat → Nat → List (anycubicsla_format_layer F)
  | [], _, _ => []
  | rst :: rest, i, image_offset =>
    let image_size := u32 rst.buffer.length
    let l : anycubicsla_format_layer F :=
      if fo.nat_lt i header.bottom_layer_count then
        { image_offset := image_offset, image_size := image_size,
          exposure_time_s := header.bottom_exposure_time_s,
          layer_height_mm := misc.bottom_layer_height_mm,
          lift_distance_mm := misc.bottom_lift_distance_mm,
          lift_speed_mms := misc.bottom_lift_speed_mms,
          layer44 := fo.zero, layer48 := fo.zero }
      else
        { image_offset := image_offset, image_size := image_size,
          exposure_time_s := header.exposure_time_s,
          layer_height_mm := header.layer_height_mm,
          lift_distance_mm := header.lift_distance_mm,
          lift_speed_mms := header.lift_speed_mms,
          layer44 := fo.zero, layer48 := fo.zero }
    l :: export_layers fo header misc rest (i + 1) (u32 (image_offset + image_size))

/-- The sections of the container, used to label the writes of `export_print`. -/
inductive Section where
  | intro
  | header
  | preview
  | layer_color
  | layers
  | extra
  | machine
  | software
  | model
  | image_data
deriving DecidableEq, Repr

/-- What one run of `export_print` produces: the intro table, the layers
header, and the writes made to the output file in order, each labelled with
the section it belongs to. -/
structure ExportResult where
  intro : anycubicsla_format_intro
  layers_header : anycubicsla_format_layers_header
  written : List (Section × List Nat)

/-- The bytes of the output file. -/
def ExportResult.file (r : ExportResult) : List Nat :=
  r.written.flatMap Prod.snd

/-- The layers header filled in the `try` block of `export_print`. -/
def export_layers_header (intro : anycubicsla_format_intro) (layer_count : Nat) :
    anycubicsla_format_layers_header :=
  { payload_size :=
      u32_sub (u32_sub (u32_sub intro.image_data_offset intro.layer_data_offset) 12) 4
    layer_count := layer_count }

/-- The `try` block of `export_print` (lines 929-987): the writes made to the
output stream, in order, from the planned intro table and the filled records.
`color_preview_dpi` is the value of the undeclared member read by
`anycubicsla_write_layer_color`. The call `anycubicsla_write_intro(out, intro)`
leaves out the version parameter of the function; `m_version` is passed, as in
the call of `anycubicsla_write_header`. The stream is assumed to accept every
write. -/
def export_print_write {F : Type} (fo : FloatOps F) (m_version : FormatVersion)
    (m_layers : List EncodedRaster) (layer_count : Nat) (intro : anycubicsla_format_intro)
    (header : anycubicsla_format_header F) (misc : anycubicsla_format_misc F)
    (preview : anycubicsla_format_preview) (color : anycubicsla_format_layers_color)
    (color_preview_dpi : Nat) (extra : anycubicsla_format_extra F)
    (machine : anycubicsla_format_machine F) (software : anycubicsla_format_software)
    (model : anycubicsla_format_model F) : List (Section × List Nat) :=
  [(Section.intro, anycubicsla_write_intro intro m_version),
    (Section.header, anycubicsla_write_header fo header m_version),
    (Section.preview, anycubicsla_write_preview preview)]
  ++ (if intro.layer_color_offset ≠ 0 then
        [(Section.layer_color, anycubicsla_write_layer_color color color_preview_dpi)]
      else [])
  ++ [(Section.layers,
        anycubicsla_write_layers_header (export_layers_header intro layer_count))]
  ++ (export_layers fo header misc m_layers 0 intro.image_data_offset).map
        (fun l => (Section.layers, anycubicsla_write_layer fo l))
  ++ (if intro.extra_data_offset ≠ 0 then
        [(Section.extra, anycubicsla_write_extra fo extra)] else [])
  ++ (if intro.machine_data_offset ≠ 0 then
        [(Section.machine, anycubicsla_write_machine fo machine)] else [])
  ++ (if intro.software_data_offset ≠ 0 then
        [(Section.software, anycubicsla_write_software software)] else [])
  ++ (if intro.model_data_offset ≠ 0 then
        [(Section.model, anycubicsla_write_model fo model)] else [])
  ++ [(Section.image_data, m_layers.flatMap (fun rst => rst.buffer))]

/-- The preview record handed to the writer: `fill_preview` on the zeroed
record, then for V515 and later `preview.payload_size = sizeof(p)`. -/
def export_preview (m_version : FormatVersion) (thumbnails : List ThumbnailData) :
    anycubicsla_format_preview :=
  if FormatVersion.V515.val ≤ m_version.val then
    { fill_preview preview_zero thumbnails with payload_size := u32 sizeof_preview }
  else fill_preview preview_zero thumbnails

/-- The code of `export_print` after its entry assertion: the records are
filled, the intro table is planned, the sections are written. -/
def export_print_body {F : Type} (fo : FloatOps F) (m_version : FormatVersion)
    (m_layers : List EncodedRaster) (print : SLAPrint F) (thumbnails : List ThumbnailData)
    (color_preview_dpi : Nat) : ExportResult :=
  let layer_count := u32 m_layers.length
  let intro := export_print_area intro_zero m_version
  let hm := print.fill_header m_version layer_count
  let color := if FormatVersion.V515.val ≤ m_version.val then fill_color color_zero else color_zero
  let intro := export_print_layout intro m_version layer_count
  let extra := if FormatVersion.V516.val ≤ m_version.val then print.fill_extra else extra_zero fo
  let machine :=
    if FormatVersion.V516.val ≤ m_version.val then print.fill_machine intro.version
    else machine_zero fo
  let software :=
    if FormatVersion.V517.val ≤ m_version.val then fill_software software_zero else software_zero
  let model :=
    if FormatVersion.V517.val ≤ m_version.val then fill_model (model_zero fo) else model_zero fo
  { intro := intro
    layers_header := export_layers_header intro layer_count
    written :=
      export_print_write fo m_version m_layers layer_count intro hm.1 hm.2
        (export_preview m_version thumbnails) color color_preview_dpi extra machine software
        model }

/-- Why a run of `export_print` stops without writing. -/
inductive ExportError where
  | assertion_failed
deriving DecidableEq, Repr

/-- `AnycubicSLAArchive::export_print`. `ndebug` tells whether the program was
built with `NDEBUG`, which compiles `assert(m_version <= ..._VERSION_516)` out;
otherwise a failing assertion aborts the run before anything is written. -/
def export_print {F : Type} (ndebug : Bool) (fo : FloatOps F) (m_version : FormatVersion)
    (m_layers : List EncodedRaster) (print : SLAPrint F) (thumbnails : List ThumbnailData)
    (color_preview_dpi : Nat) : Except ExportError ExportResult :=
  if ndebug = false ∧ ¬ (m_version.val ≤ FormatVersion.V516.val) then
    Except.error ExportError.assertion_failed
  else
    Except.ok (export_print_body fo m_version m_layers print thumbnails color_preview_dpi)

/-- Number of bytes written before the first write labelled `s`. -/
def bytes_before (s : Section) : List (Section × List Nat) → Nat
  | [] => 0
  | (l, b) :: rest => if l = s then 0 else b.length + bytes_before s rest

/-- The offsets of the intro table in the section order of the file. -/
def intro_offsets_in_order (i : anycubicsla_format_intro) : List Nat :=
  [i.header_data_offset, i.preview_data_offset, i.layer_color_offset, i.layer_data_offset,
    i.extra_data_offset, i.machine_data_offset, i.software_data_offset, i.model_data_offset,
    i.image_data_offset]

/-- The end of the planned sections computed without 32-bit truncation: the
value `image_data_offset` has when no offset wraps. -/
def layout_end_exact (version : FormatVersion) (layer_count : Nat) : Nat :=
  (if version.val ≤ FormatVersion.V516.val then sizeof_intro - 4 else sizeof_intro)
    + sizeof_header + sizeof_preview
    + (if FormatVersion.V515.val ≤ version.val then sizeof_color else 0)
    + sizeof_layers_header + sizeof_layer * layer_count
    + (if FormatVersion.V516.val ≤ version.val then sizeof_extra + sizeof_machine else 0)
    + (if FormatVersion.V517.val ≤ version.val then sizeof_software + sizeof_model else 0)

/-- Float operations used for concrete runs: a float is its bit pattern. -/
def sample_float_ops : FloatOps Nat :=
  { bits := fun x => x, zero := 0, nat_lt := fun i x => decide (i < x) }

/-- A print whose records are all zero, used for concrete runs. -/
def sample_print : SLAPrint Nat :=
  { fill_header := fun _ _ =>
      ({ payload_size := 0, pixel_size_um := 0, layer_height_mm := 0, exposure_time_s := 0,
         delay_before_exposure_s := 0, bottom_exposure_time_s := 0, bottom_layer_count := 0,
         lift_distance_mm := 0, lift_speed_mms := 0, retract_speed_mms := 0, volume_ml := 0,
         antialiasing := 0, res_x := 0, res_y := 0, weight_g := 0, price := 0,
         price_currency := 0, per_layer_override := 0, print_time_s := 0,
         transition_layer_count := 0, transition_layer_type := 0, advanced_mode := 0,
         gray := 0, blue_level := 0, resin_code := 0 },
       { bottom_layer_height_mm := 0, bottom_lift_distance_mm := 0,
         bottom_lift_speed_mms := 0 })
    fill_extra := extra_zero sample_float_ops
    fill_machine := fun _ => machine_zero sample_float_ops }

/-! ## Parameter resolver

The value of a `std::float_t` member is a rational: a float literal is the
rational its decimal notation denotes, and comparisons of floats are
comparisons of rationals. An integer converted to a float is rounded to
binary32 (`int_to_float`, `uint_to_float`). The results of float additions,
subtractions, multiplications and divisions are not interpreted: they are the
results of the operations of a `FloatArith`, which stands for the arithmetic
of the machine (rounding, evaluation precision, division by zero). -/

/-- Modelled from the spec: `DynamicConfig` and its options are declared in
libslic3r/Config.hpp, which is not among the sources. The spec describes a
string-keyed store with typed accessors for float and int and a default on
absence. A key holds a value of the type its definition declares: the float
keys are read with `getFloat`, the int keys with `getInt`, the string keys
with `serialize`. -/
structure DynamicConfig where
  float_opt : String → Option ℚ
  int_opt : String → Option Int
  string_opt : String → Option String

/-- `cfg.has(key)`. -/
def DynamicConfig.has (cfg : DynamicConfig) (key : String) : Bool :=
  (cfg.float_opt key).isSome || (cfg.int_opt key).isSome || (cfg.string_opt key).isSome

/-- A configuration without any key. -/
def DynamicConfig.empty : DynamicConfig :=
  { float_opt := fun _ => none, int_opt := fun _ => none, string_opt := fun _ => none }

/-- `#define CFG_LIFT_DISTANCE "LIFT_DISTANCE"` -/
def CFG_LIFT_DISTANCE : String := "LIFT_DISTANCE"

/-- `#define CFG_LIFT_SPEED "LIFT_SPEED"` -/
def CFG_LIFT_SPEED : String := "LIFT_SPEED"

/-- `#define CFG_RETRACT_SPEED "RETRACT_SPEED"` -/
def CFG_RETRACT_SPEED : String := "RETRACT_SPEED"

/-- `#define CFG_DELAY_BEFORE_EXPOSURE "DELAY_BEFORE_EXPOSURE"` -/
def CFG_DELAY_BEFORE_EXPOSURE : String := "DELAY_BEFORE_EXPOSURE"

/-- `#define CFG_BOTTOM_LIFT_SPEED "BOTTOM_LIFT_SPEED"` -/
def CFG_BOTTOM_LIFT_SPEED : String := "BOTTOM_LIFT_SPEED"

/-- `#define CFG_BOTTOM_LIFT_DISTANCE "BOTTOM_LIFT_DISTANCE"` -/
def CFG_BOTTOM_LIFT_DISTANCE : String := "BOTTOM_LIFT_DISTANCE"

/-- `#define CFG_ANTIALIASING "ANTIALIASING"` -/
def CFG_ANTIALIASING : String := "ANTIALIASING"

/-- `#define CFG_EXTRA_LIFT_DISTANCE "EXTRA_LIFT_DISTANCE"` -/
def CFG_EXTRA_LIFT_DISTANCE : String := "EXTRA_LIFT_DISTANCE"

/-- `#define CFG_EXTRA_LIFT_SPEED "EXTRA_LIFT_SPEED"` -/
def CFG_EXTRA_LIFT_SPEED : String := "EXTRA_LIFT_SPEED"

/-- `#define CFG_EXTRA_RETRACT_SPEED "EXTRA_RETRACT_SPEED"` -/
def CFG_EXTRA_RETRACT_SPEED : String := "EXTRA_RETRACT_SPEED"

/-- `get_cfg_value_f(cfg, key, def)`. -/
def get_cfg_value_f (cfg : DynamicConfig) (key : String) (dflt : ℚ) : ℚ :=
  match cfg.float_opt key with
  | some v => v
  | none => dflt

/-- `get_cfg_value_i(cfg, key, def)`. -/
def get_cfg_value_i (cfg : DynamicConfig) (key : String) (dflt : Int) : Int :=
  match cfg.int_opt key with
  | some v => v
  | none => dflt

/-- `crop_value(val, val_min, val_max)`: the new value of `val`. -/
def crop_value {T : Type} [LT T] [DecidableRel (fun a b : T => a < b)] (val val_min val_max : T) :
    T :=
  if val < val_min then val_min
  else if val > val_max then val_max
  else val

/-- Conversion of an `int` to `std::uint32_t`: reduction modulo 2^32. -/
def int_to_u32 (x : Int) : Nat := (x % 2 ^ 32).toNat

/-- Conversion of a float to an integer type: the fractional part is
discarded. -/
def float_to_int (x : ℚ) : Int :=
  if 0 ≤ x then Rat.floor x else -Rat.floor (-x)

/-- Conversion of a float to `std::uint32_t`: the truncated value when it is
in range. C++ leaves the conversion of a value outside `[0, 2^32)` undefined;
the model reduces it modulo 2^32. -/
def float_to_u32 (x : ℚ) : Nat := int_to_u32 (float_to_int x)

/-- The number of low bits an unsigned integer `a` loses when it is stored in
the 24-bit significand of a binary32 value: the least `e` with
`a / 2 ^ e < 2 ^ 24`. The first argument bounds the search. -/
def binary32_shift : Nat → Nat → Nat
  | 0, _ => 0
  | fuel + 1, a => if a < 2 ^ 24 then 0 else binary32_shift fuel (a / 2) + 1

/-- The binary32 value nearest to the unsigned integer `a`, ties to the even
significand (the default rounding of IEEE 754): integers up to 2^24 are kept,
larger ones are rounded to 24 significant bits. 64 search steps cover every
integer below 2^88, more than any integer type of the source holds. -/
def round_to_binary32 (a : Nat) : Nat :=
  let e := binary32_shift 64 a
  let q := a / 2 ^ e
  let r := a % 2 ^ e
  if 2 ^ e < 2 * r ∨ (2 * r = 2 ^ e ∧ q % 2 = 1) then (q + 1) * 2 ^ e else q * 2 ^ e

/-- Conversion of a `std::uint32_t` or `size_t` value to `std::float_t`. -/
def uint_to_float (n : Nat) : ℚ := (round_to_binary32 n : ℚ)

/-- Conversion of an `int` to `std::float_t`. -/
def int_to_float (x : Int) : ℚ :=
  if x < 0 then -(round_to_binary32 x.natAbs : ℚ) else (round_to_binary32 x.natAbs : ℚ)

/-- The arithmetic of `std::float_t` values: the result of `a + b`, `a - b`,
`a * b` and `a / b` on floats. The four operations are not interpreted. -/
structure FloatArith where
  add : ℚ → ℚ → ℚ
  sub : ℚ → ℚ → ℚ
  mul : ℚ → ℚ → ℚ
  div : ℚ → ℚ → ℚ

/-- Binary exponent of a positive rational `a`: the `e` with
`2^e ≤ a < 2^(e+1)`, found by halving or doubling at most `fuel` times. -/
def binary32_exponent : Nat → ℚ → Int
  | 0, _ => 0
  | fuel + 1, a =>
    if 2 ≤ a then binary32_exponent fuel (a / 2) + 1
    else if a < 1 then binary32_exponent fuel (a * 2) - 1
    else 0

/-- The integer nearest to a rational, the even one of two nearest. -/
def round_half_even (q : ℚ) : Int :=
  let f := Rat.floor q
  let r := q - (f : ℚ)
  if r < 1 / 2 then f
  else if 1 / 2 < r then f + 1
  else if f % 2 = 0 then f else f + 1

/-- The binary32 value nearest to a rational of magnitude below 2^128, ties to
the even significand: the significand has 24 bits and the exponent is at least
-126, so the unit in the last place of `x` is `2^(e - 23)`. -/
def binary32_round (x : ℚ) : ℚ :=
  let e := max (binary32_exponent 300 |x|) (-126)
  let ulp : ℚ := 2 ^ (e - 23)
  (round_half_even (x / ulp) : ℚ) * ulp

/-- IEEE 754 binary32 arithmetic, the arithmetic of `std::float_t` where it is
`float`: the exact result rounded to the nearest binary32 value. An overflow
or a division by zero yields an infinity or a NaN, which is not a rational;
this arithmetic is applied only to operations with a finite result. -/
def binary32_arith : FloatArith :=
  { add := fun a b => binary32_round (a + b), sub := fun a b => binary32_round (a - b),
    mul := fun a b => binary32_round (a * b), div := fun a b => binary32_round (a / b) }

/-- Modelled from the spec: `SLAPrintStatistics` (libslic3r/SLAPrint.hpp, not
among the sources); `fill_header` reads the two material volumes. -/
structure SLAPrintStatistics where
  objects_used_material : ℚ
  support_used_material : ℚ

/-- Modelled from the spec: what the fillers read from the `SLAPrint` and its
configuration store (libslic3r/SLAPrint.hpp, not among the sources):
`print.full_print_config()`, `print.print_statistics()`, and the configuration
`mat_cfg` that `load_from_ini_string` builds from the unescaped material notes
(the INI parser is not among the sources, its result is given directly).
`fill_machine` is the record `fill_machine(machine, print, version)` leaves
behind. -/
structure PrintJob where
  full_print_config : DynamicConfig
  material_notes_config : DynamicConfig
  print_statistics : SLAPrintStatistics
  fill_machine : Nat → anycubicsla_format_machine ℚ

/-- The operations on floats modelled by rationals; `bits` is the IEEE-754
encoding, which is not modelled. -/
def rat_float_ops (bits : ℚ → Nat) : FloatOps ℚ :=
  { bits := bits, zero := 0, nat_lt := fun i x => decide ((i : ℚ) < x) }

/-- The zero-initialised `anycubicsla_format_header header = {}`. -/
def header_zero {F : Type} (fo : FloatOps F) : anycubicsla_format_header F :=
  { payload_size := 0, pixel_size_um := fo.zero, layer_height_mm := fo.zero,
    exposure_time_s := fo.zero, delay_before_exposure_s := fo.zero,
    bottom_exposure_time_s := fo.zero, bottom_layer_count := fo.zero,
    lift_distance_mm := fo.zero, lift_speed_mms := fo.zero, retract_speed_mms := fo.zero,
    volume_ml := fo.zero, antialiasing := 0, res_x := 0, res_y := 0, weight_g := fo.zero,
    price := fo.zero, price_currency := 0, per_layer_override := 0, print_time_s := 0,
    transition_layer_count := 0, transition_layer_type := 0, advanced_mode := 0, gray := 0,
    blue_level := 0, resin_code := 0 }

/-- The zero-initialised `anycubicsla_format_misc misc = {}`. -/
def misc_zero {F : Type} (fo : FloatOps F) : anycubicsla_format_misc F :=
  { bottom_layer_height_mm := fo.zero, bottom_lift_distance_mm := fo.zero,
    bottom_lift_speed_mms := fo.zero }

/-- Lines 466-475 of `fill_header`: `payload_size` for the target version
(`version` is not declared in `fill_header`; it is the format version of the
export). -/
def fill_header_payload_size (version : FormatVersion) : Nat :=
  let payload_size := u32 (sizeof_header - 12 - 4)
  let payload_size :=
    if version.val < FormatVersion.V516.val then u32_sub payload_size 4 else payload_size
  if version.val < FormatVersion.V517.val then
    u32_sub (u32_sub (u32_sub payload_size 2) 2) 4
  else payload_size

set_option linter.unusedVariables false in
/-- `fill_header(h, m, print, layer_count)`, returning the updated `(h, m)`.
Each local stands for the member of `h` or `m` of the same name and is rebound
where the source assigns or crops the member, in source order. `version` is
the undeclared variable of lines 468-475. The unescaping of the material notes
and the INI parser are not modelled: `print.material_notes_config` is their
result `mat_cfg`. `fa` is the float arithmetic of the machine: every `+`, `-`,
`*` and `/` of the source on floats is the operation of `fa`, and an integer
operand is converted to a float first. The sum of the two material volumes and
its division by 1000 are taken in the same arithmetic (the member types of
`SLAPrintStatistics` are not among the sources). -/
def fill_header (fa : FloatArith) (h : anycubicsla_format_header ℚ)
    (m : anycubicsla_format_misc ℚ) (print : PrintJob) (version : FormatVersion)
    (layer_count : Nat) :
    anycubicsla_format_header ℚ × anycubicsla_format_misc ℚ :=
  let cfg := print.full_print_config
  let mat_cfg := print.material_notes_config
  let stats := print.print_statistics
  let layer_height_mm := get_cfg_value_f cfg "layer_height" 0
  let bottom_layer_height_mm := get_cfg_value_f cfg "initial_layer_height" 0
  let exposure_time_s := get_cfg_value_f cfg "exposure_time" 0
  let bottom_exposure_time_s := get_cfg_value_f cfg "initial_exposure_time" 0
  let bottom_layer_count : ℚ := int_to_float (get_cfg_value_i cfg "faded_layers" 0)
  let bottom_layer_count : ℚ :=
    if uint_to_float layer_count < bottom_layer_count then uint_to_float layer_count
    else bottom_layer_count
  let res_x0 := int_to_u32 (get_cfg_value_i cfg "display_pixels_x" 0)
  let res_y0 := int_to_u32 (get_cfg_value_i cfg "display_pixels_y" 0)
  let dispo : String :=
    match cfg.string_opt "display_orientation" with
    | some s => s
    | none => "landscape"
  let res_x := if dispo = "portrait" then res_y0 else res_x0
  let res_y := if dispo = "portrait" then res_x0 else res_y0
  let bottle_weight_g := fa.mul (get_cfg_value_f cfg "bottle_weight" 0) 1000
  let bottle_volume_ml := get_cfg_value_f cfg "bottle_volume" 0
  let bottle_cost := get_cfg_value_f cfg "bottle_cost" 0
  let material_density := fa.div bottle_weight_g bottle_volume_ml
  let volume_ml :=
    fa.div (fa.add stats.objects_used_material stats.support_used_material) 1000
  let weight_g := fa.mul volume_ml material_density
  let price := fa.div (fa.mul volume_ml bottle_cost) bottle_volume_ml
  let price_currency := '$'.toNat
  let antialiasing := 1
  let per_layer_override := 0
  let antialiasing :=
    if mat_cfg.has CFG_ANTIALIASING then
      crop_value (int_to_u32 (get_cfg_value_i mat_cfg CFG_ANTIALIASING 0)) 0 1
    else 1
  let delay_before_exposure_s :=
    crop_value (get_cfg_value_f mat_cfg CFG_DELAY_BEFORE_EXPOSURE (1 / 2)) 0 1000
  let lift_distance_mm := crop_value (get_cfg_value_f mat_cfg CFG_LIFT_DISTANCE 8) 0 100
  let bottom_lift_distance_mm :=
    if mat_cfg.has CFG_BOTTOM_LIFT_DISTANCE then
      get_cfg_value_f mat_cfg CFG_BOTTOM_LIFT_DISTANCE 8
    else lift_distance_mm
  let lift_distance_mm :=
    if mat_cfg.has CFG_BOTTOM_LIFT_DISTANCE then crop_value lift_distance_mm 0 100
    else lift_distance_mm
  let lift_speed_mms := get_cfg_value_f mat_cfg CFG_LIFT_SPEED 2
  let bottom_lift_speed_mms := crop_value m.bottom_lift_speed_mms (1 / 10) 20
  let bottom_lift_speed_mms :=
    if mat_cfg.has CFG_BOTTOM_LIFT_SPEED then
      crop_value (get_cfg_value_f mat_cfg CFG_BOTTOM_LIFT_SPEED 2) (1 / 10) 20
    else lift_speed_mms
  let retract_speed_mms := get_cfg_value_f mat_cfg CFG_RETRACT_SPEED 3
  let lift_speed_mms := crop_value lift_speed_mms (1 / 10) 20
  let print_time_s :=
    float_to_u32
      (fa.add
        (fa.add
          (fa.add
            (fa.add (fa.mul bottom_layer_count bottom_exposure_time_s)
              (fa.mul (fa.sub (uint_to_float layer_count) bottom_layer_count) exposure_time_s))
            (fa.div (fa.mul (uint_to_float layer_count) lift_distance_mm) retract_speed_mms))
          (fa.div (fa.mul (uint_to_float layer_count) lift_distance_mm) lift_speed_mms))
        (fa.mul (uint_to_float layer_count) delay_before_exposure_s))
  let display_w := fa.mul (get_cfg_value_f cfg "display_width" 100) 1000
  let pixel_size_um : ℚ :=
    if dispo = "portrait" then
      int_to_float (float_to_int (fa.add (fa.div display_w (uint_to_float res_y)) (1 / 2)))
    else int_to_float (float_to_int (fa.add (fa.div display_w (uint_to_float res_x)) (1 / 2)))
  let payload_size := fill_header_payload_size version
  ({ h with
      payload_size := payload_size
      pixel_size_um := pixel_size_um
      layer_height_mm := layer_height_mm
      exposure_time_s := exposure_time_s
      delay_before_exposure_s := delay_before_exposure_s
      bottom_exposure_time_s := bottom_exposure_time_s
      bottom_layer_count := bottom_layer_count
      lift_distance_mm := lift_distance_mm
      lift_speed_mms := lift_speed_mms
      retract_speed_mms := retract_speed_mms
      volume_ml := volume_ml
      antialiasing := antialiasing
      res_x := res_x
      res_y := res_y
      weight_g := weight_g
      price := price
      price_currency := price_currency
      per_layer_override := per_layer_override
      print_time_s := print_time_s },
    { m with
      bottom_layer_height_mm := bottom_layer_height_mm
      bottom_lift_distance_mm := bottom_lift_distance_mm
      bottom_lift_speed_mms := bottom_lift_speed_mms })

/-- `fill_extra(e, print)`, returning the updated `e`; the three integer
members are the ones the source calls `extra0`, `extra4` and `extra32`. As in
`fill_header`, `mat_cfg` is the configuration parsed from the material notes;
the key of a numbered value is the macro followed by the digit. -/
def fill_extra (e : anycubicsla_format_extra ℚ) (print : PrintJob) :
    anycubicsla_format_extra ℚ :=
  let mat_cfg := print.material_notes_config
  let lift_distance1_mm := get_cfg_value_f mat_cfg (CFG_EXTRA_LIFT_DISTANCE ++ "1") (3 / 2)
  let lift_speed1_mms := get_cfg_value_f mat_cfg (CFG_EXTRA_LIFT_SPEED ++ "1") 2
  let retract_speed1_mms := get_cfg_value_f mat_cfg (CFG_EXTRA_RETRACT_SPEED ++ "1") 3
  let lift_distance2_mm := get_cfg_value_f mat_cfg (CFG_EXTRA_LIFT_DISTANCE ++ "2") (9 / 2)
  let lift_speed2_mms := get_cfg_value_f mat_cfg (CFG_EXTRA_LIFT_SPEED ++ "2") 4
  let retract_speed2_mms := get_cfg_value_f mat_cfg (CFG_EXTRA_RETRACT_SPEED ++ "2") 6
  let lift_distance3_mm := get_cfg_value_f mat_cfg (CFG_EXTRA_LIFT_DISTANCE ++ "3") (3 / 2)
  let lift_speed3_mms := get_cfg_value_f mat_cfg (CFG_EXTRA_LIFT_SPEED ++ "3") 2
  let retract_speed3_mms := get_cfg_value_f mat_cfg (CFG_EXTRA_RETRACT_SPEED ++ "3") 3
  let lift_distance4_mm := get_cfg_value_f mat_cfg (CFG_EXTRA_LIFT_DISTANCE ++ "4") 4
  let lift_speed4_mms := get_cfg_value_f mat_cfg (CFG_EXTRA_LIFT_SPEED ++ "4") 2
  let retract_speed4_mms := get_cfg_value_f mat_cfg (CFG_EXTRA_RETRACT_SPEED ++ "4") 3
  { e with
    payload_length := 24
    bottom_state_num := 2
    state_num := 2
    lift_distance1_mm := crop_value lift_distance1_mm (1 / 10) 100
    lift_distance2_mm := crop_value lift_distance2_mm (1 / 10) 100
    lift_distance3_mm := crop_value lift_distance3_mm (1 / 10) 100
    lift_distance4_mm := crop_value lift_distance4_mm (1 / 10) 100
    lift_speed1_mms := crop_value lift_speed1_mms (1 / 10) 20
    lift_speed2_mms := crop_value lift_speed2_mms (1 / 10) 20
    lift_speed3_mms := crop_value lift_speed3_mms (1 / 10) 20
    lift_speed4_mms := crop_value lift_speed4_mms (1 / 10) 20
    retract_speed1_mms := crop_value retract_speed1_mms (1 / 10) 20
    retract_speed2_mms := crop_value retract_speed2_mms (1 / 10) 20
    retract_speed3_mms := crop_value retract_speed3_mms (1 / 10) 20
    retract_speed4_mms := crop_value retract_speed4_mms (1 / 10) 20 }

/-- The print as `export_print` sees it through the fillers: `fill_header` and
`fill_extra` applied to the zero-initialised records. -/
def PrintJob.toSLAPrint (fa : FloatArith) (bits : ℚ → Nat) (job : PrintJob) : SLAPrint ℚ :=
  { fill_header := fun version layer_count =>
      fill_header fa (header_zero (rat_float_ops bits)) (misc_zero (rat_float_ops bits)) job
        version layer_count
    fill_extra := fill_extra (extra_zero (rat_float_ops bits)) job
    fill_machine := job.fill_machine }

/-- `export_print` on a print given by its configuration. -/
def export_print_job (ndebug : Bool) (fa : FloatArith) (bits : ℚ → Nat)
    (m_version : FormatVersion) (m_layers : List EncodedRaster) (job : PrintJob)
    (thumbnails : List ThumbnailData) (color_preview_dpi : Nat) :
    Except ExportError ExportResult :=
  export_print ndebug (rat_float_ops bits) m_version m_layers (job.toSLAPrint fa bits)
    thumbnails color_preview_dpi

/-- The layer records written by a run of `export_print`: the records the `for`
loop builds from the filled header and passes to `anycubicsla_write_layer`. -/
def export_layer_records {F : Type} (fo : FloatOps F) (m_version : FormatVersion)
    (m_layers : List EncodedRaster) (print : SLAPrint F) :
    List (anycubicsla_format_layer F) :=
  export_layers fo (print.fill_header m_version (u32 m_layers.length)).1
    (print.fill_header m_version (u32 m_layers.length)).2 m_layers 0
    (export_print_layout (export_print_area intro_zero m_version) m_version
      (u32 m_layers.length)).image_data_offset

/-- A print whose material notes set `RETRACT_SPEED = 0` and nothing else. -/
def job_retract_zero : PrintJob :=
  { full_print_config := DynamicConfig.empty
    material_notes_config :=
      { DynamicConfig.empty with
        float_opt := fun k => if k = CFG_RETRACT_SPEED then some 0 else none }
    print_statistics := { objects_used_material := 0, support_used_material := 0 }
    fill_machine := fun _ => machine_zero (rat_float_ops (fun _ => 0)) }

/-- A print with one bottom layer (`faded_layers = 1`) whose material notes set
`BOTTOM_LIFT_DISTANCE = 500` and `LIFT_SPEED = 50`. -/
def job_bottom_lift : PrintJob :=
  { full_print_config :=
      { DynamicConfig.empty with
        int_opt := fun k => if k = "faded_layers" then some 1 else none }
    material_notes_config :=
      { DynamicConfig.empty with
        float_opt := fun k =>
          if k = CFG_BOTTOM_LIFT_DISTANCE then some 500
          else if k = CFG_LIFT_SPEED then some 50
          else none }
    print_statistics := { objects_used_material := 0, support_used_material := 0 }
    fill_machine := fun _ => machine_zero (rat_float_ops (fun _ => 0)) }

/-- A print with ten-second exposures, three bottom layers and default
material notes. -/
def job_plain : PrintJob :=
  { full_print_config :=
      { DynamicConfig.empty with
        float_opt := fun k =>
          if k = "exposure_time" then some 2
          else if k = "initial_exposure_time" then some 30
          else none
        int_opt := fun k => if k = "faded_layers" then some 3 else none }
    material_notes_config := DynamicConfig.empty
    print_statistics := { objects_used_material := 0, support_used_material := 0 }
    fill_machine := fun _ => machine_zero (rat_float_ops (fun _ => 0)) }

/-- A print with three bottom layers, a 1000 ml bottle of 1 kg and a display of
2560x1620 pixels, whose material notes hold `LIFT_DISTANCE = 0` and
`DELAY_BEFORE_EXPOSURE = 0.7`; the value read as a float is the binary32 value
nearest to 0.7, which is 11744051 / 2^24. -/
def job_delay : PrintJob :=
  { full_print_config :=
      { DynamicConfig.empty with
        float_opt := fun k =>
          if k = "bottle_weight" then some 1
          else if k = "bottle_volume" then some 1000
          else if k = "bottle_cost" then some 30
          else none
        int_opt := fun k =>
          if k = "faded_layers" then some 3
          else if k = "display_pixels_x" then some 2560
          else if k = "display_pixels_y" then some 1620
          else none }
    material_notes_config :=
      { DynamicConfig.empty with
        float_opt := fun k =>
          if k = CFG_LIFT_DISTANCE then some 0
          else if k = CFG_DELAY_BEFORE_EXPOSURE then some (11744051 / 16777216)
          else none }
    print_statistics := { objects_used_material := 0, support_used_material := 0 }
    fill_machine := fun _ => machine_zero (rat_float_ops (fun _ => 0)) }

/-- The record one iteration of the layer loop of `export_print` builds for the
raster `rst`, from the loop index `i` and the running `image_offset`. -/
def layer_record {F : Type} (fo : FloatOps F) (header : anycubicsla_format_header F)
    (misc : anycubicsla_format_misc F) (i image_offset : Nat) (rst : EncodedRaster) :
    anycubicsla_format_layer F :=
  if fo.nat_lt i header.bottom_layer_count then
    { image_offset := image_offset, image_size := u32 rst.buffer.length,
      exposure_time_s := header.bottom_exposure_time_s,
      layer_height_mm := misc.bottom_layer_height_mm,
      lift_distance_mm := misc.bottom_lift_distance_mm,
      lift_speed_mms := misc.bottom_lift_speed_mms,
      layer44 := fo.zero, layer48 := fo.zero }
  else
    { image_offset := image_offset, image_size := u32 rst.buffer.length,
      exposure_time_s := header.exposure_time_s,
      layer_height_mm := header.layer_height_mm,
      lift_distance_mm := header.lift_distance_mm,
      lift_speed_mms := header.lift_speed_mms,
      layer44 := fo.zero, layer48 := fo.zero }

/-- The value of `image_offset` after the layer loop has gone through
`rasters`, starting from `image_offset`. -/
def running_image_offset (image_offset : Nat) (rasters : List EncodedRaster) : Nat :=
  rasters.foldl (fun off rst => u32 (off + u32 rst.buffer.length)) image_offset

/-- A raster of 2^32 bytes. -/
def huge_raster : EncodedRaster :=
  { buffer := List.replicate 4294967296 0, ext := "pwimg" }

/-! ## Stores of the preview converter -/

/-- The `while (i < len)` loop of `fill_preview` once more, recording its two
stores `p.pixels[dst_index++] = ...` instead of performing them: the result
is the list of the pairs `(dst_index, value)` in the order of the stores, and
the value of `dst_index` when the loop ends. The arguments are those of
`fill_preview_loop`: the source buffer and its length, the iteration bound,
`i`, `dst_index` and `pixel_x`. `fill_preview_loop_eq_stores` shows that the
loop of `fill_preview` performs exactly these stores, in this order. -/
def fill_preview_stores_loop (src : List Nat) (len : Nat) :
    Nat → Nat → Nat → Nat → List (Nat × Nat) × Nat
  | 0, _, dst_index, _ => ([], dst_index)
  | fuel + 1, i, dst_index, pixel_x =>
    if i < len then
      let r := src.getD i 0
      let g := src.getD (i + 1) 0
      let b := src.getD (i + 2) 0
      let pixel := bgr565 r g b
      let dst2 := u32 (dst_index + 2)
      let rest :=
        if pixel_x + 1 = PREV_W then
          fill_preview_stores_loop src len fuel (i + 4) (u32 (dst2 + 2 ^ 32 - PREV_W * 4)) 0
        else
          fill_preview_stores_loop src len fuel (i + 4) dst2 (pixel_x + 1)
      ((dst_index, pixel &&& 0xFF) :: (u32 (dst_index + 1), (pixel >>> 8) &&& 0xFF) :: rest.1,
        rest.2)
    else ([], dst_index)

/-- The stores made by `fill_preview(p, m, thumbnails)` after the `memset`, and
the final value of `dst_index`; no store is made and `dst_index` is never
assigned when the list is empty or the sanity check fails. -/
def fill_preview_stores (thumbnails : List ThumbnailData) : List (Nat × Nat) × Option Nat :=
  match thumbnails with
  | [] => ([], none)
  | t :: _ =>
    let len := t.pixels.length
    if len ≠ PREV_W * PREV_H * 4 then ([], none)
    else
      ((fill_preview_stores_loop t.pixels len len 0 (u32 (PREV_W * (PREV_H - 1) * 2)) 0).1,
        some (fill_preview_stores_loop t.pixels len len 0 (u32 (PREV_W * (PREV_H - 1) * 2)) 0).2)

/-! ## Archive registry (libslic3r/Format/SLAArchiveWriter.cpp) -/

/-- Modelled from the spec: `SLAPrinterConfig` is declared in PrintConfig.hpp,
which is not among the sources; it belongs to the print-configuration store
the spec treats as an external collaborator. The registry only hands it to
the constructors of the archive writers. -/
structure SLAPrinterConfig where
  config : DynamicConfig

/-- The objects the factory functions of the registry construct: the classes
derived from `SLAArchiveWriter` named in `REGISTERED_ARCHIVES`, each with the
arguments of its constructor. -/
inductive SLAArchiveWriter where
  | SL1Archive (cfg : SLAPrinterConfig)
  | SL1_SVGArchive (cfg : SLAPrinterConfig)
  | AnycubicSLAArchive (cfg : SLAPrinterConfig) (version : FormatVersion)
  | CTBArchive (cfg : SLAPrinterConfig)

/-- `std::make_unique<T>(args)`: a pointer that owns a new object and is never
null. A `std::unique_ptr` is an `Option`, `nullptr` is `none`. -/
def make_unique {α : Type} (a : α) : Option α := some a

/-- `using ArchiveFactory = std::function<std::unique_ptr<SLAArchiveWriter>(const
SLAPrinterConfig&)>`. -/
abbrev ArchiveFactory : Type := SLAPrinterConfig → Option SLAArchiveWriter

/-- `struct ArchiveEntry`. -/
structure ArchiveEntry where
  ext : String
  factoryfn : ArchiveFactory

/-- Lexicographic comparison of two character sequences by character code. -/
def lexicographical_less : List Nat → List Nat → Bool
  | _, [] => false
  | [], _ :: _ => true
  | a :: as, b :: bs =>
    if a < b then true else if b < a then false else lexicographical_less as bs

/-- `std::less<std::string>`, the key order of the map: `a < b` on strings
compares them character by character. -/
def string_less (a b : String) : Bool :=
  lexicographical_less (a.toList.map Char.toNat) (b.toList.map Char.toNat)

/-- Insertion of one element into a `std::map<std::string, V>`, represented by
the list of its elements in iteration order (ascending keys): an element whose
key is equivalent to a key already present (neither is less than the other) is
not inserted. -/
def std_map_insert {V : Type} (kv : String × V) : List (String × V) → List (String × V)
  | [] => [kv]
  | e :: rest =>
    if string_less kv.1 e.1 then kv :: e :: rest
    else if string_less e.1 kv.1 then e :: std_map_insert kv rest
    else e :: rest

/-- Construction of a `std::map` from an initializer list: the elements are
inserted in the order of the list. -/
def std_map_of_list {V : Type} (init : List (String × V)) : List (String × V) :=
  init.foldl (fun m kv => std_map_insert kv m) []

/-- `map.find(key)`: the mapped value, `none` for `map.end()`. -/
def std_map_find {V : Type} (m : List (String × V)) (key : String) : Option V :=
  (m.find? (fun e => decide (e.1 = key))).map Prod.snd

set_option linter.unusedVariables false in
/-- Modelled from the spec: the macro `ANYCUBIC_SLA_FORMAT_VERSIONED(FILEFORMAT,
NAME, VERSION)` is defined in AnycubicSLA.hpp, which is not among the sources.
The spec describes the registry as picking an exporter by file extension: the
entry is keyed by `FILEFORMAT`, has the extension `FILEFORMAT`, and its
factory constructs an `AnycubicSLAArchive` for `VERSION`. -/
def ANYCUBIC_SLA_FORMAT_VERSIONED (FILEFORMAT NAME : String) (VERSION : FormatVersion) :
    String × ArchiveEntry :=
  (FILEFORMAT,
    { ext := FILEFORMAT
      factoryfn := fun cfg => make_unique (SLAArchiveWriter.AnycubicSLAArchive cfg VERSION) })

/-- The initializer list of `REGISTERED_ARCHIVES`, in source order. -/
def REGISTERED_ARCHIVES_init : List (String × ArchiveEntry) :=
  [ ("SL1", { ext := "sl1", factoryfn := fun cfg => make_unique (SLAArchiveWriter.SL1Archive cfg) }),
    ("SL2",
      { ext := "sl2", factoryfn := fun cfg => make_unique (SLAArchiveWriter.SL1_SVGArchive cfg) }),
    ANYCUBIC_SLA_FORMAT_VERSIONED "pws" "Photon / Photon S" .V1,
    ANYCUBIC_SLA_FORMAT_VERSIONED "pw0" "Photon Zero" .V1,
    ANYCUBIC_SLA_FORMAT_VERSIONED "pwx" "Photon X" .V1,
    ANYCUBIC_SLA_FORMAT_VERSIONED "pwmo" "Photon Mono" .V1,
    ANYCUBIC_SLA_FORMAT_VERSIONED "pwms" "Photon Mono SE" .V1,
    ANYCUBIC_SLA_FORMAT_VERSIONED "pwmx" "Photon Mono X" .V1,
    ANYCUBIC_SLA_FORMAT_VERSIONED "pmsq" "Photon Mono SQ" .V1,
    ANYCUBIC_SLA_FORMAT_VERSIONED "dlp" "Photon Ultra" .V1,
    ANYCUBIC_SLA_FORMAT_VERSIONED "pwma" "Photon Mono 4K" .V516,
    ANYCUBIC_SLA_FORMAT_VERSIONED "pm3" "Photon M3" .V516,
    ANYCUBIC_SLA_FORMAT_VERSIONED "pm3m" "Photon M3 Max" .V516,
    ANYCUBIC_SLA_FORMAT_VERSIONED "pwmb" "Photon Ultra" .V516,
    ANYCUBIC_SLA_FORMAT_VERSIONED "dl2p" "Photon Ultra" .V516,
    ANYCUBIC_SLA_FORMAT_VERSIONED "pmx2" "Photon Ultra" .V516,
    ANYCUBIC_SLA_FORMAT_VERSIONED "pm3r" "Photon M3 Premium" .V516,
    ("ctb", { ext := "ctb", factoryfn := fun cfg => make_unique (SLAArchiveWriter.CTBArchive cfg) }) ]

/-- `static const std::map<std::string, ArchiveEntry> REGISTERED_ARCHIVES`. -/
def REGISTERED_ARCHIVES : List (String × ArchiveEntry) :=
  std_map_of_list REGISTERED_ARCHIVES_init

/-- `SLAArchiveWriter::create(archtype, cfg)`. -/
def SLAArchiveWriter.create (archtype : String) (cfg : SLAPrinterConfig) :
    Option SLAArchiveWriter :=
  match std_map_find REGISTERED_ARCHIVES archtype with
  | some entry => entry.factoryfn cfg
  | none => none

/-- `SLAArchiveWriter::registered_archives()`. The argument is the value of
the function-local static `archnames` before the call (empty before the first
call); the result is its value after the call, which the call returns. -/
def SLAArchiveWriter.registered_archives (archnames : List String) : List String :=
  if archnames.isEmpty then REGISTERED_ARCHIVES.map (fun e => e.1) else archnames

/-- `SLAArchiveWriter::get_extension(archtype)`. -/
def SLAArchiveWriter.get_extension (archtype : String) : String :=
  match std_map_find REGISTERED_ARCHIVES archtype with
  | some entry => entry.ext
  | none => "zip"

/-! ## Output stream of the archive writer -/

/-- The file named `fname` as the stream meets it: whether it can be opened
for writing, and how many bytes the device accepts before a write fails
(`none`: no limit). -/
structure OutputTarget where
  can_open : Bool
  capacity : Option Nat
deriving DecidableEq, Repr

/-- Modelled from the C++ standard library, which is not among the sources: the
state of a `std::ofstream`. `exceptions` tells whether the exception mask of
the stream holds `failbit` and `badbit`, `is_open` whether a file is open,
`fail` whether `failbit` or `badbit` is set, `file` the bytes the file has
received. -/
structure ofstream where
  exceptions : Bool
  is_open : Bool
  fail : Bool
  file : List Nat
deriving DecidableEq, Repr

/-- The exception `std::ios_base::failure`. -/
inductive ios_failure where
  | failure
deriving DecidableEq, Repr

/-- `std::ofstream out;`: a default-constructed stream has no open file and
the exception mask `goodbit`; `export_print` never calls `out.exceptions`. -/
def ofstream_default : ofstream :=
  { exceptions := false, is_open := false, fail := false, file := [] }

/-- `setstate(failbit)` or `setstate(badbit)`: the flag is set, and
`std::ios_base::failure` is thrown when the flag is in the exception mask. -/
def ofstream_setstate (s : ofstream) : Except ios_failure ofstream :=
  if s.exceptions then Except.error ios_failure.failure
  else Except.ok { s with fail := true }

/-- `out.open(fname, std::ios::binary | std::ios::out | std::ios::trunc)`:
on failure the stream calls `setstate(failbit)`. -/
def ofstream_open (target : OutputTarget) (s : ofstream) : Except ios_failure ofstream :=
  if target.can_open ∧ s.is_open = false then Except.ok { s with is_open := true, file := [] }
  else ofstream_setstate s

/-- `out.write(data, n)`: a stream that is not good writes nothing and calls
`setstate(failbit)`; a write the device does not accept in full calls
`setstate(badbit)` after the bytes that fit. -/
def ofstream_write (target : OutputTarget) (s : ofstream) (data : List Nat) :
    Except ios_failure ofstream :=
  if s.fail ∨ s.is_open = false then ofstream_setstate s
  else
    match target.capacity with
    | none => Except.ok { s with file := s.file ++ data }
    | some cap =>
      if s.file.length + data.length ≤ cap then Except.ok { s with file := s.file ++ data }
      else ofstream_setstate { s with file := s.file ++ data.take (cap - s.file.length) }

/-- `out.close()`: closing a stream that has no open file calls
`setstate(failbit)`. -/
def ofstream_close (s : ofstream) : Except ios_failure ofstream :=
  if s.is_open then Except.ok { s with is_open := false } else ofstream_setstate s

/-- The stream operations of the `try` block of `export_print`: the stream is
default-constructed and opened, the sections are written in order, the stream
is closed. The result is the exception that leaves the block, or the final
state of the stream. -/
def export_print_try (target : OutputTarget) (writes : List (List Nat)) :
    Except ios_failure ofstream :=
  match ofstream_open target ofstream_default with
  | Except.error e => Except.error e
  | Except.ok out =>
    match writes.foldlM (fun s data => ofstream_write target s data) out with
    | Except.error e => Except.error e
    | Except.ok out => ofstream_close out

/-- How a call of `export_print` ends other than by returning: the entry
assertion aborts the program, or the `catch` clause logs and rethrows the
exception that left the `try` block. -/
inductive ExportFailure where
  | assertion_failed
  | rethrown (e : ios_failure)
deriving DecidableEq, Repr

/-- `AnycubicSLAArchive::export_print` together with its output file: the
writes of `export_print` go through the stream `out`. A normal return gives
the final state of the stream. -/
def export_print_file {F : Type} (ndebug : Bool) (fo : FloatOps F) (m_version : FormatVersion)
    (m_layers : List EncodedRaster) (print : SLAPrint F) (thumbnails : List ThumbnailData)
    (color_preview_dpi : Nat) (target : OutputTarget) : Except ExportFailure ofstream :=
  match export_print ndebug fo m_version m_layers print thumbnails color_preview_dpi with
  | Except.error _ => Except.error ExportFailure.assertion_failed
  | Except.ok r =>
    match export_print_try target (r.written.map Prod.snd) with
    | Except.error e => Except.error (ExportFailure.rethrown e)
    | Except.ok out => Except.ok out

/-- Modelled from the spec: the class `AnycubicSLAArchive` is declared in
AnycubicSLA.hpp, which is not among the sources. Its constructor keeps the
format version it is given in the member `m_version` that `export_print`
reads; the other archive writers have no such member. -/
def SLAArchiveWriter.m_version : SLAArchiveWriter → Option FormatVersion
  | .AnycubicSLAArchive _ version => some version
  | _ => none

/-! ## Properties of the raster span codec -/

/-- High nibble mask used by the codec. -/
theorem hi_le (b : Nat) : b &&& 0xF0 ≤ 0xF0 := Nat.and_le_right

theorem hi_idem (b : Nat) : (b &&& 0xF0) &&& 0xF0 = b &&& 0xF0 := by
  rw [Nat.and_assoc, Nat.and_self]

theorem gray_bits : ∀ v < 241, ∀ n < 16, v &&& 0xF0 = v →
    ((v ||| n) % 256) &&& 0xF0 = v ∧ ((v ||| n) % 256) &&& 0x0F = n ∧ (v ||| n) < 256 := by
  decide!

theorem solid_hi_bits : ∀ q < 16,
    (((0 ||| q) % 256) &&& 0xF0 = 0 ∧ ((0 ||| q) % 256) &&& 0x0F = q ∧ (0 ||| q) < 256) ∧
    (((0xF0 ||| q) % 256) &&& 0xF0 = 0xF0 ∧ ((0xF0 ||| q) % 256) &&& 0x0F = q ∧
      (0xF0 ||| q) < 256) := by
  decide!

theorem clean_hi : ∀ b < 256, b % 16 = 0 → b &&& 0xF0 = b := by decide!

theorem run_length_join (n : Nat) :
    ((n >>> 8) <<< 8) ||| ((n &&& 0xFF) % 256) = n := by
  have h1 : n &&& 0xFF = n % 256 := Nat.and_pow_two_sub_one_eq_mod n 8
  rw [h1, Nat.shiftRight_eq_div_pow, Nat.shiftLeft_eq, Nat.mod_mod]
  have h2 := Nat.mul_add_lt_is_or (i := 8) (b := n % 256) (Nat.mod_lt _ (by decide)) (n / 2 ^ 8)
  rw [Nat.mul_comm, ← h2]
  simp only [Nat.reducePow]
  omega

theorem get_pixel_span_loop_eq (pixel max_len : Nat) (src : List Nat) (acc : Nat) :
    get_pixel_span_loop pixel max_len src acc =
      acc + min (max_len - acc)
        (src.takeWhile (fun b => decide ((b &&& 0xF0) = pixel))).length := by
  induction src generalizing acc with
  | nil => simp [get_pixel_span_loop]
  | cons b rest ih =>
    unfold get_pixel_span_loop
    by_cases hb : (b &&& 0xF0) = pixel
    · by_cases hl : acc < max_len
      · rw [if_pos ⟨hl, hb⟩, ih (acc + 1)]
        simp only [List.takeWhile_cons, hb, decide_True, if_true, List.length_cons]
        omega
      · rw [if_neg (fun hc => hl hc.1)]
        have : max_len - acc = 0 := by omega
        simp [this]
    · rw [if_neg (fun hc => hb hc.2)]
      simp [List.takeWhile_cons, hb]

theorem get_pixel_span_eq (src : List Nat) :
    anycubicsla_get_pixel_span src =
      (src.headD 0 &&& 0xF0,
        ref_span_len (src.headD 0 &&& 0xF0) (span_max_len (src.headD 0 &&& 0xF0)) src) := by
  simp [anycubicsla_get_pixel_span, ref_span_len, get_pixel_span_loop_eq]

theorem span_max_len_pos (v : Nat) : 1 ≤ span_max_len v := by
  unfold span_max_len; split <;> decide

theorem ref_span_len_bounds (b : Nat) (rest : List Nat) (cap : Nat) (hcap : 1 ≤ cap) :
    1 ≤ ref_span_len (b &&& 0xF0) cap (b :: rest) ∧
    ref_span_len (b &&& 0xF0) cap (b :: rest) ≤ cap ∧
    ref_span_len (b &&& 0xF0) cap (b :: rest) ≤ (b :: rest).length := by
  have hl : ((b :: rest).takeWhile (fun c => decide ((c &&& 0xF0) = b &&& 0xF0))).length
      ≤ (b :: rest).length := (List.takeWhile_sublist _).length_le
  have h1 : 1 ≤ ((b :: rest).takeWhile (fun c => decide ((c &&& 0xF0) = b &&& 0xF0))).length := by
    simp [List.takeWhile_cons]
  unfold ref_span_len
  omega

theorem ref_span_len_take (v cap : Nat) (src : List Nat) :
    (src.take (ref_span_len v cap src)).map (fun c => c &&& 0xF0) =
      List.replicate (ref_span_len v cap src) v := by
  induction src generalizing cap with
  | nil => simp [ref_span_len]
  | cons c rest ih =>
    by_cases hc : (c &&& 0xF0) = v
    · cases cap with
      | zero => simp [ref_span_len]
      | succ k =>
        have hstep : ref_span_len v (k + 1) (c :: rest) = ref_span_len v k rest + 1 := by
          simp only [ref_span_len, List.takeWhile_cons, hc, decide_True, if_true,
            List.length_cons]
          omega
        rw [hstep, List.take_succ_cons, List.map_cons, ih k, hc, List.replicate_succ]
    · have hz : ref_span_len v cap (c :: rest) = 0 := by
        simp [ref_span_len, List.takeWhile_cons, hc]
      simp [hz]

theorem ref_span_len_maximal (v cap : Nat) (src : List Nat)
    (hlt : ref_span_len v cap src < cap) :
    ∀ c ∈ (src.drop (ref_span_len v cap src)).head?, (c &&& 0xF0) ≠ v := by
  induction src generalizing cap with
  | nil => simp
  | cons c rest ih =>
    by_cases hc : (c &&& 0xF0) = v
    · cases cap with
      | zero => omega
      | succ k =>
        have hstep : ref_span_len v (k + 1) (c :: rest) = ref_span_len v k rest + 1 := by
          simp only [ref_span_len, List.takeWhile_cons, hc, decide_True, if_true,
            List.length_cons]
          omega
        rw [hstep] at hlt ⊢
        rw [List.drop_succ_cons]
        exact ih k (by omega)
    · have hz : ref_span_len v cap (c :: rest) = 0 := by
        simp [ref_span_len, List.takeWhile_cons, hc]
      rw [hz]
      intro d hd
      simp at hd
      subst hd
      exact hc

/-- One step of the span recorder on a non-empty buffer. -/
theorem encoder_spans_cons (fuel b : Nat) (rest : List Nat) :
    encoder_spans (fuel + 1) (b :: rest) =
      anycubicsla_get_pixel_span (b :: rest) ::
        encoder_spans fuel ((b :: rest).drop (anycubicsla_get_pixel_span (b :: rest)).2) := rfl

theorem encoder_loop_cons (fuel b : Nat) (rest dst : List Nat) :
    encoder_loop (fuel + 1) (b :: rest) dst =
      encoder_loop fuel ((b :: rest).drop (anycubicsla_get_pixel_span (b :: rest)).2)
        (dst ++ emit_span (anycubicsla_get_pixel_span (b :: rest)).1
          (anycubicsla_get_pixel_span (b :: rest)).2) := rfl

/-- The bytes of the encoder are the bytes of its spans, appended to `dst`. -/
theorem encoder_loop_eq_spans (fuel : Nat) (src dst : List Nat) :
    encoder_loop fuel src dst =
      dst ++ (encoder_spans fuel src).flatMap (fun s => emit_span s.1 s.2) := by
  induction fuel generalizing src dst with
  | zero => simp [encoder_loop, encoder_spans]
  | succ k ih =>
    cases src with
    | nil => simp [encoder_loop, encoder_spans]
    | cons b rest =>
      rw [encoder_loop_cons, encoder_spans_cons, ih]
      simp [List.flatMap_cons, List.append_assoc]

/-- What `anycubicsla_get_pixel_span` returns on a non-empty buffer. -/
theorem get_pixel_span_cons (b : Nat) (rest : List Nat) :
    anycubicsla_get_pixel_span (b :: rest) =
      (b &&& 0xF0, ref_span_len (b &&& 0xF0) (span_max_len (b &&& 0xF0)) (b :: rest)) := by
  rw [get_pixel_span_eq]; rfl

/-- The spans cover the buffer: expanding them gives the high nibbles of the
input, provided the iteration bound is at least the buffer length. -/
theorem expand_encoder_spans (fuel : Nat) (src : List Nat) (h : src.length ≤ fuel) :
    expand_spans (encoder_spans fuel src) = src.map (fun c => c &&& 0xF0) := by
  induction fuel generalizing src with
  | zero =>
    have : src = [] := List.length_eq_zero.mp (by omega)
    subst this; simp [encoder_spans, expand_spans]
  | succ k ih =>
    cases src with
    | nil => simp [encoder_spans, expand_spans]
    | cons b rest =>
      have hb := ref_span_len_bounds b rest (span_max_len (b &&& 0xF0)) (span_max_len_pos _)
      rw [encoder_spans_cons, get_pixel_span_cons]
      simp only [expand_spans, List.flatMap_cons] at ih ⊢
      rw [ih _ (by simp only [List.length_drop]; simp only [List.length_cons] at h hb ⊢; omega),
        ← ref_span_len_take, ← List.map_append, List.take_append_drop]

theorem get_pixel_span_valid (b : Nat) (rest : List Nat) :
    valid_span (anycubicsla_get_pixel_span (b :: rest)) := by
  have hb := ref_span_len_bounds b rest (span_max_len (b &&& 0xF0)) (span_max_len_pos _)
  rw [get_pixel_span_cons]
  exact ⟨hi_idem b, hb.1, hb.2.1⟩

theorem encoder_spans_valid (fuel : Nat) (src : List Nat) :
    ∀ s ∈ encoder_spans fuel src, valid_span s := by
  induction fuel generalizing src with
  | zero => simp [encoder_spans]
  | succ k ih =>
    cases src with
    | nil => simp [encoder_spans]
    | cons b rest =>
      rw [encoder_spans_cons]
      intro s hs
      rcases List.mem_cons.mp hs with h | h
      · rw [h]; exact get_pixel_span_valid b rest
      · exact ih _ s h

theorem encoder_spans_sum (fuel : Nat) (src : List Nat) (h : src.length ≤ fuel) :
    ((encoder_spans fuel src).map Prod.snd).sum = src.length := by
  have := congrArg List.length (expand_encoder_spans fuel src h)
  rw [List.length_map] at this
  rw [← this]
  generalize encoder_spans fuel src = spans
  induction spans with
  | nil => simp [expand_spans]
  | cons s t ih =>
    simp only [expand_spans, List.flatMap_cons, List.length_append, List.length_replicate,
      List.map_cons, List.sum_cons] at ih ⊢
    omega

/-- The two bytes of a solid code carry its value and its run length. -/
theorem emit_span_solid (v n : Nat) (hv : v = 0 ∨ v = 0xF0) (hn : n ≤ 4095) :
    ∃ b0 b1, emit_span v n = [b0, b1] ∧ b0 = (v ||| (n >>> 8)) ∧ b1 = (n &&& 0xFF) ∧
      (b0 &&& 0xF0) = v ∧ (((b0 &&& 0x0F) <<< 8) ||| b1) = n := by
  have hq : n >>> 8 < 16 := by
    rw [Nat.shiftRight_eq_div_pow]; simp only [Nat.reducePow]; omega
  have hs := solid_hi_bits (n >>> 8) hq
  have hj := run_length_join n
  have hm : (n &&& 0xFF) % 256 = (n &&& 0xFF) := by
    apply Nat.mod_eq_of_lt
    have : n &&& 0xFF ≤ 0xFF := Nat.and_le_right
    omega
  refine ⟨(v ||| (n >>> 8)), (n &&& 0xFF), ?_, rfl, rfl, ?_, ?_⟩
  · rcases hv with hv | hv <;> subst hv
    · simp only [emit_span, true_or, if_true, hm, Nat.mod_eq_of_lt hs.1.2.2]
    · simp only [emit_span, or_true, if_true, hm, Nat.mod_eq_of_lt hs.2.2.2]
  · rcases hv with hv | hv <;> subst hv
    · have := hs.1.1; rwa [Nat.mod_eq_of_lt hs.1.2.2] at this
    · have := hs.2.1; rwa [Nat.mod_eq_of_lt hs.2.2.2] at this
  · rw [hm] at hj
    rcases hv with hv | hv <;> subst hv
    · have := hs.1.2.1; rw [Nat.mod_eq_of_lt hs.1.2.2] at this; rw [this]; exact hj
    · have := hs.2.2.1; rw [Nat.mod_eq_of_lt hs.2.2.2] at this; rw [this]; exact hj

/-- The byte of a gray code carries its value and its run length. -/
theorem emit_span_gray (v n : Nat) (hv : (v &&& 0xF0) = v) (hs : ¬ (v = 0 ∨ v = 0xF0))
    (hn : n ≤ 15) :
    ∃ b0, emit_span v n = [b0] ∧ b0 = (v ||| n) ∧ (b0 &&& 0xF0) = v ∧ (b0 &&& 0x0F) = n := by
  have hle : v < 241 := by have := hi_le v; rw [hv] at this; omega
  have hg := gray_bits v hle n (by omega) hv
  refine ⟨v ||| n, ?_, rfl, ?_, ?_⟩
  · simp only [emit_span, hs, if_false, Nat.mod_eq_of_lt hg.2.2]
  · have := hg.1; rwa [Nat.mod_eq_of_lt hg.2.2] at this
  · have := hg.2.1; rwa [Nat.mod_eq_of_lt hg.2.2] at this

theorem rle_decode_cons_solid (b c : Nat) (rest : List Nat)
    (h : (b &&& 0xF0) = 0 ∨ (b &&& 0xF0) = 0xF0) :
    rle_decode (b :: c :: rest) =
      List.replicate (((b &&& 0x0F) <<< 8) ||| c) (b &&& 0xF0) ++ rle_decode rest := by
  rw [rle_decode, if_pos h]

theorem rle_decode_cons_gray (b : Nat) (rest : List Nat)
    (h : ¬ ((b &&& 0xF0) = 0 ∨ (b &&& 0xF0) = 0xF0)) :
    rle_decode (b :: rest) =
      List.replicate (b &&& 0x0F) (b &&& 0xF0) ++ rle_decode rest := by
  cases rest with
  | nil => simp [rle_decode, h]
  | cons c rest2 => rw [rle_decode, if_neg h]

/-- Decoding the code of a valid span followed by more stream gives the run
followed by the decoding of the rest. -/
theorem rle_decode_emit_span (s : Nat × Nat) (hs : valid_span s) (rest : List Nat) :
    rle_decode (emit_span s.1 s.2 ++ rest) = List.replicate s.2 s.1 ++ rle_decode rest := by
  obtain ⟨hv, _, hmax⟩ := hs
  by_cases hsolid : s.1 = 0 ∨ s.1 = 0xF0
  · have hmax2 : s.2 ≤ 4095 := by simpa [span_max_len, hsolid] using hmax
    obtain ⟨b0, b1, he, _, _, hb0, hlen⟩ := emit_span_solid s.1 s.2 hsolid hmax2
    rw [he]
    show rle_decode (b0 :: b1 :: rest) = _
    rw [rle_decode_cons_solid b0 b1 rest (by rw [hb0]; exact hsolid), hb0, hlen]
  · have hmax2 : s.2 ≤ 15 := by simpa [span_max_len, hsolid] using hmax
    obtain ⟨b0, he, _, hb0, hlen⟩ := emit_span_gray s.1 s.2 hv hsolid hmax2
    rw [he]
    show rle_decode (b0 :: rest) = _
    rw [rle_decode_cons_gray b0 rest (by rw [hb0]; exact hsolid), hb0, hlen]

theorem rle_decode_spans (spans : List (Nat × Nat)) (h : ∀ s ∈ spans, valid_span s) :
    rle_decode (spans.flatMap (fun s => emit_span s.1 s.2)) = expand_spans spans := by
  induction spans with
  | nil => simp [expand_spans, rle_decode]
  | cons s t ih =>
    simp only [List.flatMap_cons, expand_spans] at ih ⊢
    rw [rle_decode_emit_span s (h s (List.mem_cons_self _ _)),
      ih (fun x hx => h x (List.mem_cons_of_mem _ hx))]

theorem encode_plane_eq_spans (plane : List Nat) :
    encode_plane plane =
      (encoder_spans plane.length plane).flatMap (fun s => emit_span s.1 s.2) := by
  simp [encode_plane, encoder_loop_eq_spans]

/-- Decoding the encoder output gives the high nibbles of the plane. -/
theorem rle_decode_encode_plane (plane : List Nat) :
    rle_decode (encode_plane plane) = plane.map (fun c => c &&& 0xF0) := by
  rw [encode_plane_eq_spans, rle_decode_spans _ (encoder_spans_valid _ _),
    expand_encoder_spans _ _ (Nat.le_refl _)]

theorem span_max_len_eq (v : Nat) :
    span_max_len v = if v = 0x00 ∨ v = 0xF0 then 4095 else 15 := rfl

/-- The encoder agrees with the reference encoder on every buffer. -/
theorem spans_bytes_eq_ref_encode (fuel : Nat) (src : List Nat) (h : src.length ≤ fuel) :
    (encoder_spans fuel src).flatMap (fun s => emit_span s.1 s.2) = ref_encode src := by
  induction fuel generalizing src with
  | zero =>
    have : src = [] := List.length_eq_zero.mp (by omega)
    subst this; simp [encoder_spans, ref_encode]
  | succ k ih =>
    cases src with
    | nil => simp [encoder_spans, ref_encode]
    | cons b rest =>
      have hb := ref_span_len_bounds b rest (span_max_len (b &&& 0xF0)) (span_max_len_pos _)
      have hvalid := get_pixel_span_valid b rest
      rw [encoder_spans_cons, List.flatMap_cons,
        ih _ (by simp only [List.length_drop, get_pixel_span_cons]
                 simp only [List.length_cons] at h hb ⊢; omega)]
      rw [get_pixel_span_cons] at hvalid ⊢
      conv => rhs; rw [ref_encode]
      simp only [← span_max_len_eq]
      congr 1
      obtain ⟨hv, _, hmax⟩ := hvalid
      simp only at hv hmax
      by_cases hsolid : (b &&& 0xF0) = 0 ∨ (b &&& 0xF0) = 0xF0
      · have hmax2 : ref_span_len (b &&& 0xF0) (span_max_len (b &&& 0xF0)) (b :: rest) ≤ 4095 := by
          simpa [span_max_len, hsolid] using hmax
        obtain ⟨b0, b1, he, h0, h1, _, _⟩ := emit_span_solid _ _ hsolid hmax2
        rw [he, if_pos hsolid, h0, h1]
      · have hmax2 : ref_span_len (b &&& 0xF0) (span_max_len (b &&& 0xF0)) (b :: rest) ≤ 15 := by
          simpa [span_max_len, hsolid] using hmax
        obtain ⟨b0, he, h0, _, _⟩ := emit_span_gray _ _ hv hsolid hmax2
        rw [he, if_neg hsolid, h0]

/-- The iteration bound of the encoder loop does not cut the loop short: with
any bound of at least the buffer length the loop ends with the buffer
exhausted, and its output does not depend on the bound. -/
theorem encoder_loop_fuel (fuel : Nat) (src dst : List Nat) (h : src.length ≤ fuel) :
    encoder_loop fuel src dst = encoder_loop src.length src dst := by
  rw [encoder_loop_eq_spans, encoder_loop_eq_spans, spans_bytes_eq_ref_encode _ _ h,
    spans_bytes_eq_ref_encode _ _ (Nat.le_refl _)]

theorem encoder_spans_head (fuel : Nat) (src : List Nat) :
    ∀ y ∈ (encoder_spans fuel src).head?, ∃ c ∈ src.head?, y.1 = (c &&& 0xF0) := by
  cases fuel with
  | zero => simp [encoder_spans]
  | succ k =>
    cases src with
    | nil => simp [encoder_spans]
    | cons b rest =>
      rw [encoder_spans_cons, get_pixel_span_cons]
      simp

/-- Two consecutive spans carry the same value only when the first one has the
maximum length of its class. -/
theorem encoder_spans_chain (fuel : Nat) (src : List Nat) :
    List.Chain' (fun a b : Nat × Nat => a.1 = b.1 → a.2 = span_max_len a.1)
      (encoder_spans fuel src) := by
  induction fuel generalizing src with
  | zero => simp [encoder_spans]
  | succ k ih =>
    cases src with
    | nil => simp [encoder_spans]
    | cons b rest =>
      rw [encoder_spans_cons, List.chain'_cons']
      refine ⟨?_, ih _⟩
      intro y hy hval
      obtain ⟨c, hc, hyc⟩ := encoder_spans_head _ _ y hy
      rw [get_pixel_span_cons] at hc hval ⊢
      simp only at hc hval ⊢
      have hb := ref_span_len_bounds b rest (span_max_len (b &&& 0xF0)) (span_max_len_pos _)
      by_contra hne
      have hlt : ref_span_len (b &&& 0xF0) (span_max_len (b &&& 0xF0)) (b :: rest)
          < span_max_len (b &&& 0xF0) := by omega
      exact ref_span_len_maximal _ _ _ hlt c hc (by rw [← hyc, ← hval])

set_option maxRecDepth 100000 in
theorem encoder_spans_4096 :
    encoder_spans 4096 (List.replicate 4096 0xF0) = [(0xF0, 4095), (0xF0, 1)] := by
  decide!

theorem encoder_buffer_eq (ptr : List Nat) (w h num_components : Nat) :
    (AnycubicSLARasterEncoder ptr w h num_components).buffer =
      encode_plane (encoder_source ptr w h num_components) := rfl

theorem encode_plane_4096 :
    encode_plane (encoder_source (List.replicate 4096 0xF0) 4096 1 1) =
      [0xFF, 0xFF, 0xF0, 0x01] := by
  have hsrc : encoder_source (List.replicate 4096 0xF0) 4096 1 1 = List.replicate 4096 0xF0 := by
    unfold encoder_source
    apply List.take_of_length_le
    rw [List.length_replicate]
    decide
  have hlen : (List.replicate 4096 0xF0).length = 4096 := List.length_replicate _ _
  rw [hsrc, encode_plane_eq_spans, hlen, encoder_spans_4096]
  rfl

theorem encoder_source_eq (ptr : List Nat) (w h num_components : Nat)
    (hsize : ptr.length = w * h * num_components) (hfit : ptr.length < 2 ^ 64) :
    encoder_source ptr w h num_components = ptr := by
  unfold encoder_source
  apply List.take_of_length_le
  rw [← hsize, Nat.mod_eq_of_lt hfit]

/-- C1. Codec round trip: for a plane of `w * h * num_components` bytes whose
bytes all have a zero low nibble, decoding the stream produced by
`AnycubicSLARasterEncoder` with the reference decoder gives back exactly that
plane. -/
theorem rle_round_trip (ptr : List Nat) (w h num_components : Nat)
    (hsize : ptr.length = w * h * num_components) (hfit : ptr.length < 2 ^ 64)
    (hclean : ∀ b ∈ ptr, b < 256 ∧ b % 16 = 0) :
    rle_decode (AnycubicSLARasterEncoder ptr w h num_components).buffer = ptr := by
  rw [encoder_buffer_eq, encoder_source_eq ptr w h num_components hsize hfit, rle_decode_encode_plane]
  conv => rhs; rw [← List.map_id ptr]
  apply List.map_congr_left
  intro b hb
  exact clean_hi b (hclean b hb).1 (hclean b hb).2

/-- Witness of C1 on a 3x2 plane mixing transparent, gray and opaque pixels. -/
theorem rle_round_trip_witness :
    ([0x00, 0x00, 0x30, 0x30, 0xF0, 0x70].length = 3 * 2 * 1 ∧
      [0x00, 0x00, 0x30, 0x30, 0xF0, 0x70].length < 2 ^ 64 ∧
      ∀ b ∈ [0x00, 0x00, 0x30, 0x30, 0xF0, 0x70], b < 256 ∧ b % 16 = 0) ∧
    rle_decode (AnycubicSLARasterEncoder [0x00, 0x00, 0x30, 0x30, 0xF0, 0x70] 3 2 1).buffer =
      [0x00, 0x00, 0x30, 0x30, 0xF0, 0x70] :=
  ⟨⟨by decide, by decide, by decide⟩,
    rle_round_trip [0x00, 0x00, 0x30, 0x30, 0xF0, 0x70] 3 2 1 (by decide) (by decide)
      (by decide)⟩

/-- C2. The stream of the encoder is the concatenation of the codes of its
spans; every solid code (value 0x00 or 0xF0) is two bytes carrying a run
length between 1 and 4095, every gray code one byte carrying a run length
between 1 and 15; the run lengths sum to the number of input pixels (the
`w * h * num_components` bytes read); and a plane of 4096 pixels of value 0xF0 encodes to the bytes FF FF F0 01, two solid
codes of lengths 4095 and 1. -/
theorem encoder_run_lengths (ptr : List Nat) (w h num_components : Nat) :
    (AnycubicSLARasterEncoder ptr w h num_components).buffer =
      (encoder_spans (encoder_source ptr w h num_components).length
        (encoder_source ptr w h num_components)).flatMap (fun s => emit_span s.1 s.2) ∧
    (∀ s ∈ encoder_spans (encoder_source ptr w h num_components).length
        (encoder_source ptr w h num_components),
      (s.1 = 0x00 ∨ s.1 = 0xF0) →
        1 ≤ s.2 ∧ s.2 ≤ 4095 ∧
        ∃ b0 b1, emit_span s.1 s.2 = [b0, b1] ∧ (b0 &&& 0xF0) = s.1 ∧
          (((b0 &&& 0x0F) <<< 8) ||| b1) = s.2) ∧
    (∀ s ∈ encoder_spans (encoder_source ptr w h num_components).length
        (encoder_source ptr w h num_components),
      ¬ (s.1 = 0x00 ∨ s.1 = 0xF0) →
        1 ≤ s.2 ∧ s.2 ≤ 15 ∧
        ∃ b0, emit_span s.1 s.2 = [b0] ∧ (b0 &&& 0xF0) = s.1 ∧ (b0 &&& 0x0F) = s.2) ∧
    ((encoder_spans (encoder_source ptr w h num_components).length
        (encoder_source ptr w h num_components)).map Prod.snd).sum =
      (encoder_source ptr w h num_components).length ∧
    (ptr.length = w * h * num_components → ptr.length < 2 ^ 64 →
      ((encoder_spans (encoder_source ptr w h num_components).length
          (encoder_source ptr w h num_components)).map Prod.snd).sum =
        w * h * num_components) ∧
    (AnycubicSLARasterEncoder (List.replicate 4096 0xF0) 4096 1 1).buffer =
      [0xFF, 0xFF, 0xF0, 0x01] ∧
    encoder_spans (encoder_source (List.replicate 4096 0xF0) 4096 1 1).length
        (encoder_source (List.replicate 4096 0xF0) 4096 1 1) = [(0xF0, 4095), (0xF0, 1)] := by
  have hlen : (List.replicate 4096 0xF0).length = 4096 := List.length_replicate _ _
  have hsrc : encoder_source (List.replicate 4096 0xF0) 4096 1 1 = List.replicate 4096 0xF0 :=
    encoder_source_eq _ _ _ _ (by rw [hlen]) (by rw [hlen]; decide)
  refine ⟨encode_plane_eq_spans _, ?_, ?_, encoder_spans_sum _ _ (Nat.le_refl _), ?_, ?_, ?_⟩
  · intro s hs hsolid
    obtain ⟨_, h1, hmax⟩ := encoder_spans_valid _ _ s hs
    have hmax2 : s.2 ≤ 4095 := by simpa [span_max_len, hsolid] using hmax
    obtain ⟨b0, b1, he, _, _, hb0, hlen⟩ := emit_span_solid s.1 s.2 hsolid hmax2
    exact ⟨h1, hmax2, b0, b1, he, hb0, hlen⟩
  · intro s hs hgray
    obtain ⟨hv, h1, hmax⟩ := encoder_spans_valid _ _ s hs
    have hmax2 : s.2 ≤ 15 := by simpa [span_max_len, hgray] using hmax
    obtain ⟨b0, he, _, hb0, hlen⟩ := emit_span_gray s.1 s.2 hv hgray hmax2
    exact ⟨h1, hmax2, b0, he, hb0, hlen⟩
  · intro hsize hfit
    rw [encoder_spans_sum _ _ (Nat.le_refl _), encoder_source_eq ptr w h num_components hsize hfit,
      hsize]
  · rw [encoder_buffer_eq]
    exact encode_plane_4096
  · rw [hsrc, hlen, encoder_spans_4096]

/-- C3. The encoder output equals the reference encoding (longest prefix of
equal high nibble, capped at 4095 for the values 0x00 and 0xF0 and at 15
otherwise, two bytes for a solid span and one for a gray span), and two
consecutive codes carry the same value only when the first one has the maximum
length of its class. -/
theorem encoder_eq_reference (ptr : List Nat) (w h num_components : Nat) :
    (AnycubicSLARasterEncoder ptr w h num_components).buffer =
      ref_encode (encoder_source ptr w h num_components) ∧
    (AnycubicSLARasterEncoder ptr w h num_components).buffer =
      (encoder_spans (encoder_source ptr w h num_components).length
        (encoder_source ptr w h num_components)).flatMap (fun s => emit_span s.1 s.2) ∧
    List.Chain'
      (fun a b : Nat × Nat =>
        a.1 = b.1 → a.2 = if a.1 = 0x00 ∨ a.1 = 0xF0 then 4095 else 15)
      (encoder_spans (encoder_source ptr w h num_components).length
        (encoder_source ptr w h num_components)) := by
  refine ⟨?_, encode_plane_eq_spans _, encoder_spans_chain _ _⟩
  rw [encoder_buffer_eq, encode_plane_eq_spans, spans_bytes_eq_ref_encode _ _ (Nat.le_refl _)]

/-! ## Properties of the preview converter -/

/-- One iteration of the conversion loop. -/
theorem fill_preview_loop_step (src : List Nat) (len fuel i dst pixel_x : Nat) (px : List Nat)
    (h : i < len) :
    fill_preview_loop src len (fuel + 1) i dst pixel_x px =
      fill_preview_loop src len fuel (i + 4)
        (if pixel_x + 1 = PREV_W then u32 (u32 (dst + 2) + 2 ^ 32 - PREV_W * 4)
          else u32 (dst + 2))
        (if pixel_x + 1 = PREV_W then 0 else pixel_x + 1)
        ((px.set dst
            (bgr565 (src.getD i 0) (src.getD (i + 1) 0) (src.getD (i + 2) 0) &&& 0xFF)).set
          (u32 (dst + 1))
          ((bgr565 (src.getD i 0) (src.getD (i + 1) 0) (src.getD (i + 2) 0) >>> 8) &&& 0xFF)) := by
  rw [fill_preview_loop, if_pos h]
  by_cases hx : pixel_x + 1 = PREV_W
  · simp only [hx, if_true]
  · simp only [hx, if_false]

theorem fill_preview_loop_done (src : List Nat) (len fuel i dst pixel_x : Nat) (px : List Nat)
    (h : ¬ i < len) :
    fill_preview_loop src len fuel i dst pixel_x px = px := by
  cases fuel with
  | zero => rfl
  | succ k => rw [fill_preview_loop, if_neg h]

theorem preview_dst_lt (k : Nat) (hk : k < 37632) : preview_dst k + 1 < 75264 := by
  unfold preview_dst; omega

theorem preview_dst_inj (j k : Nat) (hj : j < 37632) (hk : k < 37632)
    (h : preview_dst j = preview_dst k) : j = k := by
  unfold preview_dst at h; omega

theorem preview_dst_succ (k : Nat) (hk : k + 1 < 37632) :
    (if k % 224 + 1 = PREV_W then u32 (u32 (preview_dst k + 2) + 2 ^ 32 - PREV_W * 4)
      else u32 (preview_dst k + 2)) = preview_dst (k + 1) := by
  unfold preview_dst u32 PREV_W
  split <;> omega

/-- Effect of the conversion loop started at source pixel `k`: the result keeps
the length of the destination, holds the two bytes of every remaining source
pixel at its destination index, and keeps every other byte. -/
theorem fill_preview_loop_spec (src : List Nat) (fuel : Nat) :
    ∀ (k dst : Nat) (px : List Nat), k ≤ 37632 → 37632 - k ≤ fuel → px.length = 75264 →
      (k < 37632 → dst = preview_dst k) →
      (fill_preview_loop src 150528 fuel (4 * k) dst (k % 224) px).length = 75264 ∧
      (∀ j, k ≤ j → j < 37632 →
        (fill_preview_loop src 150528 fuel (4 * k) dst (k % 224) px)[preview_dst j]? =
            some (src_pixel src j &&& 0xFF) ∧
        (fill_preview_loop src 150528 fuel (4 * k) dst (k % 224) px)[preview_dst j + 1]? =
            some ((src_pixel src j >>> 8) &&& 0xFF)) ∧
      (∀ pos, (∀ j, k ≤ j → j < 37632 → pos ≠ preview_dst j ∧ pos ≠ preview_dst j + 1) →
        (fill_preview_loop src 150528 fuel (4 * k) dst (k % 224) px)[pos]? = px[pos]?) := by
  induction fuel with
  | zero =>
    intro k dst px hk hfuel hpx _
    have hkN : k = 37632 := by omega
    subst hkN
    refine ⟨hpx, ?_, ?_⟩
    · intro j h1 h2; omega
    · intro pos _; rfl
  | succ f ih =>
    intro k dst px hk hfuel hpx hdst
    by_cases hlt : k < 37632
    · have hd := hdst hlt
      subst hd
      have hb := preview_dst_lt k hlt
      have h1 : u32 (preview_dst k + 1) = preview_dst k + 1 := by unfold u32; omega
      rw [fill_preview_loop_step src 150528 f (4 * k) (preview_dst k) (k % 224) px (by omega)]
      have hi4 : 4 * k + 4 = 4 * (k + 1) := by omega
      have hx : (if k % 224 + 1 = PREV_W then 0 else k % 224 + 1) = (k + 1) % 224 := by
        unfold PREV_W; split <;> omega
      rw [hi4, hx, h1]
      have hstep := ih (k + 1)
        (if k % 224 + 1 = PREV_W then u32 (u32 (preview_dst k + 2) + 2 ^ 32 - PREV_W * 4)
          else u32 (preview_dst k + 2))
        ((px.set (preview_dst k) (src_pixel src k &&& 0xFF)).set (preview_dst k + 1)
          ((src_pixel src k >>> 8) &&& 0xFF))
        (by omega) (by omega) (by simp [hpx]) (fun h => preview_dst_succ k h)
      have hsp : bgr565 (src.getD (4 * k) 0) (src.getD (4 * k + 1) 0) (src.getD (4 * k + 2) 0)
          = src_pixel src k := rfl
      rw [hsp]
      obtain ⟨hlen, hset, hkeep⟩ := hstep
      refine ⟨hlen, ?_, ?_⟩
      · intro j hj1 hj2
        by_cases hjk : j = k
        · subst hjk
          have hne : ∀ i, j + 1 ≤ i → i < 37632 →
              preview_dst j ≠ preview_dst i ∧ preview_dst j ≠ preview_dst i + 1 ∧
              preview_dst j + 1 ≠ preview_dst i ∧ preview_dst j + 1 ≠ preview_dst i + 1 := by
            intro i hi1 hi2
            have : preview_dst j ≠ preview_dst i := fun h => by
              have := preview_dst_inj j i hlt hi2 h; omega
            unfold preview_dst at this ⊢
            omega
          constructor
          · rw [hkeep (preview_dst j) (fun i hi1 hi2 => ⟨(hne i hi1 hi2).1, (hne i hi1 hi2).2.1⟩)]
            rw [List.getElem?_set_ne (by omega), List.getElem?_set_self (by omega)]
          · rw [hkeep (preview_dst j + 1)
              (fun i hi1 hi2 => ⟨(hne i hi1 hi2).2.2.1, (hne i hi1 hi2).2.2.2⟩)]
            rw [List.getElem?_set_self (by simp; omega)]
        · exact hset j (by omega) hj2
      · intro pos hpos
        rw [hkeep pos (fun i hi1 hi2 => hpos i (by omega) hi2)]
        have := hpos k (Nat.le_refl _) hlt
        rw [List.getElem?_set_ne (by omega), List.getElem?_set_ne (by omega)]
    · have hkN : k = 37632 := by omega
      subst hkN
      rw [fill_preview_loop_done _ _ _ _ _ _ _ (by omega)]
      refine ⟨hpx, ?_, ?_⟩
      · intro j h1 h2; omega
      · intro pos _; rfl

theorem getElem?_flatten_replicate (l : List Nat) (n : Nat) :
    ∀ k i, k < n → i < l.length → (List.replicate n l).flatten[l.length * k + i]? = l[i]? := by
  induction n with
  | zero => intro k i hk; omega
  | succ m ih =>
    intro k i hk hi
    rw [List.replicate_succ, List.flatten_cons]
    cases k with
    | zero =>
      rw [Nat.mul_zero, Nat.zero_add, List.getElem?_append_left hi]
    | succ j =>
      rw [List.getElem?_append_right (by rw [Nat.mul_succ]; omega)]
      have : l.length * (j + 1) + i - l.length = l.length * j + i := by
        rw [Nat.mul_succ]; omega
      rw [this]
      exact ih j i (by omega) hi

theorem length_flatten_replicate (l : List Nat) (n : Nat) :
    (List.replicate n l).flatten.length = n * l.length := by
  induction n with
  | zero => simp
  | succ m ih => rw [List.replicate_succ, List.flatten_cons, List.length_append, ih]; ring

/-- The conversion is performed for every first thumbnail whose buffer holds
`224 * 168 * 4` bytes: the preview holds the two bytes of every source pixel
at its destination index. -/
theorem fill_preview_converted (p : anycubicsla_format_preview) (t : ThumbnailData)
    (rest : List ThumbnailData) (hlen : t.pixels.length = 150528) :
    (fill_preview p (t :: rest)).pixels.length = 75264 ∧
    ∀ k, k < 37632 →
      (fill_preview p (t :: rest)).pixels[preview_dst k]? =
          some (src_pixel t.pixels k &&& 0xFF) ∧
      (fill_preview p (t :: rest)).pixels[preview_dst k + 1]? =
          some ((src_pixel t.pixels k >>> 8) &&& 0xFF) := by
  have hne : ¬ (t.pixels.length ≠ PREV_W * PREV_H * 4) := by rw [hlen]; decide
  have hpix : (fill_preview p (t :: rest)).pixels =
      fill_preview_loop t.pixels t.pixels.length t.pixels.length 0
        (u32 (PREV_W * (PREV_H - 1) * 2)) 0 (List.replicate (PREV_W * PREV_H * 2) 0) := by
    unfold fill_preview
    simp only [hne, if_false]
  have hspec := fill_preview_loop_spec t.pixels 150528 0 (u32 (PREV_W * (PREV_H - 1) * 2))
    (List.replicate (PREV_W * PREV_H * 2) 0) (by omega) (by omega)
    (by rw [List.length_replicate]; rfl) (fun _ => by decide)
  rw [Nat.mul_zero, Nat.zero_mod] at hspec
  rw [hpix, hlen]
  exact ⟨hspec.1, fun k hk => hspec.2.1 k (Nat.zero_le _) hk⟩

theorem red_pixels_getD (n k : Nat) (hk : k < n) :
    ((List.replicate n [255, 0, 0, 255]).flatten.getD (4 * k) 0 = 255) ∧
    ((List.replicate n [255, 0, 0, 255]).flatten.getD (4 * k + 1) 0 = 0) ∧
    ((List.replicate n [255, 0, 0, 255]).flatten.getD (4 * k + 2) 0 = 0) := by
  have h0 := getElem?_flatten_replicate [255, 0, 0, 255] n k 0 hk (by decide)
  have h1 := getElem?_flatten_replicate [255, 0, 0, 255] n k 1 hk (by decide)
  have h2 := getElem?_flatten_replicate [255, 0, 0, 255] n k 2 hk (by decide)
  simp only [List.length_cons, List.length_nil, Nat.add_zero] at h0 h1 h2
  refine ⟨?_, ?_, ?_⟩
  · rw [List.getD_eq_getElem?_getD, h0]; rfl
  · rw [List.getD_eq_getElem?_getD, h1]; rfl
  · rw [List.getD_eq_getElem?_getD, h2]; rfl

/-- Every pixel of a red source buffer converts to the value 0x001F. -/
theorem src_pixel_red (n k : Nat) (hk : k < n) :
    src_pixel (List.replicate n [255, 0, 0, 255]).flatten k = 0x1F := by
  obtain ⟨h0, h1, h2⟩ := red_pixels_getD n k hk
  unfold src_pixel
  rw [h0, h1, h2]
  decide

/-- A preview buffer whose pixel `preview_dst k` is the byte pair 1F 00 for
every `k` is the buffer of 37632 such pairs. -/
theorem preview_all_red (px : List Nat) (hlen : px.length = 75264)
    (h : ∀ k, k < 37632 → px[preview_dst k]? = some 0x1F ∧ px[preview_dst k + 1]? = some 0x00) :
    px = (List.replicate (224 * 168) [0x1F, 0x00]).flatten := by
  apply List.ext_getElem?
  intro n
  by_cases hn : n < 75264
  · have hk : (167 - (n / 2) / 224) * 224 + (n / 2) % 224 < 37632 := by omega
    have hd : preview_dst ((167 - (n / 2) / 224) * 224 + (n / 2) % 224) = 2 * (n / 2) := by
      unfold preview_dst; omega
    have hpair := h _ hk
    rw [hd] at hpair
    rcases Nat.mod_two_eq_zero_or_one n with hpar | hpar
    · have hn2 : n = 2 * (n / 2) + 0 := by omega
      have hr := getElem?_flatten_replicate [0x1F, 0x00] (224 * 168) (n / 2) 0 (by omega)
        (by decide)
      simp only [List.length_cons, List.length_nil] at hr
      rw [hn2, hr]
      exact hpair.1
    · have hn2 : n = 2 * (n / 2) + 1 := by omega
      have hr := getElem?_flatten_replicate [0x1F, 0x00] (224 * 168) (n / 2) 1 (by omega)
        (by decide)
      simp only [List.length_cons, List.length_nil] at hr
      rw [hn2, hr]
      exact hpair.2
  · rw [List.getElem?_eq_none (by omega),
      List.getElem?_eq_none (by rw [length_flatten_replicate]; simp only [List.length_cons, List.length_nil]; omega)]

/-- C4. For a thumbnail of exactly 224x168 RGBA8 pixels, `fill_preview` stores
for the source pixel at column `x`, row `y` with channels `(r, g, b, a)` the
16-bit value `((b>>3)<<11) | ((g>>2)<<5) | (r>>3)`, low byte first, at the
destination byte index `2 * ((167 - y) * 224 + x)`: the row order is inverted
and alpha is not used. A thumbnail filled with (255, 0, 0, 255) gives a buffer
in which every pixel is the byte pair 1F 00. -/
theorem fill_preview_bgr565 (p : anycubicsla_format_preview) (t : ThumbnailData)
    (rest : List ThumbnailData) (hw : t.width = 224) (hh : t.height = 168)
    (hwf : t.well_formed) :
    (fill_preview p (t :: rest)).pixels.length = 224 * 168 * 2 ∧
    (∀ x y, x < 224 → y < 168 →
      (fill_preview p (t :: rest)).pixels[2 * ((167 - y) * 224 + x)]? =
        some ((((t.pixels.getD (4 * (y * 224 + x) + 2) 0 >>> 3) <<< 11) |||
                ((t.pixels.getD (4 * (y * 224 + x) + 1) 0 >>> 2) <<< 5) |||
                (t.pixels.getD (4 * (y * 224 + x)) 0 >>> 3)) &&& 0xFF) ∧
      (fill_preview p (t :: rest)).pixels[2 * ((167 - y) * 224 + x) + 1]? =
        some (((((t.pixels.getD (4 * (y * 224 + x) + 2) 0 >>> 3) <<< 11) |||
                ((t.pixels.getD (4 * (y * 224 + x) + 1) 0 >>> 2) <<< 5) |||
                (t.pixels.getD (4 * (y * 224 + x)) 0 >>> 3)) >>> 8) &&& 0xFF)) ∧
    (fill_preview p [red_thumbnail]).pixels = (List.replicate (224 * 168) [0x1F, 0x00]).flatten := by
  have hlen : t.pixels.length = 150528 := by
    unfold ThumbnailData.well_formed at hwf
    rw [hwf, hw, hh]
  obtain ⟨hl, hconv⟩ := fill_preview_converted p t rest hlen
  refine ⟨hl, ?_, ?_⟩
  · intro x y hx hy
    have hd : 2 * ((167 - y) * 224 + x) = preview_dst (y * 224 + x) := by
      unfold preview_dst; omega
    rw [hd]
    exact hconv (y * 224 + x) (by omega)
  · have hredlen : red_thumbnail.pixels.length = 150528 := by
      show (List.replicate (224 * 168) [255, 0, 0, 255]).flatten.length = 150528
      rw [length_flatten_replicate]; rfl
    obtain ⟨hl2, hconv2⟩ := fill_preview_converted p red_thumbnail [] hredlen
    apply preview_all_red _ hl2
    intro k hk
    have hpx := hconv2 k hk
    have hred : src_pixel red_thumbnail.pixels k = 0x1F := src_pixel_red (224 * 168) k hk
    rw [hred] at hpx
    exact hpx

/-- Witness of C4: the pure red 224x168 thumbnail. -/
theorem fill_preview_bgr565_witness :
    (red_thumbnail.width = 224 ∧ red_thumbnail.height = 168 ∧ red_thumbnail.well_formed) ∧
    (fill_preview preview_zero [red_thumbnail]).pixels =
      (List.replicate (224 * 168) [0x1F, 0x00]).flatten :=
  ⟨⟨rfl, rfl, by
      show (List.replicate (224 * 168) [255, 0, 0, 255]).flatten.length = 224 * 168 * 4
      rw [length_flatten_replicate]; rfl⟩,
    (fill_preview_bgr565 preview_zero red_thumbnail [] rfl rfl (by
      show (List.replicate (224 * 168) [255, 0, 0, 255]).flatten.length = 224 * 168 * 4
      rw [length_flatten_replicate]; rfl)).2.2⟩

/-- Counterexample to C5 as stated: a well-formed thumbnail of 168x224 pixels
does not have the dimensions 224x168, yet its conversion is not skipped: the
preview buffer is not left zeroed (its byte at index `2 * 167 * 224` is 0x1F). -/
theorem fill_preview_transposed_not_skipped :
    ¬ (transposed_thumbnail.width = 224 ∧ transposed_thumbnail.height = 168) ∧
    transposed_thumbnail.well_formed ∧
    (fill_preview preview_zero [transposed_thumbnail]).pixels[2 * (167 * 224)]? = some 0x1F ∧
    (fill_preview preview_zero [transposed_thumbnail]).pixels ≠
      List.replicate (224 * 168 * 2) 0 := by
  have hlen : transposed_thumbnail.pixels.length = 150528 := by
    show (List.replicate (168 * 224) [255, 0, 0, 255]).flatten.length = 150528
    rw [length_flatten_replicate]; rfl
  have hconv := (fill_preview_converted preview_zero transposed_thumbnail [] hlen).2 0
    (by decide)
  have hred : src_pixel transposed_thumbnail.pixels 0 = 0x1F :=
    src_pixel_red (168 * 224) 0 (by decide)
  rw [hred] at hconv
  have hidx : preview_dst 0 = 2 * (167 * 224) := by decide
  rw [hidx] at hconv
  refine ⟨by decide, ?_, hconv.1, ?_⟩
  · show (List.replicate (168 * 224) [255, 0, 0, 255]).flatten.length = 168 * 224 * 4
    rw [length_flatten_replicate]; rfl
  · intro heq
    have h1 := hconv.1
    rw [heq, List.getElem?_replicate] at h1
    revert h1
    decide

/-- C5 (amended). When the thumbnail list is empty or the pixel buffer of the
first thumbnail does not hold exactly `224 * 168 * 4` bytes, `fill_preview`
skips the conversion: all `224 * 168 * 2` preview bytes are zero and the
metadata is width 224, height 168, DPI 42. In particular this holds for every
well-formed first thumbnail with `width * height ≠ 224 * 168`. The function is
total, no error is raised. -/
theorem fill_preview_skipped (p : anycubicsla_format_preview) (thumbnails : List ThumbnailData)
    (h : ∀ t ∈ thumbnails.head?,
      t.pixels.length ≠ 224 * 168 * 4 ∨ (t.well_formed ∧ t.width * t.height ≠ 224 * 168)) :
    (fill_preview p thumbnails).pixels = List.replicate (224 * 168 * 2) 0 ∧
    (fill_preview p thumbnails).preview_w = 224 ∧
    (fill_preview p thumbnails).preview_h = 168 ∧
    (fill_preview p thumbnails).preview_dpi = 42 := by
  cases thumbnails with
  | nil => exact ⟨rfl, rfl, rfl, rfl⟩
  | cons t rest =>
    have hne : t.pixels.length ≠ PREV_W * PREV_H * 4 := by
      rcases h t (by simp) with h1 | ⟨hwf, hdim⟩
      · exact h1
      · unfold ThumbnailData.well_formed at hwf
        unfold PREV_W PREV_H
        omega
    unfold fill_preview
    simp only [hne, ne_eq, not_false_eq_true, if_true]
    exact ⟨rfl, rfl, rfl, rfl⟩

/-- Witness of C5 (amended): a 2x1 thumbnail. -/
theorem fill_preview_skipped_witness :
    (∀ t ∈ [({ width := 2, height := 1, pixels := [255, 0, 0, 255, 0, 0, 255, 255] } :
          ThumbnailData)].head?,
      t.pixels.length ≠ 224 * 168 * 4 ∨ (t.well_formed ∧ t.width * t.height ≠ 224 * 168)) ∧
    (fill_preview preview_zero
      [{ width := 2, height := 1, pixels := [255, 0, 0, 255, 0, 0, 255, 255] }]).pixels =
      List.replicate (224 * 168 * 2) 0 :=
  ⟨fun t ht => Or.inl (by simp at ht; subst ht; decide),
    (fill_preview_skipped preview_zero
      [{ width := 2, height := 1, pixels := [255, 0, 0, 255, 0, 0, 255, 255] }]
      (fun t ht => Or.inl (by simp at ht; subst ht; decide))).1⟩

/-! ## Properties of the layout planner and the archive writer -/

theorem val_V1 : FormatVersion.V1.val = 1 := rfl

theorem val_V515 : FormatVersion.V515.val = 515 := rfl

theorem val_V516 : FormatVersion.V516.val = 516 := rfl

theorem val_V517 : FormatVersion.V517.val = 517 := rfl

/-- The intro table planned for V1. -/
theorem layout_V1 (i : anycubicsla_format_intro) (n : Nat) :
    export_print_layout i .V1 n =
      { i with
        header_data_offset := 52
        preview_data_offset := 160
        layer_data_offset := 75452
        image_data_offset := (75472 + 32 * n) % 4294967296 } := by
  simp [export_print_layout, val_V1, val_V515, val_V516, val_V517, u32, u32_sub, sizeof_intro,
    sizeof_header, sizeof_preview, sizeof_color, sizeof_layers_header, sizeof_layer,
    sizeof_extra, sizeof_machine, sizeof_software, sizeof_model, PREV_W, PREV_H]

/-- The intro table planned for V515. -/
theorem layout_V515 (i : anycubicsla_format_intro) (n : Nat) :
    export_print_layout i .V515 n =
      { i with
        header_data_offset := 52
        preview_data_offset := 160
        layer_color_offset := 75452
        layer_data_offset := 75480
        image_data_offset := (75500 + 32 * n) % 4294967296 } := by
  simp [export_print_layout, val_V1, val_V515, val_V516, val_V517, u32, u32_sub, sizeof_intro,
    sizeof_header, sizeof_preview, sizeof_color, sizeof_layers_header, sizeof_layer,
    sizeof_extra, sizeof_machine, sizeof_software, sizeof_model, PREV_W, PREV_H]

/-- The intro table planned for V516. -/
theorem layout_V516 (i : anycubicsla_format_intro) (n : Nat) :
    export_print_layout i .V516 n =
      { i with
        header_data_offset := 52
        preview_data_offset := 160
        layer_color_offset := 75452
        layer_data_offset := 75480
        extra_data_offset := (75500 + 32 * n) % 4294967296
        machine_data_offset := (75572 + 32 * n) % 4294967296
        image_data_offset := (75728 + 32 * n) % 4294967296 } := by
  simp [export_print_layout, val_V1, val_V515, val_V516, val_V517, u32, u32_sub, sizeof_intro,
    sizeof_header, sizeof_preview, sizeof_color, sizeof_layers_header, sizeof_layer,
    sizeof_extra, sizeof_machine, sizeof_software, sizeof_model, PREV_W, PREV_H]
  refine ⟨?_, ?_⟩ <;> omega

/-- The intro table planned for V517. -/
theorem layout_V517 (i : anycubicsla_format_intro) (n : Nat) :
    export_print_layout i .V517 n =
      { i with
        header_data_offset := 56
        preview_data_offset := 164
        layer_color_offset := 75456
        layer_data_offset := 75484
        extra_data_offset := (75504 + 32 * n) % 4294967296
        machine_data_offset := (75576 + 32 * n) % 4294967296
        software_data_offset := (75732 + 32 * n) % 4294967296
        model_data_offset := (75896 + 32 * n) % 4294967296
        image_data_offset := (75944 + 32 * n) % 4294967296 } := by
  simp [export_print_layout, val_V1, val_V515, val_V516, val_V517, u32, u32_sub, sizeof_intro,
    sizeof_header, sizeof_preview, sizeof_color, sizeof_layers_header, sizeof_layer,
    sizeof_extra, sizeof_machine, sizeof_software, sizeof_model, PREV_W, PREV_H]
  refine ⟨?_, ?_, ?_, ?_⟩ <;> omega

theorem length_out_write (data : List Nat) (n : Nat) : (out_write data n).length = n := by
  simp [out_write]

theorem length_write_int32 (val : Nat) : (anycubicsla_write_int32 val).length = 4 := rfl

theorem length_write_int16 (val : Nat) : (anycubicsla_write_int16 val).length = 2 := rfl

theorem length_write_float {F : Type} (fo : FloatOps F) (val : F) :
    (anycubicsla_write_float fo val).length = 4 := rfl

/-- Number of bytes emitted by `anycubicsla_write_intro`. -/
theorem length_write_intro (i : anycubicsla_format_intro) (v : FormatVersion) :
    (anycubicsla_write_intro i v).length =
      48 + (if FormatVersion.V516.val ≤ v.val then 4 else 0)
         + (if FormatVersion.V517.val ≤ v.val then 4 else 0) := by
  cases v <;>
    simp [anycubicsla_write_intro, val_V1, val_V515, val_V516, val_V517, length_out_write,
      length_write_int32]

/-- Number of bytes emitted by `anycubicsla_write_header`. -/
theorem length_write_header {F : Type} (fo : FloatOps F) (h : anycubicsla_format_header F)
    (v : FormatVersion) :
    (anycubicsla_write_header fo h v).length =
      96 + (if FormatVersion.V516.val ≤ v.val then 4 else 0)
         + (if FormatVersion.V517.val ≤ v.val then 6 else 0) := by
  cases v <;>
    simp [anycubicsla_write_header, val_V1, val_V515, val_V516, val_V517, length_out_write,
      length_write_int32, length_write_int16, length_write_float]

/-- Number of bytes emitted by `anycubicsla_write_preview`. -/
theorem length_write_preview (p : anycubicsla_format_preview) :
    (anycubicsla_write_preview p).length = 75292 := by
  unfold anycubicsla_write_preview
  simp only [List.length_append, length_out_write, length_write_int32]
  rfl

/-- Number of bytes emitted by `anycubicsla_write_layer_color`. -/
theorem length_write_layer_color (c : anycubicsla_format_layers_color) (dpi : Nat) :
    (anycubicsla_write_layer_color c dpi).length = 16 + c.grey_max_count := by
  have hloop : ∀ n : Nat,
      ((List.range n).flatMap (fun i => out_write (c.grey.drop i) 1)).length = n := by
    intro n
    induction n with
    | zero => rfl
    | succ k ih =>
      rw [List.range_succ, List.flatMap_append, List.length_append, ih]
      simp [length_out_write]
  unfold anycubicsla_write_layer_color
  simp only [List.length_append, length_write_int32, hloop]
  omega

theorem length_write_layers_header (h : anycubicsla_format_layers_header) :
    (anycubicsla_write_layers_header h).length = 20 := by
  unfold anycubicsla_write_layers_header
  simp only [List.length_append, length_out_write, length_write_int32]

theorem length_write_layer {F : Type} (fo : FloatOps F) (l : anycubicsla_format_layer F) :
    (anycubicsla_write_layer fo l).length = 32 := by
  unfold anycubicsla_write_layer
  simp only [List.length_append, length_write_int32, length_write_float]

theorem length_write_extra {F : Type} (fo : FloatOps F) (e : anycubicsla_format_extra F) :
    (anycubicsla_write_extra fo e).length = 72 := by
  unfold anycubicsla_write_extra
  simp only [List.length_append, length_out_write, length_write_int32, length_write_float]

theorem length_write_machine {F : Type} (fo : FloatOps F) (m : anycubicsla_format_machine F) :
    (anycubicsla_write_machine fo m).length = 156 := by
  unfold anycubicsla_write_machine
  simp only [List.length_append, length_out_write, length_write_int32, length_write_float]

theorem length_write_software (s : anycubicsla_format_software) :
    (anycubicsla_write_software s).length = 164 := by
  unfold anycubicsla_write_software
  simp only [List.length_append, length_out_write, length_write_int32]

theorem length_write_model {F : Type} (fo : FloatOps F) (m : anycubicsla_format_model F) :
    (anycubicsla_write_model fo m).length = 48 := by
  unfold anycubicsla_write_model
  simp only [List.length_append, length_out_write, length_write_int32, length_write_float]

theorem length_export_layers {F : Type} (fo : FloatOps F) (header : anycubicsla_format_header F)
    (misc : anycubicsla_format_misc F) (rasters : List EncodedRaster) (i off : Nat) :
    (export_layers fo header misc rasters i off).length = rasters.length := by
  induction rasters generalizing i off with
  | nil => rfl
  | cons r rest ih => simp only [export_layers, List.length_cons, ih]

theorem bytes_before_cons_eq (s : Section) (b : List Nat) (rest : List (Section × List Nat)) :
    bytes_before s ((s, b) :: rest) = 0 := by
  simp [bytes_before]

theorem bytes_before_cons_ne (s l : Section) (b : List Nat) (rest : List (Section × List Nat))
    (h : l ≠ s) :
    bytes_before s ((l, b) :: rest) = b.length + bytes_before s rest := by
  simp [bytes_before, h]

/-- The layer records are 32 bytes each and all labelled `layers`. -/
theorem bytes_before_layer_records {F : Type} (fo : FloatOps F) (s : Section)
    (hs : Section.layers ≠ s) (ls : List (anycubicsla_format_layer F))
    (rest : List (Section × List Nat)) :
    bytes_before s (ls.map (fun l => (Section.layers, anycubicsla_write_layer fo l)) ++ rest) =
      32 * ls.length + bytes_before s rest := by
  induction ls with
  | nil => simp
  | cons l t ih =>
    rw [List.map_cons, List.cons_append, bytes_before_cons_ne _ _ _ _ hs, ih,
      length_write_layer, List.length_cons]
    omega

/-- The intro table of a run is the planned layout of the table initialised by
the `area_num` switch. -/
theorem export_print_body_intro {F : Type} (fo : FloatOps F) (v : FormatVersion)
    (m_layers : List EncodedRaster) (print : SLAPrint F) (thumbnails : List ThumbnailData)
    (dpi : Nat) :
    (export_print_body fo v m_layers print thumbnails dpi).intro =
      export_print_layout (export_print_area intro_zero v) v (u32 m_layers.length) := rfl

/-- Bytes written before each section by the `try` block, for any intro table
and any records. -/
theorem bytes_before_write {F : Type} (fo : FloatOps F) (v : FormatVersion)
    (m_layers : List EncodedRaster) (layer_count : Nat) (intro : anycubicsla_format_intro)
    (header : anycubicsla_format_header F) (misc : anycubicsla_format_misc F)
    (preview : anycubicsla_format_preview) (color : anycubicsla_format_layers_color)
    (dpi : Nat) (extra : anycubicsla_format_extra F) (machine : anycubicsla_format_machine F)
    (software : anycubicsla_format_software) (model : anycubicsla_format_model F) :
    bytes_before Section.header
        (export_print_write fo v m_layers layer_count intro header misc preview color dpi
          extra machine software model) =
      (anycubicsla_write_intro intro v).length ∧
    bytes_before Section.preview
        (export_print_write fo v m_layers layer_count intro header misc preview color dpi
          extra machine software model) =
      (anycubicsla_write_intro intro v).length + (anycubicsla_write_header fo header v).length ∧
    (intro.layer_color_offset ≠ 0 →
      bytes_before Section.layer_color
          (export_print_write fo v m_layers layer_count intro header misc preview color dpi
            extra machine software model) =
        (anycubicsla_write_intro intro v).length + (anycubicsla_write_header fo header v).length
          + 75292) ∧
    bytes_before Section.layers
        (export_print_write fo v m_layers layer_count intro header misc preview color dpi
          extra machine software model) =
      (anycubicsla_write_intro intro v).length + (anycubicsla_write_header fo header v).length
        + 75292 + (if intro.layer_color_offset ≠ 0 then 16 + color.grey_max_count else 0) ∧
    (intro.extra_data_offset ≠ 0 →
      bytes_before Section.extra
          (export_print_write fo v m_layers layer_count intro header misc preview color dpi
            extra machine software model) =
        (anycubicsla_write_intro intro v).length + (anycubicsla_write_header fo header v).length
          + 75292 + (if intro.layer_color_offset ≠ 0 then 16 + color.grey_max_count else 0)
          + 20 + 32 * m_layers.length) ∧
    (intro.machine_data_offset ≠ 0 →
      bytes_before Section.machine
          (export_print_write fo v m_layers layer_count intro header misc preview color dpi
            extra machine software model) =
        (anycubicsla_write_intro intro v).length + (anycubicsla_write_header fo header v).length
          + 75292 + (if intro.layer_color_offset ≠ 0 then 16 + color.grey_max_count else 0)
          + 20 + 32 * m_layers.length + (if intro.extra_data_offset ≠ 0 then 72 else 0)) ∧
    bytes_before Section.image_data
        (export_print_write fo v m_layers layer_count intro header misc preview color dpi
          extra machine software model) =
      (anycubicsla_write_intro intro v).length + (anycubicsla_write_header fo header v).length
        + 75292 + (if intro.layer_color_offset ≠ 0 then 16 + color.grey_max_count else 0)
        + 20 + 32 * m_layers.length + (if intro.extra_data_offset ≠ 0 then 72 else 0)
        + (if intro.machine_data_offset ≠ 0 then 156 else 0)
        + (if intro.software_data_offset ≠ 0 then 164 else 0)
        + (if intro.model_data_offset ≠ 0 then 48 else 0) := by
  have hrec : ∀ (s : Section), Section.layers ≠ s → ∀ rest : List (Section × List Nat),
      bytes_before s
        ((export_layers fo header misc m_layers 0 intro.image_data_offset).map
          (fun l => (Section.layers, anycubicsla_write_layer fo l)) ++ rest) =
        32 * m_layers.length + bytes_before s rest := by
    intro s hs rest
    rw [bytes_before_layer_records fo s hs, length_export_layers]
  unfold export_print_write
  refine ⟨?_, ?_, ?_, ?_, ?_, ?_, ?_⟩
  · simp [bytes_before]
  · simp [bytes_before]
  · intro h
    simp [bytes_before, h, length_write_preview]
    omega
  · by_cases h1 : intro.layer_color_offset = 0 <;>
      simp [bytes_before, h1, length_write_preview, length_write_layer_color] <;> omega
  · intro h2
    by_cases h1 : intro.layer_color_offset = 0 <;>
      simp [bytes_before, h1, h2, hrec, length_write_preview, length_write_layer_color,
        length_write_layers_header] <;> omega
  · intro h3
    by_cases h1 : intro.layer_color_offset = 0 <;>
    by_cases h2 : intro.extra_data_offset = 0 <;>
      simp [bytes_before, h1, h2, h3, hrec, length_write_preview, length_write_layer_color,
        length_write_layers_header, length_write_extra] <;> omega
  · by_cases h1 : intro.layer_color_offset = 0 <;>
    by_cases h2 : intro.extra_data_offset = 0 <;>
    by_cases h3 : intro.machine_data_offset = 0 <;>
    by_cases h4 : intro.software_data_offset = 0 <;>
    by_cases h5 : intro.model_data_offset = 0 <;>
      simp [bytes_before, h1, h2, h3, h4, h5, hrec, length_write_preview,
        length_write_layer_color, length_write_layers_header, length_write_extra,
        length_write_machine, length_write_software, length_write_model] <;> omega

theorem area_eq (v : FormatVersion) :
    export_print_area intro_zero v =
      { intro_zero with
        version := v.val
        area_num := match v with
          | .V1 => 4
          | .V515 => 5
          | .V516 => 8
          | .V517 => 9 } := by
  cases v <;> rfl

/-- The intro table written by a V1 export. -/
theorem body_intro_V1 {F : Type} (fo : FloatOps F) (m_layers : List EncodedRaster)
    (print : SLAPrint F) (thumbnails : List ThumbnailData) (dpi : Nat) :
    (export_print_body fo .V1 m_layers print thumbnails dpi).intro =
      { version := 1, area_num := 4, header_data_offset := 52, software_data_offset := 0,
        preview_data_offset := 160, layer_color_offset := 0, layer_data_offset := 75452,
        extra_data_offset := 0, machine_data_offset := 0,
        image_data_offset := (75472 + 32 * u32 m_layers.length) % 4294967296,
        model_data_offset := 0 } := by
  rw [export_print_body_intro, layout_V1, area_eq]
  rfl

/-- The intro table written by a V515 export. -/
theorem body_intro_V515 {F : Type} (fo : FloatOps F) (m_layers : List EncodedRaster)
    (print : SLAPrint F) (thumbnails : List ThumbnailData) (dpi : Nat) :
    (export_print_body fo .V515 m_layers print thumbnails dpi).intro =
      { version := 515, area_num := 5, header_data_offset := 52, software_data_offset := 0,
        preview_data_offset := 160, layer_color_offset := 75452, layer_data_offset := 75480,
        extra_data_offset := 0, machine_data_offset := 0,
        image_data_offset := (75500 + 32 * u32 m_layers.length) % 4294967296,
        model_data_offset := 0 } := by
  rw [export_print_body_intro, layout_V515, area_eq]
  rfl

/-- The intro table written by a V516 export. -/
theorem body_intro_V516 {F : Type} (fo : FloatOps F) (m_layers : List EncodedRaster)
    (print : SLAPrint F) (thumbnails : List ThumbnailData) (dpi : Nat) :
    (export_print_body fo .V516 m_layers print thumbnails dpi).intro =
      { version := 516, area_num := 8, header_data_offset := 52, software_data_offset := 0,
        preview_data_offset := 160, layer_color_offset := 75452, layer_data_offset := 75480,
        extra_data_offset := (75500 + 32 * u32 m_layers.length) % 4294967296,
        machine_data_offset := (75572 + 32 * u32 m_layers.length) % 4294967296,
        image_data_offset := (75728 + 32 * u32 m_layers.length) % 4294967296,
        model_data_offset := 0 } := by
  rw [export_print_body_intro, layout_V516, area_eq]
  rfl

/-- The intro table written by a V517 export. -/
theorem body_intro_V517 {F : Type} (fo : FloatOps F) (m_layers : List EncodedRaster)
    (print : SLAPrint F) (thumbnails : List ThumbnailData) (dpi : Nat) :
    (export_print_body fo .V517 m_layers print thumbnails dpi).intro =
      { version := 517, area_num := 9, header_data_offset := 56,
        software_data_offset := (75732 + 32 * u32 m_layers.length) % 4294967296,
        preview_data_offset := 164, layer_color_offset := 75456, layer_data_offset := 75484,
        extra_data_offset := (75504 + 32 * u32 m_layers.length) % 4294967296,
        machine_data_offset := (75576 + 32 * u32 m_layers.length) % 4294967296,
        image_data_offset := (75944 + 32 * u32 m_layers.length) % 4294967296,
        model_data_offset := (75896 + 32 * u32 m_layers.length) % 4294967296 } := by
  rw [export_print_body_intro, layout_V517, area_eq]
  rfl

/-- The writes of a run are the writes of the `try` block on the planned intro
table. -/
theorem export_print_body_written {F : Type} (fo : FloatOps F) (v : FormatVersion)
    (m_layers : List EncodedRaster) (print : SLAPrint F) (thumbnails : List ThumbnailData)
    (dpi : Nat) :
    (export_print_body fo v m_layers print thumbnails dpi).written =
      export_print_write fo v m_layers (u32 m_layers.length)
        (export_print_body fo v m_layers print thumbnails dpi).intro
        (print.fill_header v (u32 m_layers.length)).1
        (print.fill_header v (u32 m_layers.length)).2
        (export_preview v thumbnails)
        (if FormatVersion.V515.val ≤ v.val then fill_color color_zero else color_zero) dpi
        (if FormatVersion.V516.val ≤ v.val then print.fill_extra else extra_zero fo)
        (if FormatVersion.V516.val ≤ v.val then
          print.fill_machine (export_print_body fo v m_layers print thumbnails dpi).intro.version
         else machine_zero fo)
        (if FormatVersion.V517.val ≤ v.val then fill_software software_zero else software_zero)
        (if FormatVersion.V517.val ≤ v.val then fill_model (model_zero fo) else model_zero fo) :=
  rfl

theorem mod_ne_zero_of_V516 (n : Nat) :
    (75500 + 32 * n) % 4294967296 ≠ 0 ∧ (75572 + 32 * n) % 4294967296 ≠ 0 ∧
    (75728 + 32 * n) % 4294967296 ≠ 0 := by
  refine ⟨?_, ?_, ?_⟩ <;> omega

/-- Every run that passes the entry assertion (assertions compiled out, or a
version up to V516) executes the body of `export_print` and returns. -/
theorem export_print_ok {F : Type} (ndebug : Bool) (fo : FloatOps F) (v : FormatVersion)
    (m_layers : List EncodedRaster) (print : SLAPrint F) (thumbnails : List ThumbnailData)
    (dpi : Nat) (h : ndebug = true ∨ v.val ≤ FormatVersion.V516.val) :
    export_print ndebug fo v m_layers print thumbnails dpi =
      Except.ok (export_print_body fo v m_layers print thumbnails dpi) := by
  unfold export_print
  rw [if_neg]
  rintro ⟨h1, h2⟩
  rcases h with h | h
  · rw [h1] at h; exact Bool.noConfusion h
  · exact h2 h

/-- C6 (evaluation of the code). For every V1 export and every V516 export the
intro offsets differ from the number of bytes written before the section: in
V1 the header offset is 52 after a 48-byte intro, the preview offset is 160
after 144 bytes, the layers offset 75452 after 75436 bytes and the image data
offset `75472 + 32 n` (modulo 2^32) after `75456 + 32 n` bytes; in V516 only
the header offset (52) is right, the offsets of preview, colour table, layers,
extra, machine and image data are 160, 75452, 75480, `75500 + 32 n`,
`75572 + 32 n`, `75728 + 32 n` (modulo 2^32) after 152, 75444, 75476,
`75496 + 32 n`, `75568 + 32 n` and `75724 + 32 n` bytes. Both exports pass the
entry assertion and return. -/
theorem export_offsets_vs_written {F : Type} (fo : FloatOps F) (m_layers : List EncodedRaster)
    (print : SLAPrint F) (thumbnails : List ThumbnailData) (dpi : Nat) :
    ((export_print_body fo .V1 m_layers print thumbnails dpi).intro.header_data_offset = 52 ∧
      bytes_before Section.header
        (export_print_body fo .V1 m_layers print thumbnails dpi).written = 48 ∧
      (export_print_body fo .V1 m_layers print thumbnails dpi).intro.preview_data_offset = 160 ∧
      bytes_before Section.preview
        (export_print_body fo .V1 m_layers print thumbnails dpi).written = 144 ∧
      (export_print_body fo .V1 m_layers print thumbnails dpi).intro.layer_data_offset = 75452 ∧
      bytes_before Section.layers
        (export_print_body fo .V1 m_layers print thumbnails dpi).written = 75436 ∧
      (export_print_body fo .V1 m_layers print thumbnails dpi).intro.image_data_offset =
        (75472 + 32 * u32 m_layers.length) % 4294967296 ∧
      bytes_before Section.image_data
        (export_print_body fo .V1 m_layers print thumbnails dpi).written =
          75456 + 32 * m_layers.length) ∧
    ((export_print_body fo .V516 m_layers print thumbnails dpi).intro.header_data_offset = 52 ∧
      bytes_before Section.header
        (export_print_body fo .V516 m_layers print thumbnails dpi).written = 52 ∧
      (export_print_body fo .V516 m_layers print thumbnails dpi).intro.preview_data_offset = 160 ∧
      bytes_before Section.preview
        (export_print_body fo .V516 m_layers print thumbnails dpi).written = 152 ∧
      (export_print_body fo .V516 m_layers print thumbnails dpi).intro.layer_color_offset
        = 75452 ∧
      bytes_before Section.layer_color
        (export_print_body fo .V516 m_layers print thumbnails dpi).written = 75444 ∧
      (export_print_body fo .V516 m_layers print thumbnails dpi).intro.layer_data_offset
        = 75480 ∧
      bytes_before Section.layers
        (export_print_body fo .V516 m_layers print thumbnails dpi).written = 75476 ∧
      (export_print_body fo .V516 m_layers print thumbnails dpi).intro.extra_data_offset =
        (75500 + 32 * u32 m_layers.length) % 4294967296 ∧
      bytes_before Section.extra
        (export_print_body fo .V516 m_layers print thumbnails dpi).written =
          75496 + 32 * m_layers.length ∧
      (export_print_body fo .V516 m_layers print thumbnails dpi).intro.machine_data_offset =
        (75572 + 32 * u32 m_layers.length) % 4294967296 ∧
      bytes_before Section.machine
        (export_print_body fo .V516 m_layers print thumbnails dpi).written =
          75568 + 32 * m_layers.length ∧
      (export_print_body fo .V516 m_layers print thumbnails dpi).intro.image_data_offset =
        (75728 + 32 * u32 m_layers.length) % 4294967296 ∧
      bytes_before Section.image_data
        (export_print_body fo .V516 m_layers print thumbnails dpi).written =
          75724 + 32 * m_layers.length) ∧
    (∀ ndebug : Bool,
      export_print ndebug fo .V1 m_layers print thumbnails dpi =
        Except.ok (export_print_body fo .V1 m_layers print thumbnails dpi) ∧
      export_print ndebug fo .V516 m_layers print thumbnails dpi =
        Except.ok (export_print_body fo .V516 m_layers print thumbnails dpi)) := by
  refine ⟨?_, ?_, fun ndebug =>
    ⟨export_print_ok ndebug fo .V1 m_layers print thumbnails dpi (Or.inr (by decide)),
      export_print_ok ndebug fo .V516 m_layers print thumbnails dpi (Or.inr (by decide))⟩⟩
  · have hb := bytes_before_write fo .V1 m_layers (u32 m_layers.length)
      (export_print_body fo .V1 m_layers print thumbnails dpi).intro
      (print.fill_header .V1 (u32 m_layers.length)).1
      (print.fill_header .V1 (u32 m_layers.length)).2
      (export_preview .V1 thumbnails)
      (if FormatVersion.V515.val ≤ FormatVersion.V1.val then fill_color color_zero
        else color_zero) dpi
      (if FormatVersion.V516.val ≤ FormatVersion.V1.val then print.fill_extra
        else extra_zero fo)
      (if FormatVersion.V516.val ≤ FormatVersion.V1.val then
          print.fill_machine
            (export_print_body fo .V1 m_layers print thumbnails dpi).intro.version
        else machine_zero fo)
      (if FormatVersion.V517.val ≤ FormatVersion.V1.val then fill_software software_zero
        else software_zero)
      (if FormatVersion.V517.val ≤ FormatVersion.V1.val then fill_model (model_zero fo)
        else model_zero fo)
    rw [← export_print_body_written] at hb
    simp only [length_write_intro, length_write_header] at hb
    rw [body_intro_V1] at hb ⊢
    simp only [val_V1, val_V515, val_V516, val_V517] at hb
    obtain ⟨h1, h2, _, h4, _, _, h7⟩ := hb
    refine ⟨rfl, ?_, rfl, ?_, rfl, ?_, rfl, ?_⟩
    · rw [h1]; rfl
    · rw [h2]; rfl
    · rw [h4]; rfl
    · rw [h7]; simp
  · have hb := bytes_before_write fo .V516 m_layers (u32 m_layers.length)
      (export_print_body fo .V516 m_layers print thumbnails dpi).intro
      (print.fill_header .V516 (u32 m_layers.length)).1
      (print.fill_header .V516 (u32 m_layers.length)).2
      (export_preview .V516 thumbnails)
      (if FormatVersion.V515.val ≤ FormatVersion.V516.val then fill_color color_zero
        else color_zero) dpi
      (if FormatVersion.V516.val ≤ FormatVersion.V516.val then print.fill_extra
        else extra_zero fo)
      (if FormatVersion.V516.val ≤ FormatVersion.V516.val then
          print.fill_machine
            (export_print_body fo .V516 m_layers print thumbnails dpi).intro.version
        else machine_zero fo)
      (if FormatVersion.V517.val ≤ FormatVersion.V516.val then fill_software software_zero
        else software_zero)
      (if FormatVersion.V517.val ≤ FormatVersion.V516.val then fill_model (model_zero fo)
        else model_zero fo)
    rw [← export_print_body_written] at hb
    simp only [length_write_intro, length_write_header] at hb
    rw [body_intro_V516] at hb ⊢
    obtain ⟨hz1, hz2, hz3⟩ := mod_ne_zero_of_V516 (u32 m_layers.length)
    simp only [val_V1, val_V515, val_V516, val_V517] at hb
    obtain ⟨h1, h2, h3, h4, h5, h6, h7⟩ := hb
    have hcol : (fill_color color_zero).grey_max_count = 16 := rfl
    refine ⟨rfl, ?_, rfl, ?_, rfl, ?_, rfl, ?_, rfl, ?_, rfl, ?_, rfl, ?_⟩
    · rw [h1]; rfl
    · rw [h2]; rfl
    · rw [h3 (by decide)]; rfl
    · rw [h4]; simp [hcol]
    · rw [h5 hz1]; simp [hcol]
    · rw [h6 hz2]; simp [hcol, hz1]; omega
    · rw [h7]; simp [hcol, hz1, hz2]; omega

theorem u32_small (x : Nat) (h : x < 2 ^ 32) : u32 x = x := Nat.mod_eq_of_lt h

/-- C7. For every format version and every layer count for which no 32-bit
offset wraps (the end of the planned sections, computed without truncation,
is below 2^32), the non-zero entries of the intro table are strictly
increasing in the section order header, preview, layer colour, layers, extra,
machine, software, model, image data; the image data offset then is that
planned end. The table is the one of every run of `export_print` that passes
the entry assertion. -/
theorem intro_offsets_increasing {F : Type} (fo : FloatOps F) (v : FormatVersion)
    (m_layers : List EncodedRaster) (print : SLAPrint F) (thumbnails : List ThumbnailData)
    (dpi : Nat) (hnowrap : layout_end_exact v m_layers.length < 2 ^ 32) :
    List.Pairwise (fun a b => a < b)
      ((intro_offsets_in_order
          (export_print_body fo v m_layers print thumbnails dpi).intro).filter
        (fun o => decide (o ≠ 0))) ∧
    (export_print_body fo v m_layers print thumbnails dpi).intro.image_data_offset =
      layout_end_exact v m_layers.length ∧
    (∀ ndebug : Bool, ndebug = true ∨ v.val ≤ FormatVersion.V516.val →
      export_print ndebug fo v m_layers print thumbnails dpi =
        Except.ok (export_print_body fo v m_layers print thumbnails dpi)) := by
  rw [← and_assoc]
  refine ⟨?_, fun ndebug h => export_print_ok ndebug fo v m_layers print thumbnails dpi h⟩
  cases v
  · rw [body_intro_V1]
    simp only [layout_end_exact, val_V1, val_V515, val_V516, val_V517, sizeof_intro,
      sizeof_header, sizeof_preview, sizeof_color, sizeof_layers_header, sizeof_layer,
      sizeof_extra, sizeof_machine, sizeof_software, sizeof_model, PREV_W, PREV_H] at hnowrap ⊢
    simp only [Nat.reduceLeDiff, if_true, if_false, Nat.reducePow, Nat.reduceMul,
      Nat.reduceAdd, Nat.reduceSub] at hnowrap ⊢
    have hn : u32 m_layers.length = m_layers.length := u32_small _ (by omega)
    have hi0 : (75472 + 32 * m_layers.length) % 4294967296 = 75472 + 32 * m_layers.length :=
      Nat.mod_eq_of_lt (by omega)
    rw [hn, hi0]
    refine ⟨?_, by omega⟩
    simp [intro_offsets_in_order, List.filter]
    omega
  · rw [body_intro_V515]
    simp only [layout_end_exact, val_V1, val_V515, val_V516, val_V517, sizeof_intro,
      sizeof_header, sizeof_preview, sizeof_color, sizeof_layers_header, sizeof_layer,
      sizeof_extra, sizeof_machine, sizeof_software, sizeof_model, PREV_W, PREV_H] at hnowrap ⊢
    simp only [Nat.reduceLeDiff, if_true, if_false, Nat.reducePow, Nat.reduceMul,
      Nat.reduceAdd, Nat.reduceSub] at hnowrap ⊢
    have hn : u32 m_layers.length = m_layers.length := u32_small _ (by omega)
    have hi0 : (75500 + 32 * m_layers.length) % 4294967296 = 75500 + 32 * m_layers.length :=
      Nat.mod_eq_of_lt (by omega)
    rw [hn, hi0]
    refine ⟨?_, by omega⟩
    simp [intro_offsets_in_order, List.filter]
    omega
  · rw [body_intro_V516]
    simp only [layout_end_exact, val_V1, val_V515, val_V516, val_V517, sizeof_intro,
      sizeof_header, sizeof_preview, sizeof_color, sizeof_layers_header, sizeof_layer,
      sizeof_extra, sizeof_machine, sizeof_software, sizeof_model, PREV_W, PREV_H] at hnowrap ⊢
    simp only [Nat.reduceLeDiff, if_true, if_false, Nat.reducePow, Nat.reduceMul,
      Nat.reduceAdd, Nat.reduceSub] at hnowrap ⊢
    have hn : u32 m_layers.length = m_layers.length := u32_small _ (by omega)
    have hi0 : (75500 + 32 * m_layers.length) % 4294967296 = 75500 + 32 * m_layers.length :=
      Nat.mod_eq_of_lt (by omega)
    have hi1 : (75572 + 32 * m_layers.length) % 4294967296 = 75572 + 32 * m_layers.length :=
      Nat.mod_eq_of_lt (by omega)
    have hi2 : (75728 + 32 * m_layers.length) % 4294967296 = 75728 + 32 * m_layers.length :=
      Nat.mod_eq_of_lt (by omega)
    rw [hn, hi0, hi1, hi2]
    refine ⟨?_, by omega⟩
    simp [intro_offsets_in_order, List.filter]
    omega
  · rw [body_intro_V517]
    simp only [layout_end_exact, val_V1, val_V515, val_V516, val_V517, sizeof_intro,
      sizeof_header, sizeof_preview, sizeof_color, sizeof_layers_header, sizeof_layer,
      sizeof_extra, sizeof_machine, sizeof_software, sizeof_model, PREV_W, PREV_H] at hnowrap ⊢
    simp only [Nat.reduceLeDiff, if_true, if_false, Nat.reducePow, Nat.reduceMul,
      Nat.reduceAdd, Nat.reduceSub] at hnowrap ⊢
    have hn : u32 m_layers.length = m_layers.length := u32_small _ (by omega)
    have hi0 : (75504 + 32 * m_layers.length) % 4294967296 = 75504 + 32 * m_layers.length :=
      Nat.mod_eq_of_lt (by omega)
    have hi1 : (75576 + 32 * m_layers.length) % 4294967296 = 75576 + 32 * m_layers.length :=
      Nat.mod_eq_of_lt (by omega)
    have hi2 : (75732 + 32 * m_layers.length) % 4294967296 = 75732 + 32 * m_layers.length :=
      Nat.mod_eq_of_lt (by omega)
    have hi3 : (75896 + 32 * m_layers.length) % 4294967296 = 75896 + 32 * m_layers.length :=
      Nat.mod_eq_of_lt (by omega)
    have hi4 : (75944 + 32 * m_layers.length) % 4294967296 = 75944 + 32 * m_layers.length :=
      Nat.mod_eq_of_lt (by omega)
    rw [hn, hi0, hi1, hi2, hi3, hi4]
    refine ⟨?_, by omega⟩
    simp [intro_offsets_in_order, List.filter]
    omega


/-- Witness of C7: a V516 export of two layers. -/
theorem intro_offsets_increasing_witness :
    layout_end_exact .V516 [EncodedRaster.mk [0xF0, 0x04] "pwimg",
      EncodedRaster.mk [0x00, 0x04] "pwimg"].length < 2 ^ 32 ∧
    List.Pairwise (fun a b => a < b)
      ((intro_offsets_in_order
          (export_print_body sample_float_ops .V516
            [EncodedRaster.mk [0xF0, 0x04] "pwimg", EncodedRaster.mk [0x00, 0x04] "pwimg"]
            sample_print [] 0).intro).filter
        (fun o => decide (o ≠ 0))) :=
  ⟨by decide,
    (intro_offsets_increasing sample_float_ops .V516
      [EncodedRaster.mk [0xF0, 0x04] "pwimg", EncodedRaster.mk [0x00, 0x04] "pwimg"]
      sample_print [] 0 (by decide)).1⟩

/-- Counterexample to C8 as stated: with assertions enabled, a V517 export is
stopped by `assert(m_version <= ANYCUBIC_SLA_FORMAT_VERSION_516)`. -/
theorem v517_export_rejected :
    export_print false sample_float_ops .V517 [] sample_print [] 0 =
      Except.error ExportError.assertion_failed := rfl

theorem mod_ne_zero_of_V517 (n : Nat) :
    (75504 + 32 * n) % 4294967296 ≠ 0 ∧ (75576 + 32 * n) % 4294967296 ≠ 0 ∧
    (75732 + 32 * n) % 4294967296 ≠ 0 ∧ (75896 + 32 * n) % 4294967296 ≠ 0 ∧
    (75944 + 32 * n) % 4294967296 ≠ 0 := by
  refine ⟨?_, ?_, ?_, ?_, ?_⟩ <;> omega

/-- C8 (amended). A V517 export is stopped by the entry assertion
`m_version <= V516` when assertions are enabled; when they are compiled out
(`NDEBUG`) the export runs to completion and its intro table has all nine
offsets (header, software, preview, layer colour, layers, extra, machine,
model, image data) non-zero, for every layer count. -/
theorem export_V517_gated {F : Type} (fo : FloatOps F) (m_layers : List EncodedRaster)
    (print : SLAPrint F) (thumbnails : List ThumbnailData) (dpi : Nat) :
    export_print false fo .V517 m_layers print thumbnails dpi =
      Except.error ExportError.assertion_failed ∧
    export_print true fo .V517 m_layers print thumbnails dpi =
      Except.ok (export_print_body fo .V517 m_layers print thumbnails dpi) ∧
    (export_print_body fo .V517 m_layers print thumbnails dpi).intro.header_data_offset ≠ 0 ∧
    (export_print_body fo .V517 m_layers print thumbnails dpi).intro.software_data_offset ≠ 0 ∧
    (export_print_body fo .V517 m_layers print thumbnails dpi).intro.preview_data_offset ≠ 0 ∧
    (export_print_body fo .V517 m_layers print thumbnails dpi).intro.layer_color_offset ≠ 0 ∧
    (export_print_body fo .V517 m_layers print thumbnails dpi).intro.layer_data_offset ≠ 0 ∧
    (export_print_body fo .V517 m_layers print thumbnails dpi).intro.extra_data_offset ≠ 0 ∧
    (export_print_body fo .V517 m_layers print thumbnails dpi).intro.machine_data_offset ≠ 0 ∧
    (export_print_body fo .V517 m_layers print thumbnails dpi).intro.model_data_offset ≠ 0 ∧
    (export_print_body fo .V517 m_layers print thumbnails dpi).intro.image_data_offset ≠ 0 := by
  obtain ⟨h1, h2, h3, h4, h5⟩ := mod_ne_zero_of_V517 (u32 m_layers.length)
  rw [body_intro_V517]
  exact ⟨rfl, rfl, by simp, h3, by simp, by simp, by simp, h1, h2, h4, h5⟩

/-- The `try` block writes an optional section exactly when its entry in the
intro table is not zero. -/
theorem optional_section_written {F : Type} (fo : FloatOps F) (v : FormatVersion)
    (m_layers : List EncodedRaster) (layer_count : Nat) (intro : anycubicsla_format_intro)
    (header : anycubicsla_format_header F) (misc : anycubicsla_format_misc F)
    (preview : anycubicsla_format_preview) (color : anycubicsla_format_layers_color)
    (dpi : Nat) (extra : anycubicsla_format_extra F) (machine : anycubicsla_format_machine F)
    (software : anycubicsla_format_software) (model : anycubicsla_format_model F) :
    (Section.layer_color ∈
        (export_print_write fo v m_layers layer_count intro header misc preview color dpi
          extra machine software model).map Prod.fst ↔ intro.layer_color_offset ≠ 0) ∧
    (Section.extra ∈
        (export_print_write fo v m_layers layer_count intro header misc preview color dpi
          extra machine software model).map Prod.fst ↔ intro.extra_data_offset ≠ 0) ∧
    (Section.machine ∈
        (export_print_write fo v m_layers layer_count intro header misc preview color dpi
          extra machine software model).map Prod.fst ↔ intro.machine_data_offset ≠ 0) ∧
    (Section.software ∈
        (export_print_write fo v m_layers layer_count intro header misc preview color dpi
          extra machine software model).map Prod.fst ↔ intro.software_data_offset ≠ 0) ∧
    (Section.model ∈
        (export_print_write fo v m_layers layer_count intro header misc preview color dpi
          extra machine software model).map Prod.fst ↔ intro.model_data_offset ≠ 0) := by
  unfold export_print_write
  refine ⟨?_, ?_, ?_, ?_, ?_⟩ <;>
    by_cases h1 : intro.layer_color_offset = 0 <;>
    by_cases h2 : intro.extra_data_offset = 0 <;>
    by_cases h3 : intro.machine_data_offset = 0 <;>
    by_cases h4 : intro.software_data_offset = 0 <;>
    by_cases h5 : intro.model_data_offset = 0 <;>
    simp [h1, h2, h3, h4, h5]

/-- C9. For every format version the intro entry of an optional section is
non-zero exactly when the version meets the threshold of the section (layer
colour from V515, extra and machine from V516, software and model from V517),
and the section is written exactly when its intro entry is non-zero; for V1
the extra, machine, software and model offsets are zero and none of these
sections is written. The table and the writes are those of every run of
`export_print` that passes the entry assertion. -/
theorem optional_sections_gated {F : Type} (fo : FloatOps F) (v : FormatVersion)
    (m_layers : List EncodedRaster) (print : SLAPrint F) (thumbnails : List ThumbnailData)
    (dpi : Nat) :
    (((export_print_body fo v m_layers print thumbnails dpi).intro.layer_color_offset ≠ 0 ↔
        FormatVersion.V515.val ≤ v.val) ∧
      ((export_print_body fo v m_layers print thumbnails dpi).intro.extra_data_offset ≠ 0 ↔
        FormatVersion.V516.val ≤ v.val) ∧
      ((export_print_body fo v m_layers print thumbnails dpi).intro.machine_data_offset ≠ 0 ↔
        FormatVersion.V516.val ≤ v.val) ∧
      ((export_print_body fo v m_layers print thumbnails dpi).intro.software_data_offset ≠ 0 ↔
        FormatVersion.V517.val ≤ v.val) ∧
      ((export_print_body fo v m_layers print thumbnails dpi).intro.model_data_offset ≠ 0 ↔
        FormatVersion.V517.val ≤ v.val)) ∧
    ((Section.layer_color ∈
        (export_print_body fo v m_layers print thumbnails dpi).written.map Prod.fst ↔
        (export_print_body fo v m_layers print thumbnails dpi).intro.layer_color_offset ≠ 0) ∧
      (Section.extra ∈
        (export_print_body fo v m_layers print thumbnails dpi).written.map Prod.fst ↔
        (export_print_body fo v m_layers print thumbnails dpi).intro.extra_data_offset ≠ 0) ∧
      (Section.machine ∈
        (export_print_body fo v m_layers print thumbnails dpi).written.map Prod.fst ↔
        (export_print_body fo v m_layers print thumbnails dpi).intro.machine_data_offset ≠ 0) ∧
      (Section.software ∈
        (export_print_body fo v m_layers print thumbnails dpi).written.map Prod.fst ↔
        (export_print_body fo v m_layers print thumbnails dpi).intro.software_data_offset ≠ 0) ∧
      (Section.model ∈
        (export_print_body fo v m_layers print thumbnails dpi).written.map Prod.fst ↔
        (export_print_body fo v m_layers print thumbnails dpi).intro.model_data_offset ≠ 0)) ∧
    ((export_print_body fo .V1 m_layers print thumbnails dpi).intro.extra_data_offset = 0 ∧
      (export_print_body fo .V1 m_layers print thumbnails dpi).intro.machine_data_offset = 0 ∧
      (export_print_body fo .V1 m_layers print thumbnails dpi).intro.software_data_offset = 0 ∧
      (export_print_body fo .V1 m_layers print thumbnails dpi).intro.model_data_offset = 0 ∧
      (export_print_body fo .V1 m_layers print thumbnails dpi).written.map Prod.fst =
        [Section.intro, Section.header, Section.preview, Section.layers]
          ++ List.replicate m_layers.length Section.layers ++ [Section.image_data]) ∧
    (∀ ndebug : Bool, ndebug = true ∨ v.val ≤ FormatVersion.V516.val →
      export_print ndebug fo v m_layers print thumbnails dpi =
        Except.ok (export_print_body fo v m_layers print thumbnails dpi)) := by
  refine ⟨?_, ?_, ?_,
    fun ndebug h => export_print_ok ndebug fo v m_layers print thumbnails dpi h⟩
  · obtain ⟨a1, a2, a3⟩ := mod_ne_zero_of_V516 (u32 m_layers.length)
    obtain ⟨b1, b2, b3, b4, b5⟩ := mod_ne_zero_of_V517 (u32 m_layers.length)
    cases v
    · rw [body_intro_V1]; simp [val_V1, val_V515, val_V516, val_V517]
    · rw [body_intro_V515]; simp [val_V1, val_V515, val_V516, val_V517]
    · rw [body_intro_V516]; simp only [val_V1, val_V515, val_V516, val_V517]
      exact ⟨by simp, by simp [a1], by simp [a2], by simp, by simp⟩
    · rw [body_intro_V517]; simp only [val_V1, val_V515, val_V516, val_V517]
      exact ⟨by simp, by simp [b1], by simp [b2], by simp [b3], by simp [b4]⟩
  · rw [export_print_body_written]
    exact optional_section_written _ _ _ _ _ _ _ _ _ _ _ _ _ _
  · refine ⟨?_, ?_, ?_, ?_, ?_⟩
    · rw [body_intro_V1]
    · rw [body_intro_V1]
    · rw [body_intro_V1]
    · rw [body_intro_V1]
    · rw [export_print_body_written, body_intro_V1]
      simp [export_print_write, length_export_layers, Function.comp_def]

/-- C10. The `area_num` of the intro written by `export_print` is 4 for V1, 5
for V515, 8 for V516 and 9 for V517; the first write of a run is this intro;
and `area_num` does not influence any computed offset: planning the layout
from an intro table with another `area_num` changes nothing but `area_num`.
The table is the one of every run of `export_print` that passes the entry
assertion. -/
theorem area_num_table {F : Type} (fo : FloatOps F) (v : FormatVersion)
    (m_layers : List EncodedRaster) (print : SLAPrint F) (thumbnails : List ThumbnailData)
    (dpi : Nat) :
    (export_print_body fo v m_layers print thumbnails dpi).intro.area_num =
      (match v with
        | .V1 => 4
        | .V515 => 5
        | .V516 => 8
        | .V517 => 9) ∧
    (export_print_body fo v m_layers print thumbnails dpi).written.head? =
      some (Section.intro,
        anycubicsla_write_intro (export_print_body fo v m_layers print thumbnails dpi).intro v) ∧
    (∀ (i : anycubicsla_format_intro) (a n : Nat),
      export_print_layout { i with area_num := a } v n =
        { export_print_layout i v n with area_num := a }) ∧
    (∀ ndebug : Bool, ndebug = true ∨ v.val ≤ FormatVersion.V516.val →
      export_print ndebug fo v m_layers print thumbnails dpi =
        Except.ok (export_print_body fo v m_layers print thumbnails dpi)) := by
  refine ⟨?_, rfl, fun i a n => rfl,
    fun ndebug h => export_print_ok ndebug fo v m_layers print thumbnails dpi h⟩
  cases v
  · rw [body_intro_V1]
  · rw [body_intro_V515]
  · rw [body_intro_V516]
  · rw [body_intro_V517]

/-! ## Properties of the integer writers -/

theorem and_255_eq_mod (x : Nat) : x &&& 0xFF = x % 256 :=
  Nat.and_pow_two_sub_one_eq_mod x 8

/-- The four bytes of `anycubicsla_write_int32` in arithmetic form. -/
theorem write_int32_eq (v : Nat) :
    anycubicsla_write_int32 v =
      [v % 256, v / 256 % 256, v / 65536 % 256, v / 16777216 % 256] := by
  simp only [anycubicsla_write_int32, and_255_eq_mod, Nat.shiftRight_eq_div_pow, Nat.reducePow]

/-- The two bytes of `anycubicsla_write_int16` in arithmetic form. -/
theorem write_int16_eq (v : Nat) :
    anycubicsla_write_int16 v = [v % 256, v / 256 % 256] := by
  simp only [anycubicsla_write_int16, and_255_eq_mod, Nat.shiftRight_eq_div_pow, Nat.reducePow]

/-- C20. For every 32-bit value `v`, `anycubicsla_write_int32` appends exactly
four bytes `b0 b1 b2 b3` with `v = b0 + 256*b1 + 65536*b2 + 16777216*b3`, and
`anycubicsla_write_int16` appends exactly the two bytes `v & 0xFF`,
`(v >> 8) & 0xFF`, which give `v` back exactly when `v < 65536`. -/
theorem write_int_little_endian (v : Nat) (hv : v < 2 ^ 32) :
    (∃ b0 b1 b2 b3, anycubicsla_write_int32 v = [b0, b1, b2, b3] ∧
      b0 < 256 ∧ b1 < 256 ∧ b2 < 256 ∧ b3 < 256 ∧
      v = b0 + 256 * b1 + 65536 * b2 + 16777216 * b3) ∧
    anycubicsla_write_int16 v = [v &&& 0xFF, (v >>> 8) &&& 0xFF] ∧
    ((v &&& 0xFF) + 256 * ((v >>> 8) &&& 0xFF) = v ↔ v < 65536) := by
  refine ⟨⟨v % 256, v / 256 % 256, v / 65536 % 256, v / 16777216 % 256, write_int32_eq v,
    ?_, ?_, ?_, ?_, ?_⟩, rfl, ?_⟩
  · omega
  · omega
  · omega
  · omega
  · simp only [Nat.reducePow] at hv; omega
  · simp only [and_255_eq_mod, Nat.shiftRight_eq_div_pow, Nat.reducePow]
    omega

/-- Witness of C20: the value 0x12345678, which does not fit 16 bits. -/
theorem write_int_little_endian_witness :
    0x12345678 < 2 ^ 32 ∧
    ((∃ b0 b1 b2 b3, anycubicsla_write_int32 0x12345678 = [b0, b1, b2, b3] ∧
        b0 < 256 ∧ b1 < 256 ∧ b2 < 256 ∧ b3 < 256 ∧
        0x12345678 = b0 + 256 * b1 + 65536 * b2 + 16777216 * b3) ∧
      anycubicsla_write_int16 0x12345678 =
        [0x12345678 &&& 0xFF, (0x12345678 >>> 8) &&& 0xFF] ∧
      ((0x12345678 &&& 0xFF) + 256 * ((0x12345678 >>> 8) &&& 0xFF) = 0x12345678 ↔
        0x12345678 < 65536)) :=
  ⟨by decide, write_int_little_endian 0x12345678 (by decide)⟩

/-! ## Properties of the parameter resolver -/

/-- `crop_value` brings a rational into `[val_min, val_max]`. -/
theorem crop_value_bounds (val val_min val_max : ℚ) (h : val_min ≤ val_max) :
    val_min ≤ crop_value val val_min val_max ∧ crop_value val val_min val_max ≤ val_max := by
  unfold crop_value
  by_cases h1 : val < val_min
  · rw [if_pos h1]; exact ⟨le_refl _, h⟩
  · rw [if_neg h1]
    by_cases h2 : val > val_max
    · rw [if_pos h2]; exact ⟨h, le_refl _⟩
    · rw [if_neg h2]; exact ⟨not_lt.mp h1, not_lt.mp h2⟩

/-- `crop_value` leaves a value of the interval unchanged. -/
theorem crop_value_of_mem (val val_min val_max : ℚ) (h1 : val_min ≤ val) (h2 : val ≤ val_max) :
    crop_value val val_min val_max = val := by
  unfold crop_value
  rw [if_neg (not_lt.mpr h1), if_neg (not_lt.mpr h2)]

/-- The members of the header as `fill_header` leaves them. -/
theorem fill_header_fields (fa : FloatArith) (h : anycubicsla_format_header ℚ)
    (m : anycubicsla_format_misc ℚ) (print : PrintJob) (v : FormatVersion) (n : Nat) :
    (fill_header fa h m print v n).1.payload_size = fill_header_payload_size v ∧
    (fill_header fa h m print v n).1.delay_before_exposure_s =
      crop_value
        (get_cfg_value_f print.material_notes_config CFG_DELAY_BEFORE_EXPOSURE (1 / 2)) 0 1000 ∧
    (fill_header fa h m print v n).1.lift_distance_mm =
      (if print.material_notes_config.has CFG_BOTTOM_LIFT_DISTANCE then
        crop_value
          (crop_value (get_cfg_value_f print.material_notes_config CFG_LIFT_DISTANCE 8) 0 100)
          0 100
       else crop_value (get_cfg_value_f print.material_notes_config CFG_LIFT_DISTANCE 8) 0 100) ∧
    (fill_header fa h m print v n).1.lift_speed_mms =
      crop_value (get_cfg_value_f print.material_notes_config CFG_LIFT_SPEED 2) (1 / 10) 20 ∧
    (fill_header fa h m print v n).1.retract_speed_mms =
      get_cfg_value_f print.material_notes_config CFG_RETRACT_SPEED 3 ∧
    (fill_header fa h m print v n).1.bottom_layer_count =
      (if uint_to_float n < int_to_float (get_cfg_value_i print.full_print_config "faded_layers" 0)
       then uint_to_float n
       else int_to_float (get_cfg_value_i print.full_print_config "faded_layers" 0)) ∧
    (fill_header fa h m print v n).2.bottom_lift_distance_mm =
      (if print.material_notes_config.has CFG_BOTTOM_LIFT_DISTANCE then
        get_cfg_value_f print.material_notes_config CFG_BOTTOM_LIFT_DISTANCE 8
       else crop_value (get_cfg_value_f print.material_notes_config CFG_LIFT_DISTANCE 8) 0 100) ∧
    (fill_header fa h m print v n).2.bottom_lift_speed_mms =
      (if print.material_notes_config.has CFG_BOTTOM_LIFT_SPEED then
        crop_value (get_cfg_value_f print.material_notes_config CFG_BOTTOM_LIFT_SPEED 2)
          (1 / 10) 20
       else get_cfg_value_f print.material_notes_config CFG_LIFT_SPEED 2) :=
  ⟨rfl, rfl, rfl, rfl, rfl, rfl, rfl, rfl⟩

theorem payload_size_values :
    fill_header_payload_size .V1 = 80 ∧ fill_header_payload_size .V515 = 80 ∧
    fill_header_payload_size .V516 = 84 ∧ fill_header_payload_size .V517 = 92 := by
  decide

/-- C11 (amended). For every format version `export_print` accepts (V1, V515 and
V516) and every header record, the `payload_size` set by `fill_header` is the
number of bytes `anycubicsla_write_header` emits for that version after the
12-byte tag and the 4-byte size field: 80 for V1 and V515, 84 for V516. -/
theorem header_payload_size_written (fo : FloatOps ℚ) (fa : FloatArith)
    (h : anycubicsla_format_header ℚ) (m : anycubicsla_format_misc ℚ) (print : PrintJob)
    (n : Nat) (v : FormatVersion) (hv : v.val ≤ FormatVersion.V516.val) :
    ((anycubicsla_write_header fo (fill_header fa h m print v n).1 v).drop (12 + 4)).length =
      (fill_header fa h m print v n).1.payload_size ∧
    (fill_header fa h m print v n).1.payload_size =
      (match v with
        | .V1 => 80
        | .V515 => 80
        | .V516 => 84
        | .V517 => 92) := by
  obtain ⟨p1, p515, p516, _⟩ := payload_size_values
  rw [List.length_drop, length_write_header, (fill_header_fields fa h m print v n).1]
  cases v
  · rw [p1]; exact ⟨rfl, rfl⟩
  · rw [p515]; exact ⟨rfl, rfl⟩
  · rw [p516]; exact ⟨rfl, rfl⟩
  · exact absurd hv (by decide)

/-- Witness of C11 (amended): the header of a ten-layer print at V516. -/
theorem header_payload_size_written_witness :
    FormatVersion.V516.val ≤ FormatVersion.V516.val ∧
    ((anycubicsla_write_header (rat_float_ops (fun _ => 0))
        (fill_header binary32_arith (header_zero (rat_float_ops (fun _ => 0)))
          (misc_zero (rat_float_ops (fun _ => 0))) job_delay .V516 10).1 .V516).drop
        (12 + 4)).length =
      (fill_header binary32_arith (header_zero (rat_float_ops (fun _ => 0)))
        (misc_zero (rat_float_ops (fun _ => 0))) job_delay .V516 10).1.payload_size :=
  ⟨by decide,
    (header_payload_size_written (rat_float_ops (fun _ => 0)) binary32_arith
      (header_zero (rat_float_ops (fun _ => 0))) (misc_zero (rat_float_ops (fun _ => 0)))
      job_delay 10 .V516 (by decide)).1⟩

/-- C11 (counterexample). At V517, the version the entry assertion of
`export_print` excludes, `fill_header` sets `payload_size` to 92 while
`anycubicsla_write_header` emits 90 bytes after the tag and the size field. -/
theorem header_payload_size_V517_mismatch :
    (fill_header binary32_arith (header_zero (rat_float_ops (fun _ => 0)))
      (misc_zero (rat_float_ops (fun _ => 0))) job_delay .V517 10).1.payload_size = 92 ∧
    ((anycubicsla_write_header (rat_float_ops (fun _ => 0))
        (fill_header binary32_arith (header_zero (rat_float_ops (fun _ => 0)))
          (misc_zero (rat_float_ops (fun _ => 0))) job_delay .V517 10).1 .V517).drop
        (12 + 4)).length = 90 ∧
    ((anycubicsla_write_header (rat_float_ops (fun _ => 0))
        (fill_header binary32_arith (header_zero (rat_float_ops (fun _ => 0)))
          (misc_zero (rat_float_ops (fun _ => 0))) job_delay .V517 10).1 .V517).drop
        (12 + 4)).length ≠
      (fill_header binary32_arith (header_zero (rat_float_ops (fun _ => 0)))
        (misc_zero (rat_float_ops (fun _ => 0))) job_delay .V517 10).1.payload_size := by
  have hp : (fill_header binary32_arith (header_zero (rat_float_ops (fun _ => 0)))
      (misc_zero (rat_float_ops (fun _ => 0))) job_delay .V517 10).1.payload_size = 92 := by
    rw [(fill_header_fields _ _ _ _ _ _).1, payload_size_values.2.2.2]
  have hw : ((anycubicsla_write_header (rat_float_ops (fun _ => 0))
        (fill_header binary32_arith (header_zero (rat_float_ops (fun _ => 0)))
          (misc_zero (rat_float_ops (fun _ => 0))) job_delay .V517 10).1 .V517).drop
        (12 + 4)).length = 90 := by
    rw [List.length_drop, length_write_header]; rfl
  refine ⟨hp, hw, ?_⟩
  rw [hp, hw]
  decide

/-- C12. Whatever the material notes hold, the header produced by `fill_header`
has `lift_distance_mm` within [0, 100], `lift_speed_mms` within [0.1, 20] and
`delay_before_exposure_s` within [0, 1000]. -/
theorem header_clamped (fa : FloatArith) (h : anycubicsla_format_header ℚ)
    (m : anycubicsla_format_misc ℚ) (print : PrintJob) (v : FormatVersion) (n : Nat) :
    (0 ≤ (fill_header fa h m print v n).1.lift_distance_mm ∧
      (fill_header fa h m print v n).1.lift_distance_mm ≤ 100) ∧
    (1 / 10 ≤ (fill_header fa h m print v n).1.lift_speed_mms ∧
      (fill_header fa h m print v n).1.lift_speed_mms ≤ 20) ∧
    (0 ≤ (fill_header fa h m print v n).1.delay_before_exposure_s ∧
      (fill_header fa h m print v n).1.delay_before_exposure_s ≤ 1000) := by
  obtain ⟨_, hd, hl, hs, _⟩ := fill_header_fields fa h m print v n
  rw [hd, hl, hs]
  refine ⟨?_, crop_value_bounds _ _ _ (by norm_num), crop_value_bounds _ _ _ (by norm_num)⟩
  split
  · exact crop_value_bounds _ _ _ (by norm_num)
  · exact crop_value_bounds _ _ _ (by norm_num)

theorem get_retract_zero :
    get_cfg_value_f job_retract_zero.material_notes_config CFG_RETRACT_SPEED 3 = 0 := by
  simp [get_cfg_value_f, job_retract_zero]

/-- C13 (evaluation of the code). `fill_header` stores the `RETRACT_SPEED` of
the material notes in `retract_speed_mms` as it is (3 when absent): the
`crop_value` that follows the assignment is applied to `lift_speed_mms`. With
`RETRACT_SPEED = 0` the header holds the retract speed 0, outside [0.1, 20],
and the print-time estimate divides by it. -/
theorem retract_speed_not_clamped (fa : FloatArith) (h : anycubicsla_format_header ℚ)
    (m : anycubicsla_format_misc ℚ) (print : PrintJob) (v : FormatVersion) (n : Nat) :
    (fill_header fa h m print v n).1.retract_speed_mms =
      get_cfg_value_f print.material_notes_config CFG_RETRACT_SPEED 3 ∧
    (fill_header fa h m job_retract_zero v n).1.retract_speed_mms = 0 ∧
    ¬ (1 / 10 ≤ (fill_header fa h m job_retract_zero v n).1.retract_speed_mms) := by
  have h0 : (fill_header fa h m job_retract_zero v n).1.retract_speed_mms = 0 := by
    rw [(fill_header_fields fa h m job_retract_zero v n).2.2.2.2.1, get_retract_zero]
  refine ⟨(fill_header_fields fa h m print v n).2.2.2.2.1, h0, ?_⟩
  rw [h0]; norm_num

theorem round_to_binary32_small (a : Nat) (h : a ≤ 2 ^ 24) : round_to_binary32 a = a := by
  rcases Nat.lt_or_ge a (2 ^ 24) with hlt | hge
  · have he : binary32_shift 64 a = 0 := by
      show (if a < 2 ^ 24 then 0 else binary32_shift 63 (a / 2) + 1) = 0
      rw [if_pos hlt]
    unfold round_to_binary32
    simp only [he, pow_zero, Nat.div_one, Nat.mod_one, Nat.mul_one]
    rw [if_neg (by omega)]
  · have ha : a = 2 ^ 24 := Nat.le_antisymm h hge
    subst ha
    decide

/-- Integers of magnitude up to 2^24 are converted to floats exactly. -/
theorem uint_to_float_small (n : Nat) (h : n ≤ 2 ^ 24) : uint_to_float n = (n : ℚ) := by
  unfold uint_to_float
  rw [round_to_binary32_small n h]

theorem int_to_float_small (x : Int) (h1 : -(2 ^ 24) ≤ x) (h2 : x ≤ 2 ^ 24) :
    int_to_float x = (x : ℚ) := by
  unfold int_to_float
  have hna : x.natAbs ≤ 2 ^ 24 := by omega
  rw [round_to_binary32_small _ hna]
  split
  · have hx : ((x.natAbs : Nat) : Int) = -x := by omega
    have hq : (((x.natAbs : Nat) : Int) : ℚ) = ((-x : Int) : ℚ) := congrArg _ hx
    rw [Int.cast_natCast, Int.cast_neg] at hq
    rw [hq, neg_neg]
  · have hx : ((x.natAbs : Nat) : Int) = x := by omega
    have hq : (((x.natAbs : Nat) : Int) : ℚ) = (x : ℚ) := congrArg _ hx
    rw [Int.cast_natCast] at hq
    exact hq

theorem get_cfg_value_f_absent (cfg : DynamicConfig) (key : String) (dflt : ℚ)
    (h : cfg.float_opt key = none) : get_cfg_value_f cfg key dflt = dflt := by
  unfold get_cfg_value_f; rw [h]

/-- C15. Whatever the material notes hold, each of the four triples produced by
`fill_extra` has its lift distance within [0.1, 100] and its lift speed and
retract speed within [0.1, 20]; with no overrides the triples are (1.5, 2, 3),
(4.5, 4, 6), (1.5, 2, 3) and (4, 2, 3). -/
theorem fill_extra_clamped (e : anycubicsla_format_extra ℚ) (print : PrintJob) :
    (∀ x ∈ [(fill_extra e print).lift_distance1_mm, (fill_extra e print).lift_distance2_mm,
        (fill_extra e print).lift_distance3_mm, (fill_extra e print).lift_distance4_mm],
      1 / 10 ≤ x ∧ x ≤ 100) ∧
    (∀ x ∈ [(fill_extra e print).lift_speed1_mms, (fill_extra e print).lift_speed2_mms,
        (fill_extra e print).lift_speed3_mms, (fill_extra e print).lift_speed4_mms,
        (fill_extra e print).retract_speed1_mms, (fill_extra e print).retract_speed2_mms,
        (fill_extra e print).retract_speed3_mms, (fill_extra e print).retract_speed4_mms],
      1 / 10 ≤ x ∧ x ≤ 20) ∧
    ((∀ key, print.material_notes_config.float_opt key = none) →
      ((fill_extra e print).lift_distance1_mm, (fill_extra e print).lift_speed1_mms,
          (fill_extra e print).retract_speed1_mms) = (3 / 2, 2, 3) ∧
      ((fill_extra e print).lift_distance2_mm, (fill_extra e print).lift_speed2_mms,
          (fill_extra e print).retract_speed2_mms) = (9 / 2, 4, 6) ∧
      ((fill_extra e print).lift_distance3_mm, (fill_extra e print).lift_speed3_mms,
          (fill_extra e print).retract_speed3_mms) = (3 / 2, 2, 3) ∧
      ((fill_extra e print).lift_distance4_mm, (fill_extra e print).lift_speed4_mms,
          (fill_extra e print).retract_speed4_mms) = (4, 2, 3)) := by
  refine ⟨?_, ?_, ?_⟩
  · intro x hx
    simp only [List.mem_cons, List.mem_singleton, List.not_mem_nil, or_false] at hx
    rcases hx with hx | hx | hx | hx <;> subst hx <;>
      exact crop_value_bounds _ _ _ (by norm_num)
  · intro x hx
    simp only [List.mem_cons, List.mem_singleton, List.not_mem_nil, or_false] at hx
    rcases hx with hx | hx | hx | hx | hx | hx | hx | hx <;> subst hx <;>
      exact crop_value_bounds _ _ _ (by norm_num)
  · intro hnone
    have hd : ∀ (key : String) (d lo hi : ℚ), lo ≤ d → d ≤ hi →
        crop_value (get_cfg_value_f print.material_notes_config key d) lo hi = d := by
      intro key d lo hi h1 h2
      rw [get_cfg_value_f_absent _ _ _ (hnone key)]
      exact crop_value_of_mem _ _ _ h1 h2
    refine ⟨?_, ?_, ?_, ?_⟩ <;>
      refine Prod.ext ?_ (Prod.ext ?_ ?_) <;>
      exact hd _ _ _ _ (by norm_num) (by norm_num)

/-! ## Properties of the layer records -/

/-- One iteration of the layer loop. -/
theorem export_layers_cons {F : Type} (fo : FloatOps F) (header : anycubicsla_format_header F)
    (misc : anycubicsla_format_misc F) (rst : EncodedRaster) (rest : List EncodedRaster)
    (i off : Nat) :
    export_layers fo header misc (rst :: rest) i off =
      layer_record fo header misc i off rst ::
        export_layers fo header misc rest (i + 1) (u32 (off + u32 rst.buffer.length)) := by
  unfold layer_record
  rw [export_layers]

/-- The `k`-th record of the layer loop is the record built for the `k`-th
raster from the index and the running offset reached there. -/
theorem export_layers_getElem? {F : Type} (fo : FloatOps F)
    (header : anycubicsla_format_header F) (misc : anycubicsla_format_misc F)
    (rasters : List EncodedRaster) :
    ∀ (i off k : Nat),
      (export_layers fo header misc rasters i off)[k]? =
        (rasters[k]?).map
          (fun rst => layer_record fo header misc (i + k)
            (running_image_offset off (rasters.take k)) rst) := by
  induction rasters with
  | nil => intro i off k; simp [export_layers]
  | cons rst rest ih =>
    intro i off k
    rw [export_layers_cons]
    cases k with
    | zero => simp [running_image_offset]
    | succ j =>
      rw [List.getElem?_cons_succ, List.getElem?_cons_succ, ih]
      have hi : i + 1 + j = i + (j + 1) := by omega
      rw [hi]
      rfl

/-- Without wrap the running offset is the start plus the sizes passed. -/
theorem running_image_offset_eq (rasters : List EncodedRaster) :
    ∀ off : Nat, off + (rasters.map (fun r => r.buffer.length)).sum < 2 ^ 32 →
      running_image_offset off rasters = off + (rasters.map (fun r => r.buffer.length)).sum := by
  induction rasters with
  | nil => intro off _; simp [running_image_offset]
  | cons rst rest ih =>
    intro off h
    rw [List.map_cons, List.sum_cons] at h ⊢
    have h1 : u32 rst.buffer.length = rst.buffer.length := u32_small _ (by omega)
    have h2 : u32 (off + rst.buffer.length) = off + rst.buffer.length := u32_small _ (by omega)
    show running_image_offset (u32 (off + u32 rst.buffer.length)) rest = _
    rw [h1, h2, ih _ (by omega)]
    omega

theorem sum_take_le (l : List Nat) (k : Nat) : (l.take k).sum ≤ l.sum := by
  induction l generalizing k with
  | nil => simp
  | cons a t ih =>
    cases k with
    | zero => simp
    | succ j => simp only [List.take_succ_cons, List.sum_cons]; have := ih j; omega

/-- The blob holds raster `k` at the sum of the sizes of the rasters before
it. -/
theorem blob_slice (rasters : List EncodedRaster) :
    ∀ (k : Nat) (rst : EncodedRaster), rasters[k]? = some rst →
      ((rasters.flatMap (fun r => r.buffer)).drop
          ((rasters.take k).map (fun r => r.buffer.length)).sum).take rst.buffer.length =
        rst.buffer := by
  induction rasters with
  | nil => intro k rst h; simp at h
  | cons r rest ih =>
    intro k rst h
    cases k with
    | zero =>
      simp only [List.getElem?_cons_zero, Option.some.injEq] at h
      subst h
      simp [List.flatMap_cons]
    | succ j =>
      rw [List.getElem?_cons_succ] at h
      rw [List.take_succ_cons, List.map_cons, List.sum_cons, List.flatMap_cons,
        List.drop_append_eq_append_drop]
      have hd : r.buffer.drop (r.buffer.length + ((rest.take j).map (fun r => r.buffer.length)).sum)
          = [] := List.drop_of_length_le (by omega)
      rw [hd, List.nil_append]
      have hs : r.buffer.length + ((rest.take j).map (fun r => r.buffer.length)).sum
          - r.buffer.length = ((rest.take j).map (fun r => r.buffer.length)).sum := by omega
      rw [hs]
      exact ih j rst h

theorem filter_layers_map {F : Type} (fo : FloatOps F) (ls : List (anycubicsla_format_layer F)) :
    (ls.map (fun l => (Section.layers, anycubicsla_write_layer fo l))).filter
        (fun w => decide (w.1 = Section.layers)) =
      ls.map (fun l => (Section.layers, anycubicsla_write_layer fo l)) := by
  induction ls with
  | nil => rfl
  | cons l t ih => simp [List.filter_cons]

/-- The writes of the `try` block that belong to the layers section are the
layers header followed by one record per element of the layer loop, in order;
the last write of the block is the blob of the concatenated rasters. -/
theorem layers_writes {F : Type} (fo : FloatOps F) (v : FormatVersion)
    (m_layers : List EncodedRaster) (layer_count : Nat) (intro : anycubicsla_format_intro)
    (header : anycubicsla_format_header F) (misc : anycubicsla_format_misc F)
    (preview : anycubicsla_format_preview) (color : anycubicsla_format_layers_color)
    (dpi : Nat) (extra : anycubicsla_format_extra F) (machine : anycubicsla_format_machine F)
    (software : anycubicsla_format_software) (model : anycubicsla_format_model F) :
    (((export_print_write fo v m_layers layer_count intro header misc preview color dpi
          extra machine software model).filter
        (fun w => decide (w.1 = Section.layers))).map Prod.snd =
      anycubicsla_write_layers_header (export_layers_header intro layer_count) ::
        (export_layers fo header misc m_layers 0 intro.image_data_offset).map
          (fun l => anycubicsla_write_layer fo l)) ∧
    (export_print_write fo v m_layers layer_count intro header misc preview color dpi
        extra machine software model).getLast? =
      some (Section.image_data, m_layers.flatMap (fun rst => rst.buffer)) := by
  unfold export_print_write
  constructor
  · by_cases h1 : intro.layer_color_offset = 0 <;>
    by_cases h2 : intro.extra_data_offset = 0 <;>
    by_cases h3 : intro.machine_data_offset = 0 <;>
    by_cases h4 : intro.software_data_offset = 0 <;>
    by_cases h5 : intro.model_data_offset = 0 <;>
      simp [h1, h2, h3, h4, h5, List.filter_append, List.filter_cons, filter_layers_map,
        Function.comp_def]
  · exact List.getLast?_concat _

/-- The layers writes and the blob of a run of `export_print`. -/
theorem body_layers_writes {F : Type} (fo : FloatOps F) (v : FormatVersion)
    (m_layers : List EncodedRaster) (print : SLAPrint F) (thumbnails : List ThumbnailData)
    (dpi : Nat) :
    (((export_print_body fo v m_layers print thumbnails dpi).written.filter
        (fun w => decide (w.1 = Section.layers))).map Prod.snd =
      anycubicsla_write_layers_header
          (export_print_body fo v m_layers print thumbnails dpi).layers_header ::
        (export_layer_records fo v m_layers print).map
          (fun l => anycubicsla_write_layer fo l)) ∧
    (export_print_body fo v m_layers print thumbnails dpi).written.getLast? =
      some (Section.image_data, m_layers.flatMap (fun rst => rst.buffer)) := by
  rw [export_print_body_written]
  exact layers_writes _ _ _ _ _ _ _ _ _ _ _ _ _ _

theorem layer_record_image {F : Type} (fo : FloatOps F) (header : anycubicsla_format_header F)
    (misc : anycubicsla_format_misc F) (i off : Nat) (rst : EncodedRaster) :
    (layer_record fo header misc i off rst).image_size = u32 rst.buffer.length ∧
    (layer_record fo header misc i off rst).image_offset = off ∧
    (layer_record fo header misc i off rst).layer44 = fo.zero ∧
    (layer_record fo header misc i off rst).layer48 = fo.zero := by
  unfold layer_record
  split <;> exact ⟨rfl, rfl, rfl, rfl⟩

theorem layer_record_zone {F : Type} (fo : FloatOps F) (header : anycubicsla_format_header F)
    (misc : anycubicsla_format_misc F) (i off : Nat) (rst : EncodedRaster) :
    (fo.nat_lt i header.bottom_layer_count = true →
      (layer_record fo header misc i off rst).exposure_time_s = header.bottom_exposure_time_s ∧
      (layer_record fo header misc i off rst).layer_height_mm = misc.bottom_layer_height_mm ∧
      (layer_record fo header misc i off rst).lift_distance_mm = misc.bottom_lift_distance_mm ∧
      (layer_record fo header misc i off rst).lift_speed_mms = misc.bottom_lift_speed_mms) ∧
    (fo.nat_lt i header.bottom_layer_count = false →
      (layer_record fo header misc i off rst).exposure_time_s = header.exposure_time_s ∧
      (layer_record fo header misc i off rst).layer_height_mm = header.layer_height_mm ∧
      (layer_record fo header misc i off rst).lift_distance_mm = header.lift_distance_mm ∧
      (layer_record fo header misc i off rst).lift_speed_mms = header.lift_speed_mms) := by
  unfold layer_record
  constructor
  · intro h; rw [if_pos h]; exact ⟨rfl, rfl, rfl, rfl⟩
  · intro h; rw [if_neg (by rw [h]; exact Bool.false_ne_true)]; exact ⟨rfl, rfl, rfl, rfl⟩

theorem export_layer_records_getElem? {F : Type} (fo : FloatOps F) (v : FormatVersion)
    (m_layers : List EncodedRaster) (print : SLAPrint F) (thumbnails : List ThumbnailData)
    (dpi : Nat) (k : Nat) :
    (export_layer_records fo v m_layers print)[k]? =
      (m_layers[k]?).map
        (fun rst => layer_record fo (print.fill_header v (u32 m_layers.length)).1
          (print.fill_header v (u32 m_layers.length)).2 k
          (running_image_offset
            (export_print_body fo v m_layers print thumbnails dpi).intro.image_data_offset
            (m_layers.take k)) rst) := by
  unfold export_layer_records
  rw [export_layers_getElem?, export_print_body_intro, Nat.zero_add]

/-- C19. The layer records written by `export_print` are built, one per raster,
with the bottom-zone parameters (bottom exposure time, initial layer height,
bottom lift distance, bottom lift speed) exactly when the comparison
`i < header.bottom_layer_count` of the layer index with the header holds, and
with the normal-zone parameters of the header otherwise; `layer44` and
`layer48` are always zero. In the rational model the comparison is `i < x`. -/
theorem layer_zone_parameters {F : Type} (fo : FloatOps F) (v : FormatVersion)
    (m_layers : List EncodedRaster) (print : SLAPrint F) (thumbnails : List ThumbnailData)
    (dpi : Nat) :
    (((export_print_body fo v m_layers print thumbnails dpi).written.filter
        (fun w => decide (w.1 = Section.layers))).map Prod.snd =
      anycubicsla_write_layers_header
          (export_print_body fo v m_layers print thumbnails dpi).layers_header ::
        (export_layer_records fo v m_layers print).map
          (fun l => anycubicsla_write_layer fo l)) ∧
    (export_layer_records fo v m_layers print).length = m_layers.length ∧
    (∀ (i : Nat) (l : anycubicsla_format_layer F),
      (export_layer_records fo v m_layers print)[i]? = some l →
      (fo.nat_lt i (print.fill_header v (u32 m_layers.length)).1.bottom_layer_count = true →
        l.exposure_time_s =
          (print.fill_header v (u32 m_layers.length)).1.bottom_exposure_time_s ∧
        l.layer_height_mm =
          (print.fill_header v (u32 m_layers.length)).2.bottom_layer_height_mm ∧
        l.lift_distance_mm =
          (print.fill_header v (u32 m_layers.length)).2.bottom_lift_distance_mm ∧
        l.lift_speed_mms =
          (print.fill_header v (u32 m_layers.length)).2.bottom_lift_speed_mms) ∧
      (fo.nat_lt i (print.fill_header v (u32 m_layers.length)).1.bottom_layer_count = false →
        l.exposure_time_s = (print.fill_header v (u32 m_layers.length)).1.exposure_time_s ∧
        l.layer_height_mm = (print.fill_header v (u32 m_layers.length)).1.layer_height_mm ∧
        l.lift_distance_mm = (print.fill_header v (u32 m_layers.length)).1.lift_distance_mm ∧
        l.lift_speed_mms = (print.fill_header v (u32 m_layers.length)).1.lift_speed_mms) ∧
      l.layer44 = fo.zero ∧ l.layer48 = fo.zero) ∧
    (∀ (bits : ℚ → Nat) (i : Nat) (x : ℚ),
      ((rat_float_ops bits).nat_lt i x = true ↔ (i : ℚ) < x) ∧ (rat_float_ops bits).zero = 0) := by
  refine ⟨(body_layers_writes fo v m_layers print thumbnails dpi).1,
    length_export_layers _ _ _ _ _ _, ?_, ?_⟩
  · intro i l hl
    rw [export_layer_records_getElem? fo v m_layers print thumbnails dpi i] at hl
    cases hm : m_layers[i]? with
    | none => rw [hm] at hl; exact absurd hl (by simp)
    | some rst =>
      rw [hm, Option.map_some', Option.some.injEq] at hl
      subst hl
      exact ⟨(layer_record_zone _ _ _ _ _ _).1, (layer_record_zone _ _ _ _ _ _).2,
        (layer_record_image _ _ _ _ _ _).2.2.1, (layer_record_image _ _ _ _ _ _).2.2.2⟩
  · intro bits i x
    exact ⟨by simp [rat_float_ops], rfl⟩

theorem sum_take_succ_le (l : List Nat) (k x : Nat) (h : l[k]? = some x) :
    (l.take k).sum + x ≤ l.sum := by
  have h1 : (l.take (k + 1)).sum = (l.take k).sum + x := by
    rw [List.take_succ, h]; simp
  have := sum_take_le l (k + 1)
  omega

/-- C18 (amended). When the image data offset plus the sizes of all rasters
stays below 2^32, `export_print` writes one 32-byte layer record per raster in
layer order, record `i` has `image_size` equal to the size of raster `i` and
`image_offset` equal to `image_data_offset` plus the sum of the sizes of the
rasters before it, and the trailing blob is the concatenation of the rasters,
so that the blob bytes at `[image_offset - image_data_offset, + image_size)`
are raster `i`. -/
theorem layer_records_offsets {F : Type} (fo : FloatOps F) (v : FormatVersion)
    (m_layers : List EncodedRaster) (print : SLAPrint F) (thumbnails : List ThumbnailData)
    (dpi : Nat)
    (hfit : (export_print_body fo v m_layers print thumbnails dpi).intro.image_data_offset +
      (m_layers.map (fun r => r.buffer.length)).sum < 2 ^ 32) :
    (((export_print_body fo v m_layers print thumbnails dpi).written.filter
        (fun w => decide (w.1 = Section.layers))).map Prod.snd =
      anycubicsla_write_layers_header
          (export_print_body fo v m_layers print thumbnails dpi).layers_header ::
        (export_layer_records fo v m_layers print).map
          (fun l => anycubicsla_write_layer fo l)) ∧
    (∀ l : anycubicsla_format_layer F, (anycubicsla_write_layer fo l).length = 32) ∧
    (export_layer_records fo v m_layers print).length = m_layers.length ∧
    (export_print_body fo v m_layers print thumbnails dpi).written.getLast? =
      some (Section.image_data, m_layers.flatMap (fun rst => rst.buffer)) ∧
    (∀ (i : Nat) (l : anycubicsla_format_layer F) (rst : EncodedRaster),
      (export_layer_records fo v m_layers print)[i]? = some l → m_layers[i]? = some rst →
      l.image_size = rst.buffer.length ∧
      l.image_offset =
        (export_print_body fo v m_layers print thumbnails dpi).intro.image_data_offset +
          ((m_layers.take i).map (fun r => r.buffer.length)).sum ∧
      ((m_layers.flatMap (fun r => r.buffer)).drop
          (l.image_offset -
            (export_print_body fo v m_layers print thumbnails dpi).intro.image_data_offset)).take
        l.image_size = rst.buffer) := by
  refine ⟨(body_layers_writes fo v m_layers print thumbnails dpi).1,
    fun l => length_write_layer fo l, length_export_layers _ _ _ _ _ _,
    (body_layers_writes fo v m_layers print thumbnails dpi).2, ?_⟩
  intro i l rst hl hm
  rw [export_layer_records_getElem? fo v m_layers print thumbnails dpi i, hm,
    Option.map_some', Option.some.injEq] at hl
  subst hl
  have hsum : ((m_layers.map (fun r => r.buffer.length)).take i).sum + rst.buffer.length ≤
      (m_layers.map (fun r => r.buffer.length)).sum :=
    sum_take_succ_le _ i _ (by rw [List.getElem?_map, hm]; rfl)
  rw [← List.map_take] at hsum
  have hsize : u32 rst.buffer.length = rst.buffer.length := u32_small _ (by omega)
  have hoff := running_image_offset_eq (m_layers.take i)
    (export_print_body fo v m_layers print thumbnails dpi).intro.image_data_offset (by omega)
  rw [(layer_record_image _ _ _ _ _ _).1, (layer_record_image _ _ _ _ _ _).2.1, hsize, hoff,
    Nat.add_sub_cancel_left]
  exact ⟨rfl, rfl, blob_slice m_layers i rst hm⟩

/-- Witness of C18 (amended) on two small rasters at version 1. -/
theorem layer_records_offsets_witness :
    (export_print_body sample_float_ops FormatVersion.V1
        [⟨[0x00], "pwimg"⟩, ⟨[0xF0, 0x01], "pwimg"⟩] sample_print [] 0).intro.image_data_offset +
      (([⟨[0x00], "pwimg"⟩, ⟨[0xF0, 0x01], "pwimg"⟩] : List EncodedRaster).map
        (fun r => r.buffer.length)).sum < 2 ^ 32 ∧
    (export_layer_records sample_float_ops FormatVersion.V1
        [⟨[0x00], "pwimg"⟩, ⟨[0xF0, 0x01], "pwimg"⟩] sample_print).length = 2 :=
  ⟨by decide,
    (layer_records_offsets sample_float_ops FormatVersion.V1
      [⟨[0x00], "pwimg"⟩, ⟨[0xF0, 0x01], "pwimg"⟩] sample_print [] 0 (by decide)).2.2.1⟩

/-- C18 (counterexample). One raster of 2^32 bytes: the one record written for
it has `image_size` 0, not the size of the raster. -/
theorem huge_raster_size_wraps :
    huge_raster.buffer.length = 4294967296 ∧
    (export_layer_records sample_float_ops FormatVersion.V1 [huge_raster] sample_print).map
      (fun l => l.image_size) = [0] := by
  have hlen : huge_raster.buffer.length = 4294967296 := by
    unfold huge_raster; exact List.length_replicate _ _
  refine ⟨hlen, ?_⟩
  unfold export_layer_records
  rw [export_layers_cons, List.map_cons, (layer_record_image _ _ _ _ _ _).1, hlen, export_layers,
    List.map_nil]
  decide

theorem job_bottom_lift_values :
    job_bottom_lift.material_notes_config.has CFG_BOTTOM_LIFT_DISTANCE = true ∧
    get_cfg_value_f job_bottom_lift.material_notes_config CFG_BOTTOM_LIFT_DISTANCE 8 = 500 ∧
    job_bottom_lift.material_notes_config.has CFG_BOTTOM_LIFT_SPEED = false ∧
    get_cfg_value_f job_bottom_lift.material_notes_config CFG_LIFT_SPEED 2 = 50 ∧
    get_cfg_value_i job_bottom_lift.full_print_config "faded_layers" 0 = 1 := by
  refine ⟨?_, ?_, ?_, ?_, ?_⟩ <;>
    simp [get_cfg_value_f, get_cfg_value_i, DynamicConfig.has, DynamicConfig.empty,
      job_bottom_lift, CFG_BOTTOM_LIFT_DISTANCE, CFG_BOTTOM_LIFT_SPEED, CFG_LIFT_SPEED]

/-- C14 (evaluation of the code). `fill_header` stores a `BOTTOM_LIFT_DISTANCE`
override in `bottom_lift_distance_mm` as it is, and without a
`BOTTOM_LIFT_SPEED` override it copies the `LIFT_SPEED` value into
`bottom_lift_speed_mms` before that value is clamped: the `crop_value` calls
that follow are applied to other members. For a print with one bottom layer,
`BOTTOM_LIFT_DISTANCE = 500` and `LIFT_SPEED = 50`, the record `export_print`
writes for layer 0 has lift distance 500 and lift speed 50. -/
theorem bottom_zone_not_clamped (fa : FloatArith) (bits : ℚ → Nat) (v : FormatVersion)
    (rst : EncodedRaster) :
    (∀ (h : anycubicsla_format_header ℚ) (m : anycubicsla_format_misc ℚ) (print : PrintJob)
        (n : Nat),
      (print.material_notes_config.has CFG_BOTTOM_LIFT_DISTANCE = true →
        (fill_header fa h m print v n).2.bottom_lift_distance_mm =
          get_cfg_value_f print.material_notes_config CFG_BOTTOM_LIFT_DISTANCE 8) ∧
      (print.material_notes_config.has CFG_BOTTOM_LIFT_SPEED = false →
        (fill_header fa h m print v n).2.bottom_lift_speed_mms =
          get_cfg_value_f print.material_notes_config CFG_LIFT_SPEED 2)) ∧
    (export_layer_records (rat_float_ops bits) v [rst] (job_bottom_lift.toSLAPrint fa bits)).map
        (fun l => (l.lift_distance_mm, l.lift_speed_mms)) = [((500 : ℚ), (50 : ℚ))] ∧
    ¬ ((500 : ℚ) ≤ 100) ∧ ¬ ((50 : ℚ) ≤ 20) := by
  refine ⟨?_, ?_, by norm_num, by norm_num⟩
  · intro h m print n
    constructor
    · intro hb
      rw [(fill_header_fields fa h m print v n).2.2.2.2.2.2.1, if_pos hb]
    · intro hb
      rw [(fill_header_fields fa h m print v n).2.2.2.2.2.2.2, if_neg (by rw [hb]; exact Bool.false_ne_true)]
  · have hcount : (rat_float_ops bits).nat_lt 0
        (fill_header fa (header_zero (rat_float_ops bits)) (misc_zero (rat_float_ops bits))
          job_bottom_lift v (u32 [rst].length)).1.bottom_layer_count = true := by
      rw [(fill_header_fields fa _ _ job_bottom_lift v _).2.2.2.2.2.1,
        job_bottom_lift_values.2.2.2.2, int_to_float_small 1 (by decide) (by decide),
        uint_to_float_small (u32 [rst].length) (by simp [u32])]
      simp [rat_float_ops, u32]
    have hd : (fill_header fa (header_zero (rat_float_ops bits)) (misc_zero (rat_float_ops bits))
          job_bottom_lift v (u32 [rst].length)).2.bottom_lift_distance_mm = 500 := by
      rw [(fill_header_fields fa _ _ job_bottom_lift v _).2.2.2.2.2.2.1,
        if_pos job_bottom_lift_values.1, job_bottom_lift_values.2.1]
    have hs : (fill_header fa (header_zero (rat_float_ops bits)) (misc_zero (rat_float_ops bits))
          job_bottom_lift v (u32 [rst].length)).2.bottom_lift_speed_mms = 50 := by
      rw [(fill_header_fields fa _ _ job_bottom_lift v _).2.2.2.2.2.2.2,
        if_neg (by rw [job_bottom_lift_values.2.2.1]; exact Bool.false_ne_true),
        job_bottom_lift_values.2.2.2.1]
    unfold export_layer_records
    rw [export_layers_cons, export_layers, List.map_cons, List.map_nil]
    show [((layer_record (rat_float_ops bits)
        (fill_header fa (header_zero (rat_float_ops bits)) (misc_zero (rat_float_ops bits))
          job_bottom_lift v (u32 [rst].length)).1
        (fill_header fa (header_zero (rat_float_ops bits)) (misc_zero (rat_float_ops bits))
          job_bottom_lift v (u32 [rst].length)).2 0 _ rst).lift_distance_mm,
      (layer_record (rat_float_ops bits)
        (fill_header fa (header_zero (rat_float_ops bits)) (misc_zero (rat_float_ops bits))
          job_bottom_lift v (u32 [rst].length)).1
        (fill_header fa (header_zero (rat_float_ops bits)) (misc_zero (rat_float_ops bits))
          job_bottom_lift v (u32 [rst].length)).2 0 _ rst).lift_speed_mms)] = _
    rw [((layer_record_zone _ _ _ _ _ _).1 hcount).2.2.1,
      ((layer_record_zone _ _ _ _ _ _).1 hcount).2.2.2, hd, hs]


/-! ## Properties of the layers header -/

/-- The bytes written for the layers section: the layers header followed by
one 32-byte record per raster. -/
theorem layers_section_length {F : Type} (fo : FloatOps F) (v : FormatVersion)
    (m_layers : List EncodedRaster) (print : SLAPrint F) (thumbnails : List ThumbnailData)
    (dpi : Nat) :
    ((((export_print_body fo v m_layers print thumbnails dpi).written.filter
        (fun w => decide (w.1 = Section.layers))).map Prod.snd).flatten).length =
      12 + 4 + (4 + 32 * m_layers.length) := by
  rw [(body_layers_writes fo v m_layers print thumbnails dpi).1, List.flatten_cons,
    List.length_append, length_write_layers_header]
  have hrec : ∀ ls : List (anycubicsla_format_layer F),
      ((ls.map (fun l => anycubicsla_write_layer fo l)).flatten).length = 32 * ls.length := by
    intro ls
    induction ls with
    | nil => rfl
    | cons l t ih =>
      rw [List.map_cons, List.flatten_cons, List.length_append, ih, length_write_layer,
        List.length_cons]
      omega
  rw [hrec, show (export_layer_records fo v m_layers print).length = m_layers.length from
    length_export_layers _ _ _ _ _ _]
  omega

theorem layers_payload_size_values {F : Type} (fo : FloatOps F)
    (m_layers : List EncodedRaster) (print : SLAPrint F) (thumbnails : List ThumbnailData)
    (dpi : Nat) :
    (export_print_body fo .V1 m_layers print thumbnails dpi).layers_header.payload_size =
      (4 + 32 * u32 m_layers.length) % 4294967296 ∧
    (export_print_body fo .V515 m_layers print thumbnails dpi).layers_header.payload_size =
      (4 + 32 * u32 m_layers.length) % 4294967296 ∧
    (export_print_body fo .V516 m_layers print thumbnails dpi).layers_header.payload_size =
      (232 + 32 * u32 m_layers.length) % 4294967296 ∧
    (export_print_body fo .V517 m_layers print thumbnails dpi).layers_header.payload_size =
      (444 + 32 * u32 m_layers.length) % 4294967296 := by
  have hp : ∀ v, (export_print_body fo v m_layers print thumbnails dpi).layers_header.payload_size
      = u32_sub (u32_sub (u32_sub
          (export_print_body fo v m_layers print thumbnails dpi).intro.image_data_offset
          (export_print_body fo v m_layers print thumbnails dpi).intro.layer_data_offset) 12) 4 :=
    fun _ => rfl
  refine ⟨?_, ?_, ?_, ?_⟩
  · rw [hp, body_intro_V1]; simp only [u32_sub]; omega
  · rw [hp, body_intro_V515]; simp only [u32_sub]; omega
  · rw [hp, body_intro_V516]; simp only [u32_sub]; omega
  · rw [hp, body_intro_V517]; simp only [u32_sub]; omega

/-- C22 (evaluation of the code). For every version the layers section body
written after the 12-byte tag and the 4-byte size field is `4 + 32 * n` bytes
long (`n` rasters). The `payload_size` of the layers header is `4 + 32 * n`
modulo 2^32 for V1 and V515, but `232 + 32 * n` for V516 and `444 + 32 * n`
for V517: it is computed from `image_data_offset` after the sizes of the extra
and machine (and software and model) sections have been added to it. A V516
export without layers declares 232 bytes and writes 4. -/
theorem layers_payload_size_vs_written {F : Type} (fo : FloatOps F)
    (m_layers : List EncodedRaster) (print : SLAPrint F) (thumbnails : List ThumbnailData)
    (dpi : Nat) :
    (∀ v : FormatVersion,
      (((((export_print_body fo v m_layers print thumbnails dpi).written.filter
        (fun w => decide (w.1 = Section.layers))).map Prod.snd).flatten).drop (12 + 4)).length =
        4 + 32 * m_layers.length) ∧
    (export_print_body fo .V1 m_layers print thumbnails dpi).layers_header.payload_size =
      (4 + 32 * u32 m_layers.length) % 4294967296 ∧
    (export_print_body fo .V515 m_layers print thumbnails dpi).layers_header.payload_size =
      (4 + 32 * u32 m_layers.length) % 4294967296 ∧
    (export_print_body fo .V516 m_layers print thumbnails dpi).layers_header.payload_size =
      (232 + 32 * u32 m_layers.length) % 4294967296 ∧
    (export_print_body fo .V517 m_layers print thumbnails dpi).layers_header.payload_size =
      (444 + 32 * u32 m_layers.length) % 4294967296 ∧
    (export_print_body fo .V516 [] print thumbnails dpi).layers_header.payload_size = 232 := by
  refine ⟨?_, (layers_payload_size_values fo m_layers print thumbnails dpi).1,
    (layers_payload_size_values fo m_layers print thumbnails dpi).2.1,
    (layers_payload_size_values fo m_layers print thumbnails dpi).2.2.1,
    (layers_payload_size_values fo m_layers print thumbnails dpi).2.2.2, ?_⟩
  · intro v
    rw [List.length_drop, layers_section_length]
    omega
  · rw [(layers_payload_size_values fo [] print thumbnails dpi).2.2.1]
    rfl

/-! ## Properties of the colour table -/

theorem filter_layer_color_map {F : Type} (fo : FloatOps F)
    (ls : List (anycubicsla_format_layer F)) :
    (ls.map (fun l => (Section.layers, anycubicsla_write_layer fo l))).filter
        (fun w => decide (w.1 = Section.layer_color)) = [] := by
  induction ls with
  | nil => rfl
  | cons l t ih => simp [List.filter_cons]

/-- The colour table writes of the `try` block. -/
theorem layer_color_writes {F : Type} (fo : FloatOps F) (v : FormatVersion)
    (m_layers : List EncodedRaster) (layer_count : Nat) (intro : anycubicsla_format_intro)
    (header : anycubicsla_format_header F) (misc : anycubicsla_format_misc F)
    (preview : anycubicsla_format_preview) (color : anycubicsla_format_layers_color)
    (dpi : Nat) (extra : anycubicsla_format_extra F) (machine : anycubicsla_format_machine F)
    (software : anycubicsla_format_software) (model : anycubicsla_format_model F) :
    ((export_print_write fo v m_layers layer_count intro header misc preview color dpi
        extra machine software model).filter
          (fun w => decide (w.1 = Section.layer_color))).map Prod.snd =
      if intro.layer_color_offset ≠ 0 then [anycubicsla_write_layer_color color dpi] else [] := by
  unfold export_print_write
  by_cases h1 : intro.layer_color_offset = 0 <;>
    by_cases h2 : intro.extra_data_offset = 0 <;>
    by_cases h3 : intro.machine_data_offset = 0 <;>
    by_cases h4 : intro.software_data_offset = 0 <;>
    by_cases h5 : intro.model_data_offset = 0 <;>
    simp [h1, h2, h3, h4, h5, List.filter_append, List.filter_cons, filter_layer_color_map,
      Function.comp_def]

theorem layer_color_offset_ne_zero {F : Type} (fo : FloatOps F) (v : FormatVersion)
    (m_layers : List EncodedRaster) (print : SLAPrint F) (thumbnails : List ThumbnailData)
    (dpi : Nat) (hv : FormatVersion.V515.val ≤ v.val) :
    (export_print_body fo v m_layers print thumbnails dpi).intro.layer_color_offset ≠ 0 := by
  cases v
  · exact absurd hv (by decide)
  · rw [body_intro_V515]; simp
  · rw [body_intro_V516]; simp
  · rw [body_intro_V517]; simp

/-- C23. The record produced by `fill_color` is the identity table whatever
record it starts from: `use_full_grayscale = 0`, `grey_max_count = 16` and
`grey[i] = 16 * i + 15` for `i` in 0..15 (15, 31, ..., 255). For every export
at version V515 or later it is the colour table handed to the writer, which
emits the two counters, the sixteen table bytes, `preview_dpi` and `unknown`. -/
theorem fill_color_identity_table (color : anycubicsla_format_layers_color) (F : Type)
    (fo : FloatOps F) (v : FormatVersion) (m_layers : List EncodedRaster) (print : SLAPrint F)
    (thumbnails : List ThumbnailData) (dpi : Nat) :
    (fill_color color).use_full_grayscale = 0 ∧
    (fill_color color).grey_max_count = 16 ∧
    (fill_color color).grey = (List.range 16).map (fun i => 16 * i + 15) ∧
    (fill_color color).grey =
      [15, 31, 47, 63, 79, 95, 111, 127, 143, 159, 175, 191, 207, 223, 239, 255] ∧
    (∀ other : anycubicsla_format_layers_color, fill_color other = fill_color color) ∧
    (FormatVersion.V515.val ≤ v.val →
      (((export_print_body fo v m_layers print thumbnails dpi).written.filter
        (fun w => decide (w.1 = Section.layer_color))).map Prod.snd =
          [anycubicsla_write_layer_color (fill_color color) dpi])) ∧
    anycubicsla_write_layer_color (fill_color color) dpi =
      anycubicsla_write_int32 0 ++ anycubicsla_write_int32 16
        ++ [15, 31, 47, 63, 79, 95, 111, 127, 143, 159, 175, 191, 207, 223, 239, 255]
        ++ anycubicsla_write_int32 dpi ++ anycubicsla_write_int32 0 := by
  refine ⟨rfl, rfl, rfl, rfl, fun _ => rfl, ?_, ?_⟩
  · intro hv
    rw [export_print_body_written, layer_color_writes, if_pos hv,
      if_pos (layer_color_offset_ne_zero fo v m_layers print thumbnails dpi hv)]
    rfl
  · unfold anycubicsla_write_layer_color
    rfl

/-! ## Properties of the section tags -/

theorem take_tag (tag rest : List Nat) (h : tag.length = 12) :
    (out_write tag 12 ++ rest).take 12 = tag := by
  have hw : out_write tag 12 = tag := by
    apply List.ext_getElem
    · rw [length_out_write, h]
    · intro i h1 h2
      simp [out_write, List.getD_eq_getElem?_getD, List.getElem?_eq_getElem h2]
  rw [hw, List.take_left' h]

/-- A V516 export writes the machine record of the print. -/
theorem machine_write_V516 {F : Type} (fo : FloatOps F) (m_layers : List EncodedRaster)
    (print : SLAPrint F) (thumbnails : List ThumbnailData) (dpi : Nat) :
    (Section.machine, anycubicsla_write_machine fo (print.fill_machine 516)) ∈
      (export_print_body fo .V516 m_layers print thumbnails dpi).written := by
  obtain ⟨_, a2, _⟩ := mod_ne_zero_of_V516 (u32 m_layers.length)
  rw [export_print_body_written, body_intro_V516]
  unfold export_print_write
  simp [a2, val_V516]

/-- C24 (evaluation of the code). The first twelve bytes of each tagged section:
ANYCUBIC, HEADER, PREVIEW, LAYERDEF and EXTRA for the intro, header, preview,
layers and extra sections, each padded with null bytes. The machine section is
written with `TAG_MACHINE`, whose definition in force is the second one,
"MODEL": its tag is MODEL, not MACHINE, and it is the tag of the model
section as well. Every V516 export writes such a machine section. -/
theorem section_tags {F : Type} (fo : FloatOps F) (i : anycubicsla_format_intro)
    (v : FormatVersion) (h : anycubicsla_format_header F) (p : anycubicsla_format_preview)
    (lh : anycubicsla_format_layers_header) (e : anycubicsla_format_extra F)
    (m : anycubicsla_format_machine F) (mo : anycubicsla_format_model F)
    (m_layers : List EncodedRaster) (print : SLAPrint F) (thumbnails : List ThumbnailData)
    (dpi : Nat) :
    (anycubicsla_write_intro i v).take 12 = tag_literal "ANYCUBIC" 4 ∧
    (anycubicsla_write_header fo h v).take 12 = tag_literal "HEADER" 6 ∧
    (anycubicsla_write_preview p).take 12 = tag_literal "PREVIEW" 5 ∧
    (anycubicsla_write_layers_header lh).take 12 = tag_literal "LAYERDEF" 4 ∧
    (anycubicsla_write_extra fo e).take 12 = tag_literal "EXTRA" 7 ∧
    (anycubicsla_write_machine fo m).take 12 = tag_literal "MODEL" 7 ∧
    (anycubicsla_write_model fo mo).take 12 = tag_literal "MODEL" 7 ∧
    (anycubicsla_write_machine fo m).take 12 ≠ tag_literal "MACHINE" 5 ∧
    (anycubicsla_write_machine fo m).take 12 = (anycubicsla_write_model fo mo).take 12 ∧
    tag_literal "MODEL" 7 = [77, 79, 68, 69, 76, 0, 0, 0, 0, 0, 0, 0] ∧
    tag_literal "MACHINE" 5 = [77, 65, 67, 72, 73, 78, 69, 0, 0, 0, 0, 0] ∧
    (Section.machine, anycubicsla_write_machine fo (print.fill_machine 516)) ∈
      (export_print_body fo .V516 m_layers print thumbnails dpi).written := by
  have hi : (anycubicsla_write_intro i v).take 12 = tag_literal "ANYCUBIC" 4 := by
    unfold anycubicsla_write_intro
    simp only [List.append_assoc]
    exact take_tag _ _ rfl
  have hh : (anycubicsla_write_header fo h v).take 12 = tag_literal "HEADER" 6 := by
    unfold anycubicsla_write_header
    simp only [List.append_assoc]
    exact take_tag _ _ rfl
  have hp : (anycubicsla_write_preview p).take 12 = tag_literal "PREVIEW" 5 := by
    unfold anycubicsla_write_preview
    simp only [List.append_assoc]
    exact take_tag _ _ rfl
  have hl : (anycubicsla_write_layers_header lh).take 12 = tag_literal "LAYERDEF" 4 := by
    unfold anycubicsla_write_layers_header
    simp only [List.append_assoc]
    exact take_tag _ _ rfl
  have he : (anycubicsla_write_extra fo e).take 12 = tag_literal "EXTRA" 7 := by
    unfold anycubicsla_write_extra
    simp only [List.append_assoc]
    exact take_tag _ _ rfl
  have hm : (anycubicsla_write_machine fo m).take 12 = tag_literal "MODEL" 7 := by
    unfold anycubicsla_write_machine
    simp only [List.append_assoc]
    exact take_tag _ _ rfl
  have hmo : (anycubicsla_write_model fo mo).take 12 = tag_literal "MODEL" 7 := by
    unfold anycubicsla_write_model
    simp only [List.append_assoc]
    exact take_tag _ _ rfl
  refine ⟨hi, hh, hp, hl, he, hm, hmo, ?_, ?_, by decide, by decide,
    machine_write_V516 fo m_layers print thumbnails dpi⟩
  · rw [hm]; decide
  · rw [hm, hmo]

/-! ## Further properties of the raster span codec -/

theorem encode_plane_eq_ref (src : List Nat) : encode_plane src = ref_encode src := by
  rw [encode_plane_eq_spans, spans_bytes_eq_ref_encode _ _ (Nat.le_refl _)]

theorem ref_span_len_map_hi (v cap : Nat) (src : List Nat) :
    ref_span_len v cap (src.map (fun c => c &&& 0xF0)) = ref_span_len v cap src := by
  have hp : ((fun b => decide ((b &&& 0xF0) = v)) ∘ fun c : Nat => c &&& 0xF0) =
      (fun b => decide ((b &&& 0xF0) = v)) := by
    funext c
    simp only [Function.comp_apply, hi_idem]
  unfold ref_span_len
  rw [List.takeWhile_map, List.length_map, hp]

theorem encoder_spans_map_hi (fuel : Nat) (src : List Nat) :
    encoder_spans fuel (src.map (fun c => c &&& 0xF0)) = encoder_spans fuel src := by
  induction fuel generalizing src with
  | zero => rfl
  | succ k ih =>
    cases src with
    | nil => rfl
    | cons b rest =>
      have hspan : anycubicsla_get_pixel_span ((b :: rest).map (fun c => c &&& 0xF0)) =
          anycubicsla_get_pixel_span (b :: rest) := by
        rw [get_pixel_span_cons b rest, ← ref_span_len_map_hi _ _ (b :: rest), List.map_cons,
          get_pixel_span_cons, hi_idem]
      have hstep : encoder_spans (k + 1) ((b :: rest).map (fun c => c &&& 0xF0)) =
          anycubicsla_get_pixel_span ((b :: rest).map (fun c => c &&& 0xF0)) ::
            encoder_spans k (((b :: rest).map (fun c => c &&& 0xF0)).drop
              (anycubicsla_get_pixel_span ((b :: rest).map (fun c => c &&& 0xF0))).2) := rfl
      rw [hstep, hspan, ← List.map_drop, ih, encoder_spans_cons]

theorem encode_plane_map_hi (src : List Nat) :
    encode_plane (src.map (fun c => c &&& 0xF0)) = encode_plane src := by
  rw [encode_plane_eq_spans, encode_plane_eq_spans, List.length_map, encoder_spans_map_hi]

theorem encoder_source_map (f : Nat → Nat) (ptr : List Nat) (w h num_components : Nat) :
    encoder_source (ptr.map f) w h num_components =
      (encoder_source ptr w h num_components).map f := by
  unfold encoder_source
  rw [List.map_take]

/-- C26. The encoder reads only the high nibble of every byte: the stream of a
plane is the stream of the plane with the low nibble of every byte cleared,
decoding the stream gives the bytes read with their low nibbles cleared, and
two planes whose bytes differ only in low nibbles give the same stream. -/
theorem encoder_quantises (ptr other : List Nat) (w h num_components : Nat) :
    (AnycubicSLARasterEncoder ptr w h num_components).buffer =
      (AnycubicSLARasterEncoder (ptr.map (fun c => c &&& 0xF0)) w h num_components).buffer ∧
    rle_decode (AnycubicSLARasterEncoder ptr w h num_components).buffer =
      (encoder_source ptr w h num_components).map (fun c => c &&& 0xF0) ∧
    (ptr.map (fun c => c &&& 0xF0) = other.map (fun c => c &&& 0xF0) →
      (AnycubicSLARasterEncoder ptr w h num_components).buffer =
        (AnycubicSLARasterEncoder other w h num_components).buffer) ∧
    (∀ c < 256, c &&& 0xF0 = c - c % 16) := by
  have hq : ∀ p : List Nat, (AnycubicSLARasterEncoder p w h num_components).buffer =
      (AnycubicSLARasterEncoder (p.map (fun c => c &&& 0xF0)) w h num_components).buffer := by
    intro p
    rw [encoder_buffer_eq, encoder_buffer_eq, encoder_source_map, encode_plane_map_hi]
  refine ⟨hq ptr, ?_, ?_, by decide!⟩
  · rw [encoder_buffer_eq, rle_decode_encode_plane]
  · intro heq
    rw [hq ptr, hq other, heq]

theorem length_emit_span (pixel span_len : Nat) : (emit_span pixel span_len).length ≤ 2 := by
  unfold emit_span
  split <;> simp

theorem length_spans_bytes (spans : List (Nat × Nat)) (h : ∀ s ∈ spans, 1 ≤ s.2) :
    (spans.flatMap (fun s => emit_span s.1 s.2)).length ≤ 2 * (spans.map Prod.snd).sum := by
  induction spans with
  | nil => simp
  | cons s t ih =>
    have h1 := h s (List.mem_cons_self _ _)
    have h2 := ih (fun x hx => h x (List.mem_cons_of_mem _ hx))
    have h3 := length_emit_span s.1 s.2
    rw [List.flatMap_cons, List.length_append, List.map_cons, List.sum_cons]
    omega

theorem length_encode_plane (src : List Nat) : (encode_plane src).length ≤ 2 * src.length := by
  have h := length_spans_bytes (encoder_spans src.length src)
    (fun s hs => (encoder_spans_valid _ _ s hs).2.1)
  rw [encoder_spans_sum _ _ (Nat.le_refl _)] at h
  rw [encode_plane_eq_spans]
  exact h

/-- C27. Every call of `anycubicsla_get_pixel_span` on a non-empty buffer
returns a span length of at least 1 and at most the number of bytes left, so
every iteration of the encoder loop advances the cursor: with any iteration
bound of at least the number of bytes read the loop ends with all bytes
consumed and the same output. The output is empty when no byte is read and
never longer than twice the number of bytes read. -/
theorem encoder_terminates (ptr : List Nat) (w h num_components : Nat) :
    (∀ (b : Nat) (rest : List Nat),
      1 ≤ (anycubicsla_get_pixel_span (b :: rest)).2 ∧
      (anycubicsla_get_pixel_span (b :: rest)).2 ≤ (b :: rest).length) ∧
    (∀ (fuel : Nat) (dst : List Nat), (encoder_source ptr w h num_components).length ≤ fuel →
      encoder_loop fuel (encoder_source ptr w h num_components) dst =
        encoder_loop (encoder_source ptr w h num_components).length
          (encoder_source ptr w h num_components) dst) ∧
    ((encoder_spans (encoder_source ptr w h num_components).length
        (encoder_source ptr w h num_components)).map Prod.snd).sum =
      (encoder_source ptr w h num_components).length ∧
    ((encoder_source ptr w h num_components).length = 0 →
      (AnycubicSLARasterEncoder ptr w h num_components).buffer = []) ∧
    (w * h * num_components = 0 →
      (AnycubicSLARasterEncoder ptr w h num_components).buffer = []) ∧
    (AnycubicSLARasterEncoder ptr w h num_components).buffer.length ≤
      2 * (encoder_source ptr w h num_components).length ∧
    (encoder_source ptr w h num_components).length ≤ (w * h * num_components) % 2 ^ 64 := by
  have hempty : (encoder_source ptr w h num_components).length = 0 →
      (AnycubicSLARasterEncoder ptr w h num_components).buffer = [] := by
    intro h0
    rw [encoder_buffer_eq, List.length_eq_zero.mp h0]
    rfl
  refine ⟨?_, fun fuel dst hf => encoder_loop_fuel fuel _ dst hf,
    encoder_spans_sum _ _ (Nat.le_refl _), hempty, ?_, ?_, ?_⟩
  · intro b rest
    have hb := ref_span_len_bounds b rest (span_max_len (b &&& 0xF0)) (span_max_len_pos _)
    rw [get_pixel_span_cons]
    exact ⟨hb.1, hb.2.2⟩
  · intro h0
    apply hempty
    unfold encoder_source
    rw [h0]
    rfl
  · rw [encoder_buffer_eq]
    exact length_encode_plane _
  · unfold encoder_source
    rw [List.length_take]
    exact Nat.min_le_left _ _

theorem ref_span_len_append (v cap : Nat) (a b : List Nat)
    (hb : (∀ x ∈ a, (x &&& 0xF0) = v) → ∀ y ∈ b.head?, (y &&& 0xF0) ≠ v) :
    ref_span_len v cap (a ++ b) = ref_span_len v cap a := by
  unfold ref_span_len
  congr 2
  induction a with
  | nil =>
    cases b with
    | nil => rfl
    | cons y t =>
      have := hb (by simp) y (by simp)
      simp [List.takeWhile_cons, this]
  | cons x t ih =>
    rw [List.cons_append, List.takeWhile_cons, List.takeWhile_cons]
    by_cases hx : (x &&& 0xF0) = v
    · simp only [hx, decide_True, if_true]
      rw [ih (fun hall => hb (fun z hz => by
        rcases List.mem_cons.mp hz with h | h
        · rw [h]; exact hx
        · exact hall z h))]
    · simp [hx]

/-- The reference encoding of two buffers placed one after the other is the
concatenation of their encodings when the high nibble changes at the joint. -/
theorem ref_encode_append (b : List Nat) :
    ∀ (n : Nat) (a : List Nat), a.length ≤ n →
      (∀ x ∈ a.getLast?, ∀ y ∈ b.head?, (x &&& 0xF0) ≠ (y &&& 0xF0)) →
      ref_encode (a ++ b) = ref_encode a ++ ref_encode b := by
  intro n
  induction n with
  | zero =>
    intro a ha _
    have : a = [] := List.length_eq_zero.mp (by omega)
    subst this
    simp [ref_encode]
  | succ k ih =>
    intro a ha hbreak
    cases a with
    | nil => simp [ref_encode]
    | cons x t =>
      have hbd := ref_span_len_bounds x t (span_max_len (x &&& 0xF0)) (span_max_len_pos _)
      have hlen : ref_span_len (x &&& 0xF0) (span_max_len (x &&& 0xF0)) ((x :: t) ++ b) =
          ref_span_len (x &&& 0xF0) (span_max_len (x &&& 0xF0)) (x :: t) := by
        apply ref_span_len_append
        intro hall y hy
        have hlast : (x :: t).getLast? = some ((x :: t).getLast (by simp)) :=
          List.getLast?_eq_getLast _ _
        have h1 := hbreak _ (by rw [hlast]; rfl) y hy
        rw [hall _ (List.getLast_mem _)] at h1
        exact fun h => h1 h.symm
      have hstep : ∀ l : List Nat, ref_encode (x :: l) =
          (if (x &&& 0xF0) = 0x00 ∨ (x &&& 0xF0) = 0xF0 then
              [(x &&& 0xF0) ||| (ref_span_len (x &&& 0xF0) (span_max_len (x &&& 0xF0)) (x :: l)
                  >>> 8),
                ref_span_len (x &&& 0xF0) (span_max_len (x &&& 0xF0)) (x :: l) &&& 0xFF]
            else
              [(x &&& 0xF0) |||
                ref_span_len (x &&& 0xF0) (span_max_len (x &&& 0xF0)) (x :: l)])
            ++ ref_encode ((x :: l).drop
                (ref_span_len (x &&& 0xF0) (span_max_len (x &&& 0xF0)) (x :: l))) := by
        intro l
        rw [ref_encode]
        rfl
      have hcons : (x :: t) ++ b = x :: (t ++ b) := rfl
      rw [hstep t]
      rw [hcons, hstep (t ++ b), ← hcons, hlen, List.drop_append_of_le_length hbd.2.2,
        ih _ (by rw [List.length_drop]; simp only [List.length_cons] at ha hbd ⊢; omega) ?_,
        List.append_assoc]
      intro z hz y hy
      apply hbreak z _ y hy
      rw [List.getLast?_drop] at hz
      split at hz
      · simp at hz
      · exact hz

/-- The encoding of non-empty rows placed one after the other is the
concatenation of the encodings of the rows when the high nibble changes at
every row boundary. -/
theorem encode_plane_rows (rows : List (List Nat)) (hne : ∀ r ∈ rows, r ≠ [])
    (hbreak : List.Chain'
      (fun a b : List Nat => ∀ x ∈ a.getLast?, ∀ y ∈ b.head?, (x &&& 0xF0) ≠ (y &&& 0xF0))
      rows) :
    encode_plane rows.flatten = (rows.map encode_plane).flatten := by
  induction rows with
  | nil => rfl
  | cons r rs ih =>
    rw [List.flatten_cons, List.map_cons, List.flatten_cons, encode_plane_eq_ref,
      ref_encode_append rs.flatten r.length r (Nat.le_refl _), ← encode_plane_eq_ref,
      ← encode_plane_eq_ref, ih (fun x hx => hne x (List.mem_cons_of_mem _ hx))
        (List.Chain'.tail hbreak)]
    intro x hx y hy
    cases rs with
    | nil => simp at hy
    | cons r2 rs2 =>
      have hr2 : r2 ≠ [] := hne r2 (by simp)
      rw [List.flatten_cons, List.head?_append_of_ne_nil _ hr2] at hy
      exact (List.chain'_cons.mp hbreak).1 x hx y hy

theorem length_flatten_rows (rows : List (List Nat)) (n : Nat) (h : ∀ r ∈ rows, r.length = n) :
    rows.flatten.length = rows.length * n := by
  induction rows with
  | nil => simp
  | cons r rs ih =>
    rw [List.flatten_cons, List.length_append, h r (List.mem_cons_self _ _),
      ih (fun x hx => h x (List.mem_cons_of_mem _ hx)), List.length_cons]
    ring

theorem flatten_nil_rows (rows : List (List Nat)) (h : ∀ r ∈ rows, r = []) :
    rows.flatten = [] := by
  induction rows with
  | nil => rfl
  | cons r rs ih =>
    rw [List.flatten_cons, h r (List.mem_cons_self _ _),
      ih (fun x hx => h x (List.mem_cons_of_mem _ hx))]
    rfl

/-- C25 (amended). The encoder treats the plane as one sequence of bytes in scan
order. For a plane given by its `h` rows of `w * num_components` bytes each
(fewer than 2^64 bytes in all) in which the high nibble changes at every row
boundary, the encoded stream is the concatenation of the encodings of the
rows taken separately. -/
theorem encoder_rows (rows : List (List Nat)) (w h num_components : Nat)
    (hrows : rows.length = h) (hw : ∀ r ∈ rows, r.length = w * num_components)
    (hfit : w * h * num_components < 2 ^ 64)
    (hbreak : List.Chain'
      (fun a b : List Nat => ∀ x ∈ a.getLast?, ∀ y ∈ b.head?, (x &&& 0xF0) ≠ (y &&& 0xF0))
      rows) :
    (AnycubicSLARasterEncoder rows.flatten w h num_components).buffer =
      (rows.map (fun r => (AnycubicSLARasterEncoder r w 1 num_components).buffer)).flatten := by
  have hlen : rows.flatten.length = w * h * num_components := by
    rw [length_flatten_rows rows _ hw, hrows]; ring
  have hrow : ∀ r ∈ rows, (AnycubicSLARasterEncoder r w 1 num_components).buffer =
      encode_plane r := by
    intro r hr
    have hpos : 0 < h := by
      rw [← hrows]; exact List.length_pos_of_mem hr
    have hle : w * num_components ≤ w * h * num_components := by
      calc w * num_components = w * 1 * num_components := by ring
        _ ≤ w * h * num_components :=
          Nat.mul_le_mul_right _ (Nat.mul_le_mul_left _ hpos)
    rw [encoder_buffer_eq, encoder_source_eq r w 1 num_components (by rw [hw r hr]; ring)
      (by rw [hw r hr]; omega)]
  rw [encoder_buffer_eq, encoder_source_eq _ w h num_components hlen (by rw [hlen]; exact hfit),
    List.map_congr_left hrow]
  by_cases hz : w * num_components = 0
  · have hnil : ∀ r ∈ rows, r = [] := fun r hr =>
      List.length_eq_zero.mp (by rw [hw r hr, hz])
    rw [flatten_nil_rows rows hnil]
    symm
    apply flatten_nil_rows
    intro e he
    obtain ⟨r, hr, hre⟩ := List.mem_map.mp he
    rw [← hre, hnil r hr]
    rfl
  · exact encode_plane_rows rows
      (fun r hr hnil => hz (by rw [← hw r hr, hnil]; rfl)) hbreak

/-- Witness of C25 (amended): two rows 00 F0, the nibble changes at the row
boundary. -/
theorem encoder_rows_witness :
    (AnycubicSLARasterEncoder [[0x00, 0xF0], [0x00, 0xF0]].flatten 2 2 1).buffer =
      ([[0x00, 0xF0], [0x00, 0xF0]].map
        (fun r => (AnycubicSLARasterEncoder r 2 1 1).buffer)).flatten :=
  encoder_rows [[0x00, 0xF0], [0x00, 0xF0]] 2 2 1 rfl (by decide) (by decide)
    (by simp)

/-- C25 (counterexample). A 2x2 plane of transparent pixels is encoded as one
code of run length 4 covering both rows; its rows taken separately give two
codes of run length 2. -/
theorem encoder_span_crosses_rows :
    [[0x00, 0x00], [0x00, 0x00]].flatten = [0x00, 0x00, 0x00, 0x00] ∧
    (AnycubicSLARasterEncoder [0x00, 0x00, 0x00, 0x00] 2 2 1).buffer = [0x00, 0x04] ∧
    ([[0x00, 0x00], [0x00, 0x00]].map
      (fun r => (AnycubicSLARasterEncoder r 2 1 1).buffer)).flatten =
        [0x00, 0x02, 0x00, 0x02] ∧
    encoder_spans 4 [0x00, 0x00, 0x00, 0x00] = [(0x00, 4)] := by
  decide

/-! ## Stores of the preview converter -/

/-- The conversion loop performs exactly the recorded stores, in their order:
its result is the destination buffer after every recorded `(index, value)`
pair has been stored into it. -/
theorem fill_preview_loop_eq_stores (src : List Nat) (len fuel : Nat) :
    ∀ (i dst pixel_x : Nat) (px : List Nat),
      fill_preview_loop src len fuel i dst pixel_x px =
        (fill_preview_stores_loop src len fuel i dst pixel_x).1.foldl
          (fun b s => b.set s.1 s.2) px := by
  induction fuel with
  | zero => intro i dst pixel_x px; rfl
  | succ f ih =>
    intro i dst pixel_x px
    by_cases hlt : i < len
    · rw [fill_preview_loop_step src len f i dst pixel_x px hlt]
      rw [fill_preview_stores_loop, if_pos hlt]
      by_cases hx : pixel_x + 1 = PREV_W
      · simp only [if_pos hx, List.foldl_cons]
        exact ih _ _ _ _
      · simp only [if_neg hx, List.foldl_cons]
        exact ih _ _ _ _
    · rw [fill_preview_loop_done _ _ _ _ _ _ _ hlt, fill_preview_stores_loop, if_neg hlt]
      rfl

/-- Stores at positions other than `pos` leave the byte at `pos` unchanged. -/
theorem foldl_set_untouched (st : List (Nat × Nat)) :
    ∀ (px : List Nat) (pos : Nat), pos ∉ st.map Prod.fst →
      (st.foldl (fun b s => b.set s.1 s.2) px)[pos]? = px[pos]? := by
  induction st with
  | nil => intro px pos _; rfl
  | cons s rest ih =>
    intro px pos hpos
    rw [List.map_cons, List.mem_cons, not_or] at hpos
    rw [List.foldl_cons, ih _ pos hpos.2, List.getElem?_set_ne (fun h => hpos.1 h.symm)]

/-- The stores recorded from source pixel `k` on: the two bytes of every
remaining pixel at its two destination positions, in pixel order; the index
ends at 2^32 - 448. -/
theorem fill_preview_stores_loop_spec (src : List Nat) (fuel : Nat) :
    ∀ (k dst : Nat), k < 37632 → 37632 - k ≤ fuel → dst = preview_dst k →
      fill_preview_stores_loop src 150528 fuel (4 * k) dst (k % 224) =
        ((List.range' k (37632 - k)).flatMap (fun j =>
            [(preview_dst j, src_pixel src j &&& 0xFF),
              (preview_dst j + 1, (src_pixel src j >>> 8) &&& 0xFF)]),
          4294966848) := by
  induction fuel with
  | zero => intro k dst hk hfuel _; omega
  | succ f ih =>
    intro k dst hk hfuel hdst
    subst hdst
    have hb := preview_dst_lt k hk
    have h1 : u32 (preview_dst k + 1) = preview_dst k + 1 := by unfold u32; omega
    rw [fill_preview_stores_loop, if_pos (by omega)]
    have hr : List.range' k (37632 - k) = k :: List.range' (k + 1) (37632 - (k + 1)) := by
      have : 37632 - k = (37632 - (k + 1)) + 1 := by omega
      rw [this, List.range'_succ]
    have hi4 : 4 * k + 4 = 4 * (k + 1) := by omega
    rw [hr, List.flatMap_cons, h1, hi4]
    by_cases hlast : k + 1 < 37632
    · have hnext := preview_dst_succ k hlast
      have hrec := ih (k + 1) (preview_dst (k + 1)) hlast (by omega) rfl
      by_cases hx : k % 224 + 1 = PREV_W
      · rw [if_pos hx] at hnext
        have hmod : (k + 1) % 224 = 0 := by unfold PREV_W at hx; omega
        rw [hmod] at hrec
        simp only [if_pos hx, hnext, hrec]
        rfl
      · rw [if_neg hx] at hnext
        have hmod : (k + 1) % 224 = k % 224 + 1 := by unfold PREV_W at hx; omega
        rw [hmod] at hrec
        simp only [if_neg hx, hnext, hrec]
        rfl
    · have hk : k = 37631 := by omega
      subst hk
      have hdone : ∀ d x,
          fill_preview_stores_loop src 150528 f (4 * (37631 + 1)) d x = ([], d) := by
        intro d x
        cases f with
        | zero => rfl
        | succ g => rw [fill_preview_stores_loop, if_neg (by omega)]
      have hx : 37631 % 224 + 1 = PREV_W := by decide
      have hend : u32 (u32 (preview_dst 37631 + 2) + 2 ^ 32 - PREV_W * 4) = 4294966848 := by
        decide
      simp only [hdone, if_pos hx, hend]
      rfl

theorem preview_indices_nodup :
    ((List.range 37632).flatMap (fun j => [preview_dst j, preview_dst j + 1])).Nodup := by
  rw [List.nodup_flatMap]
  constructor
  · intro j _
    simp
  · have hp := List.Pairwise.and_mem.mp (List.pairwise_lt_range 37632)
    apply hp.imp
    rintro a b ⟨ha, hb, hab⟩
    rw [List.mem_range] at ha hb
    have hne : preview_dst a ≠ preview_dst b := fun h => by
      have := preview_dst_inj a b ha hb h; omega
    show List.Disjoint [preview_dst a, preview_dst a + 1] [preview_dst b, preview_dst b + 1]
    unfold preview_dst at hne ⊢
    intro x hx1 hx2
    simp only [List.mem_cons, List.mem_singleton, List.not_mem_nil, or_false] at hx1 hx2
    omega

theorem preview_indices_mem (pos : Nat) :
    pos ∈ (List.range 37632).flatMap (fun j => [preview_dst j, preview_dst j + 1]) ↔
      pos < 75264 := by
  rw [List.mem_flatMap]
  constructor
  · rintro ⟨j, hj, hpos⟩
    rw [List.mem_range] at hj
    have := preview_dst_lt j hj
    simp only [List.mem_cons, List.mem_singleton, List.not_mem_nil, or_false] at hpos
    omega
  · intro hpos
    refine ⟨(167 - pos / 448) * 224 + (pos % 448) / 2, ?_, ?_⟩
    · rw [List.mem_range]; omega
    · simp only [List.mem_cons, List.mem_singleton, List.not_mem_nil, or_false]
      unfold preview_dst
      omega

theorem preview_indices_length :
    ((List.range 37632).flatMap (fun j => [preview_dst j, preview_dst j + 1])).length =
      75264 := by
  have h : ∀ l : List Nat,
      (l.flatMap (fun j => [preview_dst j, preview_dst j + 1])).length = 2 * l.length := by
    intro l
    induction l with
    | nil => rfl
    | cons a t ih => rw [List.flatMap_cons, List.length_append, ih, List.length_cons]; simp; omega
  rw [h, List.length_range]

/-- The positions of the recorded stores of a whole conversion. -/
theorem preview_stores_positions (src : List Nat) (l : List Nat) :
    (l.flatMap (fun j =>
      [(preview_dst j, src_pixel src j &&& 0xFF),
        (preview_dst j + 1, (src_pixel src j >>> 8) &&& 0xFF)])).map Prod.fst =
      l.flatMap (fun j => [preview_dst j, preview_dst j + 1]) := by
  induction l with
  | nil => rfl
  | cons a t ih =>
    rw [List.flatMap_cons, List.flatMap_cons, List.map_append, ih]
    rfl

theorem fill_preview_stores_eq (t : ThumbnailData) (rest : List ThumbnailData)
    (hlen : t.pixels.length = 150528) :
    fill_preview_stores (t :: rest) =
      ((List.range 37632).flatMap (fun j =>
          [(preview_dst j, src_pixel t.pixels j &&& 0xFF),
            (preview_dst j + 1, (src_pixel t.pixels j >>> 8) &&& 0xFF)]),
        some 4294966848) := by
  have hne : ¬ (t.pixels.length ≠ PREV_W * PREV_H * 4) := by rw [hlen]; decide
  have hspec := fill_preview_stores_loop_spec t.pixels 150528 0
    (u32 (PREV_W * (PREV_H - 1) * 2)) (by omega) (by omega) (by decide)
  rw [Nat.mul_zero, Nat.zero_mod] at hspec
  unfold fill_preview_stores
  simp only [hne, if_false]
  rw [hlen, hspec, List.range_eq_range']

/-- The preview buffer written by `fill_preview` is the zeroed buffer after the
recorded stores. -/
theorem fill_preview_pixels_eq_stores (p : anycubicsla_format_preview) (t : ThumbnailData)
    (rest : List ThumbnailData) (hlen : t.pixels.length = 150528) :
    (fill_preview p (t :: rest)).pixels =
      (fill_preview_stores (t :: rest)).1.foldl (fun b s => b.set s.1 s.2)
        (List.replicate (PREV_W * PREV_H * 2) 0) := by
  have hne : ¬ (t.pixels.length ≠ PREV_W * PREV_H * 4) := by rw [hlen]; decide
  have hpix : (fill_preview p (t :: rest)).pixels =
      fill_preview_loop t.pixels t.pixels.length t.pixels.length 0
        (u32 (PREV_W * (PREV_H - 1) * 2)) 0 (List.replicate (PREV_W * PREV_H * 2) 0) := by
    unfold fill_preview
    simp only [hne, if_false]
  have hst : (fill_preview_stores (t :: rest)).1 =
      (fill_preview_stores_loop t.pixels t.pixels.length t.pixels.length 0
        (u32 (PREV_W * (PREV_H - 1) * 2)) 0).1 := by
    unfold fill_preview_stores
    simp only [hne, if_false]
  rw [hpix, hst, fill_preview_loop_eq_stores]

/-- C28. For a first thumbnail whose buffer holds exactly 150528 = 224 * 168 * 4
bytes, the stores performed by the conversion loop of `fill_preview` (the
loop's result is, for every destination buffer, that buffer after the
recorded stores, and the preview buffer is the zeroed buffer after them) all
have a destination index below 75264 = 224 * 168 * 2; every byte position of
the preview buffer is stored to exactly once (pixel `k` goes to
`preview_dst k` and the position after it, low byte first), and the value of
every store is the byte found at its position in the finished preview; the
preview buffer has 75264 bytes and no other position, the loop changes no
position it does not store to, and the 32-bit `dst_index` ends at 2^32 - 448:
it wraps only in the decrement that follows the stores of the last pixel and is
not used after it. -/
theorem preview_stores_in_range (p : anycubicsla_format_preview) (t : ThumbnailData)
    (rest : List ThumbnailData) (hlen : t.pixels.length = 150528) :
    (∀ px : List Nat,
      fill_preview_loop t.pixels t.pixels.length t.pixels.length 0
          (u32 (PREV_W * (PREV_H - 1) * 2)) 0 px =
        (fill_preview_stores (t :: rest)).1.foldl (fun b s => b.set s.1 s.2) px) ∧
    (fill_preview p (t :: rest)).pixels =
      (fill_preview_stores (t :: rest)).1.foldl (fun b s => b.set s.1 s.2)
        (List.replicate (PREV_W * PREV_H * 2) 0) ∧
    (∀ s ∈ (fill_preview_stores (t :: rest)).1, s.1 < 75264) ∧
    (∀ pos, pos < 75264 →
      ((fill_preview_stores (t :: rest)).1.map Prod.fst).count pos = 1) ∧
    (fill_preview_stores (t :: rest)).1.length = 75264 ∧
    (fill_preview_stores (t :: rest)).1 =
      (List.range 37632).flatMap (fun k =>
        [(preview_dst k, src_pixel t.pixels k &&& 0xFF),
          (preview_dst k + 1, (src_pixel t.pixels k >>> 8) &&& 0xFF)]) ∧
    (∀ s ∈ (fill_preview_stores (t :: rest)).1,
      (fill_preview p (t :: rest)).pixels[s.1]? = some s.2) ∧
    (fill_preview_stores (t :: rest)).2 = some 4294966848 ∧
    (fill_preview p (t :: rest)).pixels.length = 75264 ∧
    (∀ pos, pos ∉ (fill_preview_stores (t :: rest)).1.map Prod.fst →
      (fill_preview p (t :: rest)).pixels[pos]? = none) ∧
    (∀ (px : List Nat) (pos : Nat),
      pos ∉ (fill_preview_stores (t :: rest)).1.map Prod.fst →
      (fill_preview_loop t.pixels t.pixels.length t.pixels.length 0
        (u32 (PREV_W * (PREV_H - 1) * 2)) 0 px)[pos]? = px[pos]?) ∧
    (150528 = 224 * 168 * 4 ∧ 75264 = 224 * 168 * 2 ∧ 37632 = 224 * 168 ∧
      4294966848 = 2 ^ 32 - 448) := by
  have hne : ¬ (t.pixels.length ≠ PREV_W * PREV_H * 4) := by rw [hlen]; decide
  have hst := fill_preview_stores_eq t rest hlen
  have hst1 : (fill_preview_stores (t :: rest)).1 =
      (List.range 37632).flatMap (fun k =>
        [(preview_dst k, src_pixel t.pixels k &&& 0xFF),
          (preview_dst k + 1, (src_pixel t.pixels k >>> 8) &&& 0xFF)]) := by rw [hst]
  have hst2 : (fill_preview_stores (t :: rest)).2 = some 4294966848 := by rw [hst]
  have hpos : ((fill_preview_stores (t :: rest)).1.map Prod.fst) =
      (List.range 37632).flatMap (fun j => [preview_dst j, preview_dst j + 1]) := by
    rw [hst1, preview_stores_positions]
  have hloop : (fill_preview_stores (t :: rest)).1 =
      (fill_preview_stores_loop t.pixels t.pixels.length t.pixels.length 0
        (u32 (PREV_W * (PREV_H - 1) * 2)) 0).1 := by
    unfold fill_preview_stores
    simp only [hne, if_false]
  have hlink : ∀ px : List Nat,
      fill_preview_loop t.pixels t.pixels.length t.pixels.length 0
          (u32 (PREV_W * (PREV_H - 1) * 2)) 0 px =
        (fill_preview_stores (t :: rest)).1.foldl (fun b s => b.set s.1 s.2) px := by
    intro px
    rw [hloop, fill_preview_loop_eq_stores]
  have hconv := fill_preview_converted p t rest hlen
  refine ⟨hlink, fill_preview_pixels_eq_stores p t rest hlen, ?_, ?_, ?_, hst1, ?_, hst2,
    hconv.1, ?_, ?_, by decide, by decide, by decide, by decide⟩
  · intro s hs
    have hmem : s.1 ∈ (fill_preview_stores (t :: rest)).1.map Prod.fst :=
      List.mem_map_of_mem Prod.fst hs
    rw [hpos] at hmem
    exact (preview_indices_mem s.1).mp hmem
  · intro pos hlt
    rw [hpos]
    exact List.count_eq_one_of_mem preview_indices_nodup ((preview_indices_mem pos).mpr hlt)
  · rw [← List.length_map (fill_preview_stores (t :: rest)).1 Prod.fst, hpos]
    exact preview_indices_length
  · intro s hs
    rw [hst1, List.mem_flatMap] at hs
    obtain ⟨k, hk, hsk⟩ := hs
    rw [List.mem_range] at hk
    simp only [List.mem_cons, List.mem_singleton, List.not_mem_nil, or_false] at hsk
    rcases hsk with h | h
    · rw [h]; exact (hconv.2 k hk).1
    · rw [h]; exact (hconv.2 k hk).2
  · intro pos hnot
    have hout : ¬ pos < 75264 := by
      rw [hpos] at hnot
      exact fun h => hnot ((preview_indices_mem pos).mpr h)
    rw [List.getElem?_eq_none]
    rw [hconv.1]
    omega
  · intro px pos hnot
    rw [hlink px]
    exact foldl_set_untouched _ px pos hnot

/-- Witness of C28: the pure red 224x168 thumbnail. -/
theorem preview_stores_in_range_witness :
    red_thumbnail.pixels.length = 150528 ∧
    (fill_preview preview_zero [red_thumbnail]).pixels =
      (fill_preview_stores [red_thumbnail]).1.foldl (fun b s => b.set s.1 s.2)
        (List.replicate (PREV_W * PREV_H * 2) 0) ∧
    (fill_preview_stores [red_thumbnail]).1.length = 75264 ∧
    (fill_preview_stores [red_thumbnail]).2 = some 4294966848 :=
  ⟨by
      show (List.replicate (224 * 168) [255, 0, 0, 255]).flatten.length = 150528
      rw [length_flatten_replicate]; rfl,
    (preview_stores_in_range preview_zero red_thumbnail [] (by
      show (List.replicate (224 * 168) [255, 0, 0, 255]).flatten.length = 150528
      rw [length_flatten_replicate]; rfl)).2.1,
    (preview_stores_in_range preview_zero red_thumbnail [] (by
      show (List.replicate (224 * 168) [255, 0, 0, 255]).flatten.length = 150528
      rw [length_flatten_replicate]; rfl)).2.2.2.2.1,
    (preview_stores_in_range preview_zero red_thumbnail [] (by
      show (List.replicate (224 * 168) [255, 0, 0, 255]).flatten.length = 150528
      rw [length_flatten_replicate]; rfl)).2.2.2.2.2.2.2.1⟩

/-! ## Properties of the antialiasing flag -/

theorem fill_header_antialiasing (fa : FloatArith) (h : anycubicsla_format_header ℚ)
    (m : anycubicsla_format_misc ℚ) (print : PrintJob) (v : FormatVersion) (n : Nat) :
    (fill_header fa h m print v n).1.antialiasing =
      (if print.material_notes_config.has CFG_ANTIALIASING then
        crop_value (int_to_u32 (get_cfg_value_i print.material_notes_config CFG_ANTIALIASING 0))
          0 1
       else 1) := rfl

theorem crop_value_flag (val : Nat) :
    (crop_value val 0 1 = 0 ↔ val = 0) ∧ (val ≠ 0 → crop_value val 0 1 = 1) := by
  unfold crop_value
  constructor
  · constructor
    · intro h
      split at h
      · omega
      · split at h <;> omega
    · intro h
      subst h
      rfl
  · intro h
    rw [if_neg (by omega)]
    split <;> omega

theorem int_to_u32_eq_zero (x : Int) (h1 : -2 ^ 31 ≤ x) (h2 : x < 2 ^ 31) :
    int_to_u32 x = 0 ↔ x = 0 := by
  unfold int_to_u32
  constructor
  · intro h
    have hnn : 0 ≤ x % 2 ^ 32 := Int.emod_nonneg _ (by norm_num)
    have hz : x % 2 ^ 32 = 0 := by
      have := Int.toNat_of_nonneg hnn
      omega
    omega
  · intro h
    subst h
    rfl

theorem int_to_u32_neg (x : Int) (h1 : -2 ^ 31 ≤ x) (h2 : x < 0) :
    2 ^ 31 ≤ int_to_u32 x := by
  unfold int_to_u32
  have hnn : 0 ≤ x % 2 ^ 32 := Int.emod_nonneg _ (by norm_num)
  have := Int.toNat_of_nonneg hnn
  omega

/-- C29. The antialiasing flag of the header after `fill_header` is 0 or 1. It
is 1 when the material notes have no `ANTIALIASING` key. For a present signed
32-bit value `x` it is 0 exactly when `x = 0` and 1 for every other `x`; a
negative `x` is converted to an unsigned value of at least 2^31 before it is
clamped to 1. -/
theorem antialiasing_flag (fa : FloatArith) (h : anycubicsla_format_header ℚ)
    (m : anycubicsla_format_misc ℚ) (print : PrintJob) (v : FormatVersion) (n : Nat) :
    ((fill_header fa h m print v n).1.antialiasing = 0 ∨
      (fill_header fa h m print v n).1.antialiasing = 1) ∧
    (print.material_notes_config.has CFG_ANTIALIASING = false →
      (fill_header fa h m print v n).1.antialiasing = 1) ∧
    (∀ x : Int, print.material_notes_config.int_opt CFG_ANTIALIASING = some x →
      -2 ^ 31 ≤ x → x < 2 ^ 31 →
      ((fill_header fa h m print v n).1.antialiasing = 0 ↔ x = 0) ∧
      (x ≠ 0 → (fill_header fa h m print v n).1.antialiasing = 1) ∧
      (x < 0 → 2 ^ 31 ≤ int_to_u32 x)) := by
  rw [fill_header_antialiasing]
  refine ⟨?_, ?_, ?_⟩
  · split
    · by_cases hz :
          int_to_u32 (get_cfg_value_i print.material_notes_config CFG_ANTIALIASING 0) = 0
      · exact Or.inl ((crop_value_flag _).1.mpr hz)
      · exact Or.inr ((crop_value_flag _).2 hz)
    · exact Or.inr rfl
  · intro hno
    rw [if_neg (by rw [hno]; exact Bool.false_ne_true)]
  · intro x hx h1 h2
    have hhas : print.material_notes_config.has CFG_ANTIALIASING = true := by
      unfold DynamicConfig.has
      rw [hx]
      simp
    have hget : get_cfg_value_i print.material_notes_config CFG_ANTIALIASING 0 = x := by
      unfold get_cfg_value_i
      rw [hx]
    rw [if_pos hhas, hget]
    refine ⟨?_, ?_, fun hneg => int_to_u32_neg x h1 hneg⟩
    · rw [(crop_value_flag _).1, int_to_u32_eq_zero x h1 h2]
    · intro hne
      exact (crop_value_flag _).2 (fun hz => hne ((int_to_u32_eq_zero x h1 h2).mp hz))

/-! ## Properties of the archive registry -/

theorem registered_keys :
    REGISTERED_ARCHIVES.map (fun e => (e.1, e.2.ext)) =
      [("SL1", "sl1"), ("SL2", "sl2"), ("ctb", "ctb"), ("dl2p", "dl2p"), ("dlp", "dlp"),
        ("pm3", "pm3"), ("pm3m", "pm3m"), ("pm3r", "pm3r"), ("pmsq", "pmsq"), ("pmx2", "pmx2"),
        ("pw0", "pw0"), ("pwma", "pwma"), ("pwmb", "pwmb"), ("pwmo", "pwmo"), ("pwms", "pwms"),
        ("pwmx", "pwmx"), ("pws", "pws"), ("pwx", "pwx")] := by
  decide

theorem std_map_find_eq_none {V : Type} (m : List (String × V)) (key : String) :
    std_map_find m key = none ↔ key ∉ m.map (fun e => e.1) := by
  unfold std_map_find
  induction m with
  | nil => simp
  | cons e rest ih =>
    by_cases h : e.1 = key
    · simp [List.find?_cons, h]
    · rw [List.find?_cons, decide_eq_false h, List.map_cons, List.mem_cons, not_or]
      exact ⟨fun hn => ⟨fun hk => h hk.symm, ih.mp hn⟩, fun hn => ih.mpr hn.2⟩

theorem std_map_find_of_mem {V : Type} (m : List (String × V)) (key : String) (v : V)
    (hnd : (m.map (fun e => e.1)).Nodup) (hmem : (key, v) ∈ m) :
    std_map_find m key = some v := by
  unfold std_map_find
  induction m with
  | nil => simp at hmem
  | cons e rest ih =>
    rw [List.map_cons, List.nodup_cons] at hnd
    rcases List.mem_cons.mp hmem with h | h
    · rw [← h]
      simp [List.find?_cons]
    · have hne : e.1 ≠ key := by
        intro hk
        apply hnd.1
        rw [hk]
        exact List.mem_map.mpr ⟨(key, v), h, rfl⟩
      rw [List.find?_cons, decide_eq_false hne]
      exact ih hnd.2 h

/-- Every element of a map built from an initializer list is an element of
the list. -/
theorem std_map_insert_subset {V : Type} (kv : String × V) (m : List (String × V)) :
    ∀ e ∈ std_map_insert kv m, e = kv ∨ e ∈ m := by
  induction m with
  | nil => intro e he; simp [std_map_insert] at he; exact Or.inl he
  | cons a rest ih =>
    intro e he
    unfold std_map_insert at he
    split at he
    · rcases List.mem_cons.mp he with h | h
      · exact Or.inl h
      · exact Or.inr h
    · split at he
      · rcases List.mem_cons.mp he with h | h
        · exact Or.inr (by rw [h]; exact List.mem_cons_self _ _)
        · rcases ih e h with h2 | h2
          · exact Or.inl h2
          · exact Or.inr (List.mem_cons_of_mem _ h2)
      · exact Or.inr he

theorem std_map_of_list_subset {V : Type} (init : List (String × V)) :
    ∀ e ∈ std_map_of_list init, e ∈ init := by
  unfold std_map_of_list
  have h : ∀ (l acc : List (String × V)),
      ∀ e ∈ l.foldl (fun m kv => std_map_insert kv m) acc, e ∈ acc ∨ e ∈ l := by
    intro l
    induction l with
    | nil => intro acc e he; exact Or.inl he
    | cons kv rest ih =>
      intro acc e he
      rw [List.foldl_cons] at he
      rcases ih _ e he with h1 | h1
      · rcases std_map_insert_subset kv acc e h1 with h2 | h2
        · exact Or.inr (by rw [h2]; exact List.mem_cons_self _ _)
        · exact Or.inl h2
      · exact Or.inr (List.mem_cons_of_mem _ h1)
  intro e he
  rcases h init [] e he with h1 | h1
  · simp at h1
  · exact h1

theorem registered_factories (cfg : SLAPrinterConfig) :
    ∀ e ∈ REGISTERED_ARCHIVES, e.2.factoryfn cfg ≠ none := by
  intro e he
  have hinit := std_map_of_list_subset REGISTERED_ARCHIVES_init e he
  simp only [REGISTERED_ARCHIVES_init, ANYCUBIC_SLA_FORMAT_VERSIONED, List.mem_cons,
    List.mem_singleton, List.not_mem_nil, or_false] at hinit
  rcases hinit with h | h | h | h | h | h | h | h | h | h | h | h | h | h | h | h | h | h <;>
    rw [h] <;> simp [make_unique]

theorem std_map_find_some {V : Type} (m : List (String × V)) (key : String) (v : V)
    (h : std_map_find m key = some v) : (key, v) ∈ m := by
  unfold std_map_find at h
  cases hf : m.find? (fun e => decide (e.1 = key)) with
  | none => rw [hf] at h; simp at h
  | some e =>
    rw [hf, Option.map_some', Option.some.injEq] at h
    have hmem := List.mem_of_find?_eq_some hf
    have hkey := List.find?_some hf
    simp only [decide_eq_true_eq] at hkey
    rw [← hkey, ← h]
    exact hmem

theorem registered_names :
    REGISTERED_ARCHIVES.map (fun e => e.1) =
      ["SL1", "SL2", "ctb", "dl2p", "dlp", "pm3", "pm3m", "pm3r", "pmsq", "pmx2", "pw0", "pwma",
        "pwmb", "pwmo", "pwms", "pwmx", "pws", "pwx"] := by
  decide

/-- C30. `SLAArchiveWriter::create` returns a null writer exactly when the
archive type is not a key of `REGISTERED_ARCHIVES`; `get_extension` returns
the extension of the entry when the type is a key ("sl1" for "SL1", "sl2" for
"SL2", "ctb" for "ctb") and "zip" otherwise; `registered_archives` returns the
keys of the map, each once, among them the key of every entry of the
initializer list, and returns the same list when called again. -/
theorem registry_lookup (t : String) (cfg : SLAPrinterConfig) :
    (SLAArchiveWriter.create t cfg = none ↔ t ∉ REGISTERED_ARCHIVES.map (fun e => e.1)) ∧
    (∀ e : ArchiveEntry, (t, e) ∈ REGISTERED_ARCHIVES →
      SLAArchiveWriter.get_extension t = e.ext ∧
      SLAArchiveWriter.create t cfg = e.factoryfn cfg) ∧
    (t ∉ REGISTERED_ARCHIVES.map (fun e => e.1) → SLAArchiveWriter.get_extension t = "zip") ∧
    (SLAArchiveWriter.get_extension "SL1" = "sl1" ∧
      SLAArchiveWriter.get_extension "SL2" = "sl2" ∧
      SLAArchiveWriter.get_extension "ctb" = "ctb") ∧
    SLAArchiveWriter.registered_archives [] = REGISTERED_ARCHIVES.map (fun e => e.1) ∧
    (SLAArchiveWriter.registered_archives []).Nodup ∧
    (∀ kv ∈ REGISTERED_ARCHIVES_init, kv.1 ∈ SLAArchiveWriter.registered_archives []) ∧
    SLAArchiveWriter.registered_archives (SLAArchiveWriter.registered_archives []) =
      SLAArchiveWriter.registered_archives [] ∧
    SLAArchiveWriter.registered_archives [] =
      ["SL1", "SL2", "ctb", "dl2p", "dlp", "pm3", "pm3m", "pm3r", "pmsq", "pmx2", "pw0", "pwma",
        "pwmb", "pwmo", "pwms", "pwmx", "pws", "pwx"] := by
  have hnames : SLAArchiveWriter.registered_archives [] =
      REGISTERED_ARCHIVES.map (fun e => e.1) := rfl
  have hnd : (REGISTERED_ARCHIVES.map (fun e => e.1)).Nodup := by
    rw [registered_names]; decide
  refine ⟨?_, ?_, ?_, by decide, hnames, by rw [hnames]; exact hnd, ?_, ?_,
    by rw [hnames]; exact registered_names⟩
  · unfold SLAArchiveWriter.create
    cases hf : std_map_find REGISTERED_ARCHIVES t with
    | none => simp only [true_iff]; exact (std_map_find_eq_none _ _).mp hf
    | some entry =>
      have hmem := std_map_find_some _ _ _ hf
      have hkey : t ∈ REGISTERED_ARCHIVES.map (fun e => e.1) :=
        List.mem_map.mpr ⟨(t, entry), hmem, rfl⟩
      simp only [hkey, not_true_eq_false, iff_false]
      exact registered_factories cfg (t, entry) hmem
  · intro e he
    have hf := std_map_find_of_mem REGISTERED_ARCHIVES t e hnd he
    unfold SLAArchiveWriter.get_extension SLAArchiveWriter.create
    rw [hf]
    exact ⟨rfl, rfl⟩
  · intro hno
    unfold SLAArchiveWriter.get_extension
    rw [(std_map_find_eq_none _ _).mpr hno]
  · rw [hnames, registered_names]
    decide
  · rw [hnames, registered_names]
    rfl

/-! ## Properties of the output stream -/

theorem ofstream_setstate_no_mask (s : ofstream) (hmask : s.exceptions = false) :
    ofstream_setstate s = Except.ok { s with fail := true } := by
  unfold ofstream_setstate
  rw [hmask]
  rfl

theorem ofstream_fail_eq (s : ofstream) (hf : s.fail = true) : { s with fail := true } = s := by
  obtain ⟨e, o, f, fl⟩ := s
  simp only at hf
  subst hf
  rfl

theorem ofstream_write_no_mask (target : OutputTarget) (s : ofstream) (data : List Nat)
    (hmask : s.exceptions = false) :
    ∃ out, ofstream_write target s data = Except.ok out ∧ out.exceptions = false ∧
      out.is_open = s.is_open ∧ (s.fail = true → out = s) ∧
      (s.fail = false → s.is_open = true → target.capacity = none →
        out = { s with file := s.file ++ data }) := by
  unfold ofstream_write
  by_cases hf : s.fail = true
  · refine ⟨s, ?_, hmask, rfl, fun _ => rfl, fun h => ?_⟩
    · rw [if_pos (Or.inl hf), ofstream_setstate_no_mask s hmask, ofstream_fail_eq s hf]
    · rw [hf] at h; exact absurd h (by decide)
  · have hf2 : s.fail = false := by simpa using hf
    by_cases ho : s.is_open = false
    · refine ⟨{ s with fail := true }, ?_, hmask, rfl, fun h => absurd h hf, fun _ h => ?_⟩
      · rw [if_pos (Or.inr ho), ofstream_setstate_no_mask s hmask]
      · rw [ho] at h; exact absurd h (by decide)
    · rw [if_neg (by simp [hf2, ho])]
      cases hc : target.capacity with
      | none =>
        exact ⟨{ s with file := s.file ++ data }, rfl, hmask, rfl, fun h => absurd h hf,
          fun _ _ _ => rfl⟩
      | some cap =>
        simp only
        split
        · exact ⟨{ s with file := s.file ++ data }, rfl, hmask, rfl, fun h => absurd h hf,
            fun _ _ h => by simp at h⟩
        · refine ⟨{ s with file := s.file ++ data.take (cap - s.file.length), fail := true },
            ?_, hmask, rfl, fun h => absurd h hf, fun _ _ h => by simp at h⟩
          exact ofstream_setstate_no_mask
            { s with file := s.file ++ data.take (cap - s.file.length) } hmask

theorem ofstream_writes_no_mask (target : OutputTarget) (writes : List (List Nat)) :
    ∀ s : ofstream, s.exceptions = false →
      ∃ out, writes.foldlM (fun s data => ofstream_write target s data) s = Except.ok out ∧
        out.exceptions = false ∧ out.is_open = s.is_open ∧ (s.fail = true → out = s) ∧
        (s.fail = false → s.is_open = true → target.capacity = none →
          out = { s with file := s.file ++ writes.flatten }) := by
  induction writes with
  | nil =>
    intro s hmask
    refine ⟨s, rfl, hmask, rfl, fun _ => rfl, fun _ _ _ => ?_⟩
    rw [List.flatten_nil, List.append_nil]
  | cons data rest ih =>
    intro s hmask
    obtain ⟨s1, h1, hm1, ho1, hf1, hg1⟩ := ofstream_write_no_mask target s data hmask
    obtain ⟨s2, h2, hm2, ho2, hf2, hg2⟩ := ih s1 hm1
    refine ⟨s2, ?_, hm2, by rw [ho2, ho1], ?_, ?_⟩
    · rw [List.foldlM_cons, h1]
      exact h2
    · intro hf
      have hs1 := hf1 hf
      rw [hf2 (by rw [hs1]; exact hf), hs1]
    · intro hf ho hc
      have hs1 := hg1 hf ho hc
      have := hg2 (by rw [hs1]; exact hf) (by rw [hs1]; exact ho) hc
      rw [this, hs1, List.flatten_cons, List.append_assoc]

theorem export_print_try_no_throw (target : OutputTarget) (writes : List (List Nat)) :
    ∃ out, export_print_try target writes = Except.ok out ∧
      (target.can_open = false →
        out = { exceptions := false, is_open := false, fail := true, file := [] }) ∧
      (target.can_open = true → target.capacity = none →
        out.fail = false ∧ out.file = writes.flatten) := by
  unfold export_print_try
  by_cases hopen : target.can_open = true
  · have ho : ofstream_open target ofstream_default =
        Except.ok { ofstream_default with is_open := true, file := [] } := by
      unfold ofstream_open
      rw [if_pos ⟨hopen, rfl⟩]
    obtain ⟨s2, h2, _, hop, _, hg⟩ := ofstream_writes_no_mask target writes
      { ofstream_default with is_open := true, file := [] } rfl
    rw [ho]
    simp only [h2]
    have hs2 : s2.is_open = true := hop
    refine ⟨{ s2 with is_open := false }, ?_, fun h => ?_, fun _ hc => ?_⟩
    · unfold ofstream_close
      rw [if_pos hs2]
    · rw [hopen] at h; exact absurd h (by decide)
    · rw [hg rfl rfl hc]
      exact ⟨rfl, List.nil_append _⟩
  · have hno : target.can_open = false := by simpa using hopen
    have ho : ofstream_open target ofstream_default =
        Except.ok { ofstream_default with fail := true } := by
      unfold ofstream_open
      rw [if_neg (fun h => hopen h.1)]
      exact ofstream_setstate_no_mask _ rfl
    obtain ⟨s2, h2, _, _, hf, _⟩ := ofstream_writes_no_mask target writes
      { ofstream_default with fail := true } rfl
    rw [ho]
    simp only [h2]
    have hs2 := hf rfl
    refine ⟨s2, ?_, fun _ => ?_, fun h => ?_⟩
    · unfold ofstream_close
      rw [hs2]
      rfl
    · rw [hs2]; rfl
    · exact absurd h hopen

/-- C21 (evaluation of the code). No call of `export_print` ends with an
exception of its output stream: the stream is default-constructed, its
exception mask is empty, and a failing `open`, `write` or `close` only sets a
state flag that the function never reads. When the file cannot be opened, a
call that passes the entry assertion returns normally with nothing written;
when the file can be opened and every write is accepted, the file holds the
sections in order. -/
theorem io_failure_not_reported {F : Type} (ndebug : Bool) (fo : FloatOps F)
    (v : FormatVersion) (m_layers : List EncodedRaster) (print : SLAPrint F)
    (thumbnails : List ThumbnailData) (dpi : Nat) (target : OutputTarget) :
    (∀ e : ios_failure,
      export_print_file ndebug fo v m_layers print thumbnails dpi target ≠
        Except.error (ExportFailure.rethrown e)) ∧
    ((ndebug = true ∨ v.val ≤ FormatVersion.V516.val) → target.can_open = false →
      ∃ out, export_print_file ndebug fo v m_layers print thumbnails dpi target =
          Except.ok out ∧ out.fail = true ∧ out.file = []) ∧
    ((ndebug = true ∨ v.val ≤ FormatVersion.V516.val) → target.can_open = true →
      target.capacity = none →
      ∃ out, export_print_file ndebug fo v m_layers print thumbnails dpi target =
          Except.ok out ∧ out.fail = false ∧
        out.file = (export_print_body fo v m_layers print thumbnails dpi).file) ∧
    (export_print_file true fo .V1 [] print [] dpi { can_open := false, capacity := none } =
      Except.ok { exceptions := false, is_open := false, fail := true, file := [] }) := by
  have hok : ∀ (nd : Bool) (ver : FormatVersion) (ls : List EncodedRaster)
      (th : List ThumbnailData) (tg : OutputTarget),
      (nd = true ∨ ver.val ≤ FormatVersion.V516.val) →
      export_print_file nd fo ver ls print th dpi tg =
        match export_print_try tg
          ((export_print_body fo ver ls print th dpi).written.map Prod.snd) with
        | Except.error e => Except.error (ExportFailure.rethrown e)
        | Except.ok out => Except.ok out := by
    intro nd ver ls th tg h
    unfold export_print_file
    rw [export_print_ok nd fo ver ls print th dpi h]
  refine ⟨?_, ?_, ?_, ?_⟩
  · intro e
    unfold export_print_file
    cases export_print ndebug fo v m_layers print thumbnails dpi with
    | error _ => simp
    | ok r =>
      obtain ⟨out, hout, _⟩ := export_print_try_no_throw target (r.written.map Prod.snd)
      simp only [hout]
      simp
  · intro hpass hno
    obtain ⟨out, hout, hfail, _⟩ := export_print_try_no_throw target
      ((export_print_body fo v m_layers print thumbnails dpi).written.map Prod.snd)
    rw [hok _ _ _ _ _ hpass]
    simp only [hout]
    refine ⟨out, rfl, ?_, ?_⟩
    · rw [hfail hno]
    · rw [hfail hno]
  · intro hpass hcan hcap
    obtain ⟨out, hout, _, hgood⟩ := export_print_try_no_throw target
      ((export_print_body fo v m_layers print thumbnails dpi).written.map Prod.snd)
    rw [hok _ _ _ _ _ hpass]
    simp only [hout]
    refine ⟨out, rfl, (hgood hcan hcap).1, ?_⟩
    rw [(hgood hcan hcap).2]
    unfold ExportResult.file
    rw [List.flatMap_def]
  · obtain ⟨out, hout, hfail, _⟩ := export_print_try_no_throw
      { can_open := false, capacity := none }
      ((export_print_body fo .V1 [] print [] dpi).written.map Prod.snd)
    rw [hok _ _ _ _ _ (Or.inl rfl)]
    simp only [hout]
    rw [hfail rfl]


/-! ## Format versions of the registered archive types -/

/-- The Anycubic writers built by the entries of the initializer list are
built for V1 or V516. -/
theorem registered_init_versions (cfg : SLAPrinterConfig) :
    ∀ kv ∈ REGISTERED_ARCHIVES_init, ∀ (w : SLAArchiveWriter) (v : FormatVersion),
      kv.2.factoryfn cfg = some w → w.m_version = some v →
      v = FormatVersion.V1 ∨ v = FormatVersion.V516 := by
  intro kv hkv w v hw hv
  simp only [REGISTERED_ARCHIVES_init, ANYCUBIC_SLA_FORMAT_VERSIONED, List.mem_cons,
    List.mem_singleton, List.not_mem_nil, or_false] at hkv
  rcases hkv with h | h | h | h | h | h | h | h | h | h | h | h | h | h | h | h | h | h <;>
    subst h <;>
    simp only [make_unique, Option.some.injEq] at hw <;>
    subst hw <;>
    simp only [SLAArchiveWriter.m_version, Option.some.injEq] at hv <;>
    first
      | exact Or.inl hv.symm
      | exact Or.inr hv.symm
      | exact absurd hv (by simp)

/-- A writer returned by `create` is built by the factory of an entry of the
initializer list. -/
theorem create_some (t : String) (cfg : SLAPrinterConfig) (w : SLAArchiveWriter)
    (h : SLAArchiveWriter.create t cfg = some w) :
    ∃ e : ArchiveEntry, (t, e) ∈ REGISTERED_ARCHIVES_init ∧ e.factoryfn cfg = some w := by
  unfold SLAArchiveWriter.create at h
  cases hf : std_map_find REGISTERED_ARCHIVES t with
  | none => rw [hf] at h; simp at h
  | some entry =>
    rw [hf] at h
    exact ⟨entry, std_map_of_list_subset _ _ (std_map_find_some _ _ _ hf), h⟩

/-- An export at V1 or V516 writes neither the software nor the model
section. -/
theorem no_V517_sections {F : Type} (fo : FloatOps F) (v : FormatVersion)
    (m_layers : List EncodedRaster) (print : SLAPrint F) (thumbnails : List ThumbnailData)
    (dpi : Nat) (hv : v = FormatVersion.V1 ∨ v = FormatVersion.V516) :
    (export_print_body fo v m_layers print thumbnails dpi).intro.software_data_offset = 0 ∧
    (export_print_body fo v m_layers print thumbnails dpi).intro.model_data_offset = 0 ∧
    Section.software ∉ (export_print_body fo v m_layers print thumbnails dpi).written.map Prod.fst ∧
    Section.model ∉ (export_print_body fo v m_layers print thumbnails dpi).written.map Prod.fst := by
  have hoff :
      (export_print_body fo v m_layers print thumbnails dpi).intro.software_data_offset = 0 ∧
      (export_print_body fo v m_layers print thumbnails dpi).intro.model_data_offset = 0 := by
    rcases hv with h | h
    · subst h; rw [body_intro_V1]; exact ⟨rfl, rfl⟩
    · subst h; rw [body_intro_V516]; exact ⟨rfl, rfl⟩
  have hw := optional_section_written fo v m_layers (u32 m_layers.length)
    (export_print_body fo v m_layers print thumbnails dpi).intro
    (print.fill_header v (u32 m_layers.length)).1
    (print.fill_header v (u32 m_layers.length)).2
    (export_preview v thumbnails)
    (if FormatVersion.V515.val ≤ v.val then fill_color color_zero else color_zero) dpi
    (if FormatVersion.V516.val ≤ v.val then print.fill_extra else extra_zero fo)
    (if FormatVersion.V516.val ≤ v.val then
      print.fill_machine (export_print_body fo v m_layers print thumbnails dpi).intro.version
     else machine_zero fo)
    (if FormatVersion.V517.val ≤ v.val then fill_software software_zero else software_zero)
    (if FormatVersion.V517.val ≤ v.val then fill_model (model_zero fo) else model_zero fo)
  rw [← export_print_body_written] at hw
  refine ⟨hoff.1, hoff.2, ?_, ?_⟩
  · intro hmem
    exact (hw.2.2.2.1.mp hmem) hoff.1
  · intro hmem
    exact (hw.2.2.2.2.mp hmem) hoff.2

/-- C31. Every Anycubic writer built by an entry of `REGISTERED_ARCHIVES` is
built for format version V1 or V516. For every writer obtained through
`SLAArchiveWriter::create` that has a format version, the version is V1 or
V516, the entry assertion `m_version <= V516` of `export_print` holds, so the
export runs its body in every build, and neither the software nor the model
section is written. Such writers exist: "pwmx" gives a V1 writer, "pwma" a
V516 writer. -/
theorem registered_versions_supported {F : Type} (t : String) (cfg : SLAPrinterConfig)
    (w : SLAArchiveWriter) (v : FormatVersion) (ndebug : Bool) (fo : FloatOps F)
    (m_layers : List EncodedRaster) (print : SLAPrint F) (thumbnails : List ThumbnailData)
    (dpi : Nat) :
    (∀ kv ∈ REGISTERED_ARCHIVES_init, ∀ (w2 : SLAArchiveWriter) (v2 : FormatVersion),
      kv.2.factoryfn cfg = some w2 → w2.m_version = some v2 →
      v2 = FormatVersion.V1 ∨ v2 = FormatVersion.V516) ∧
    (SLAArchiveWriter.create t cfg = some w → w.m_version = some v →
      (v = FormatVersion.V1 ∨ v = FormatVersion.V516) ∧
      v.val ≤ FormatVersion.V516.val ∧
      export_print ndebug fo v m_layers print thumbnails dpi =
        Except.ok (export_print_body fo v m_layers print thumbnails dpi) ∧
      (export_print_body fo v m_layers print thumbnails dpi).intro.software_data_offset = 0 ∧
      (export_print_body fo v m_layers print thumbnails dpi).intro.model_data_offset = 0 ∧
      Section.software ∉
        (export_print_body fo v m_layers print thumbnails dpi).written.map Prod.fst ∧
      Section.model ∉
        (export_print_body fo v m_layers print thumbnails dpi).written.map Prod.fst) ∧
    SLAArchiveWriter.create "pwmx" cfg =
      some (SLAArchiveWriter.AnycubicSLAArchive cfg FormatVersion.V1) ∧
    SLAArchiveWriter.create "pwma" cfg =
      some (SLAArchiveWriter.AnycubicSLAArchive cfg FormatVersion.V516) := by
  refine ⟨registered_init_versions cfg, ?_, rfl, rfl⟩
  intro hc hm
  obtain ⟨e, hmem, hfac⟩ := create_some t cfg w hc
  have hv := registered_init_versions cfg (t, e) hmem w v hfac hm
  have hle : v.val ≤ FormatVersion.V516.val := by
    rcases hv with h | h <;> subst h <;> decide
  obtain ⟨h1, h2, h3, h4⟩ := no_V517_sections fo v m_layers print thumbnails dpi hv
  exact ⟨hv, hle, export_print_ok ndebug fo v m_layers print thumbnails dpi (Or.inr hle),
    h1, h2, h3, h4⟩

end AnycubicSLA
